import Mathlib

/-! Smart display firmware: maneuver glyph renderer and screen state machine.

A shallow embedding of `ui_navigation_screen.cpp` (the maneuver classifier, the
glyph geometry helpers and the navigation display controller) and of
`ui_screens.cpp` (the screen state machine), followed by theorems about them.

Conventions of the embedding.

* A C string is the list of its characters before the terminating NUL; a
  `const char*` argument is an `Option (List Char)`, `none` being `nullptr`.
* The file-scope `static` variables of a translation unit are the fields of a
  state record; a `void` function is a function from state to state.
* An LVGL object pointer is an `Option`; the record behind it keeps what the
  firmware sets on the object (hidden flag, line colour, point count).
* `int` arithmetic is done in `Int`; all constants are far from the 32-bit
  limits.  A store into an `lv_coord_t` (16 bit) is wrapped by `lv_coord`.
* Single precision arithmetic and `cosf`/`sinf`/`atan2f` come from the C
  library, not from this repository: they are a parameter `FloatOps`.
-/

namespace SmartDisplay

/-! ## C strings -/

/-- `begins needle hay`: `needle` is an initial segment of `hay`. -/
def begins : List Char → List Char → Bool
  | [], _ => true
  | _ :: _, [] => false
  | a :: as, b :: bs => a == b && begins as bs

/-- `strstr(hay, needle) != NULL`. -/
def strstr (hay needle : List Char) : Bool :=
  match hay with
  | [] => begins needle []
  | c :: cs => begins needle (c :: cs) || strstr cs needle

/-- The per-character lowering of `update_arrow_image`:
`(c >= 'A' && c <= 'Z') ? (c - 'A' + 'a') : c`. -/
def lower_char (c : Char) : Char :=
  if 'A' ≤ c ∧ c ≤ 'Z' then Char.ofNat (c.toNat - 'A'.toNat + 'a'.toNat) else c

/-- The buffer `dir_norm[64]` of `update_arrow_image`: the first
`strnlen(direction, 63)` characters, lowered. -/
def dir_norm (direction : List Char) : List Char :=
  (direction.take 63).map lower_char

/-! ## Theme constants (`ui_theme.h`) -/

def COLOR_ARROW_STRAIGHT : Nat := 0x07E0
def COLOR_ACCENT_YELLOW : Nat := 0xFFE0

/-! ## Floating point -/

/-- The single precision operations used by the glyph helpers.  `ofDec m e` is
the literal `m / 10^e` (`3.14159f` is `ofDec 314159 5`), `toInt` the C
conversion `(int)x`. -/
structure FloatOps where
  F : Type
  ofInt : Int → F
  ofDec : Nat → Nat → F
  add : F → F → F
  sub : F → F → F
  mul : F → F → F
  div : F → F → F
  cosf : F → F
  sinf : F → F
  atan2f : F → F → F
  toInt : F → Int

namespace FixedPoint

/-- One unit is `1 / scale`. -/
def scale : Int := 100000

def pi : Int := 314159

/-- Sine on `[0, pi]` by the rational approximation
`16 x (pi - x) / (5 pi^2 - 4 x (pi - x))`. -/
def sin_half (x : Int) : Int :=
  (scale * (16 * x * (pi - x))).tdiv (5 * pi * pi - 4 * x * (pi - x))

def sin (x : Int) : Int :=
  let r := x.emod (2 * pi)
  if r ≤ pi then sin_half r else - sin_half (r - pi)

def cos (x : Int) : Int := sin (x + pi / 2)

/-- Arc tangent on `[-1, 1]` (argument and result in units of `1 / scale`):
`z (pi/4 + 0.273 (1 - |z|))`. -/
def atan_unit (z : Int) : Int :=
  (z * (pi / 4 + (27300 * (scale - z.natAbs)).tdiv scale)).tdiv scale

def atan2 (y x : Int) : Int :=
  if x = 0 ∧ y = 0 then 0
  else if y.natAbs ≤ x.natAbs then
    let a := atan_unit ((y * scale).tdiv x)
    if 0 < x then a else if 0 ≤ y then a + pi else a - pi
  else
    let a := atan_unit ((x * scale).tdiv y)
    if 0 < y then pi / 2 - a else - (pi / 2) - a

end FixedPoint

/-- A fixed point stand-in for single precision (five decimal digits), to run
the definitions on concrete inputs.  No theorem is specific to it. -/
def fixedPoint : FloatOps where
  F := Int
  ofInt n := n * FixedPoint.scale
  ofDec m e := (m * FixedPoint.scale).tdiv (10 ^ e)
  add a b := a + b
  sub a b := a - b
  mul a b := (a * b).tdiv FixedPoint.scale
  div a b := (a * FixedPoint.scale).tdiv b
  cosf := FixedPoint.cos
  sinf := FixedPoint.sin
  atan2f := FixedPoint.atan2
  toInt a := a.tdiv FixedPoint.scale

/-! ## Navigation screen state (`ui_navigation_screen.cpp`) -/

/-- The conversion of an `int` to `lv_coord_t` (`int16_t`). -/
def lv_coord (v : Int) : Int := (v + 32768) % 65536 - 32768

structure lv_point_t where
  x : Int
  y : Int
deriving DecidableEq, Repr

/-- The point `{ (lv_coord_t)x, (lv_coord_t)y }`. -/
def pt (x y : Int) : lv_point_t := ⟨lv_coord x, lv_coord y⟩

/-- What the firmware sets on an `lv_line` object: its parent, the hidden flag,
the line colour of the style added to it, the line colour set locally with
`lv_obj_set_style_line_color`, and the point count of `lv_line_set_points`
(every line object is only ever given its own point array). -/
structure LineObj where
  parent : Nat
  hidden : Bool
  style_color : Option Nat
  local_color : Option Nat
  point_num : Nat
deriving DecidableEq, Repr

/-- The file-scope variables of `ui_navigation_screen.cpp`.  A label is
represented by its text.  `alert_calls` is a ghost field: the arguments of the
calls of `ui_navigation_screen_show_critical_alert`, latest first. -/
structure NavState where
  line_shaft : Option LineObj
  line_head1 : Option LineObj
  line_head2 : Option LineObj
  line_poly : Option LineObj
  flag_pole : Option LineObj
  flag_triangle : Option LineObj
  label_distance : Option (List Char)
  label_maneuver : Option (List Char)
  label_eta_banner : Option (List Char)
  current_direction : List Char
  current_distance : Int
  critical_alert_active : Bool
  nav_styles_initialized : Bool
  pts_shaft : List lv_point_t
  pts_head1 : List lv_point_t
  pts_head2 : List lv_point_t
  pts_poly : List lv_point_t
  pts_flag_pole : List lv_point_t
  pts_flag_head : List lv_point_t
  alert_calls : List Bool
deriving DecidableEq

/-- The state at program start: null pointers, zeroed arrays, `""`. -/
def NavState.init : NavState where
  line_shaft := none
  line_head1 := none
  line_head2 := none
  line_poly := none
  flag_pole := none
  flag_triangle := none
  label_distance := none
  label_maneuver := none
  label_eta_banner := none
  current_direction := []
  current_distance := 0
  critical_alert_active := false
  nav_styles_initialized := false
  pts_shaft := List.replicate 2 ⟨0, 0⟩
  pts_head1 := List.replicate 2 ⟨0, 0⟩
  pts_head2 := List.replicate 2 ⟨0, 0⟩
  pts_poly := List.replicate 24 ⟨0, 0⟩
  pts_flag_pole := List.replicate 2 ⟨0, 0⟩
  pts_flag_head := List.replicate 3 ⟨0, 0⟩
  alert_calls := []

/-- `lv_obj_add_flag(obj, LV_OBJ_FLAG_HIDDEN)`. -/
def add_hidden (o : Option LineObj) : Option LineObj :=
  o.map fun l => { l with hidden := true }

/-- `lv_obj_clear_flag(obj, LV_OBJ_FLAG_HIDDEN)`. -/
def clear_hidden (o : Option LineObj) : Option LineObj :=
  o.map fun l => { l with hidden := false }

/-- `lv_obj_set_style_line_color(obj, lv_color_hex(c), LV_PART_MAIN)`. -/
def set_line_color (c : Nat) (o : Option LineObj) : Option LineObj :=
  o.map fun l => { l with local_color := some c }

/-- `lv_line_set_points(obj, pts, n)`. -/
def set_points (n : Nat) (o : Option LineObj) : Option LineObj :=
  o.map fun l => { l with point_num := n }

/-- Writing `new` into the leading elements of the array `old`. -/
def store (new old : List lv_point_t) : List lv_point_t :=
  new ++ old.drop new.length

def ARROW_WIDTH : Int := 170
def ARROW_HEIGHT : Int := 140

/-! ## Glyph geometry helpers -/

def set_arrow_points_left_right (to_right : Bool) (s : NavState) : NavState :=
  let origin_x : Int := (172 - ARROW_WIDTH) / 2
  let origin_y : Int := 60
  let y_mid := origin_y + ARROW_HEIGHT / 2
  let x_start := origin_x + 20
  let x_end := origin_x + ARROW_WIDTH - 20
  let shaft := [pt (if to_right then x_start else x_end - 10) y_mid,
                pt (if to_right then x_end - 10 else x_start) y_mid]
  let head1 := if to_right then [pt (x_end - 20) (y_mid - 15), pt (x_end - 2) y_mid]
               else [pt (x_start + 20) (y_mid - 15), pt (x_start + 2) y_mid]
  let head2 := if to_right then [pt (x_end - 20) (y_mid + 15), pt (x_end - 2) y_mid]
               else [pt (x_start + 20) (y_mid + 15), pt (x_start + 2) y_mid]
  { s with
    pts_shaft := shaft, pts_head1 := head1, pts_head2 := head2
    line_shaft := set_points 2 s.line_shaft
    line_head1 := set_points 2 s.line_head1
    line_head2 := set_points 2 s.line_head2 }

def set_arrow_points_straight (s : NavState) : NavState :=
  let origin_x : Int := (172 - ARROW_WIDTH) / 2
  let origin_y : Int := 60
  let x_mid := origin_x + ARROW_WIDTH / 2
  let y_top := origin_y + 10
  let y_bot := origin_y + ARROW_HEIGHT - 20
  { s with
    pts_shaft := [pt x_mid y_bot, pt x_mid (y_top + 15)]
    pts_head1 := [pt (x_mid - 15) (y_top + 15), pt x_mid y_top]
    pts_head2 := [pt (x_mid + 15) (y_top + 15), pt x_mid y_top]
    line_shaft := set_points 2 s.line_shaft
    line_head1 := set_points 2 s.line_head1
    line_head2 := set_points 2 s.line_head2 }

/-- The point of step `i` of the arc of `set_arrow_points_uturn`. -/
def uturn_arc_point (fm : FloatOps) (to_left : Bool) (x_mid y_stem_top arc_r : Int)
    (i : Nat) : lv_point_t :=
  let t := fm.div (fm.ofInt i) (fm.ofDec 70 1)
  let ang := if to_left then fm.mul (fm.ofDec 314159 5) (fm.add (fm.ofDec 10 1) t)
             else fm.mul (fm.ofDec 314159 5) (fm.sub (fm.ofDec 20 1) t)
  let xx := x_mid + (if to_left then -arc_r else arc_r)
              + fm.toInt (fm.mul (fm.ofInt arc_r) (fm.cosf ang))
  let yy := y_stem_top + fm.toInt (fm.mul (fm.ofInt arc_r) (fm.sinf ang))
  pt xx yy

def set_arrow_points_uturn (fm : FloatOps) (to_left : Bool) (s : NavState) : NavState :=
  let origin_x : Int := (172 - ARROW_WIDTH) / 2
  let origin_y : Int := 60
  let x_mid := origin_x + ARROW_WIDTH / 2
  let y_bot := origin_y + ARROW_HEIGHT - 10
  let arc_r : Int := 40
  let stem_len : Int := 35
  let x_start := x_mid
  let y_start := y_bot
  let y_stem_top := y_bot - stem_len
  let arc := (List.range 8).map (uturn_arc_point fm to_left x_mid y_stem_top arc_r)
  let x_end := x_mid + (if to_left then -2 * arc_r else 2 * arc_r)
  let y_end := y_bot - 15
  let poly := [pt x_start y_start, pt x_start y_stem_top] ++ arc ++ [pt x_end y_end]
  { s with
    pts_poly := store poly s.pts_poly
    line_poly := set_points poly.length s.line_poly
    pts_shaft := [pt x_end (y_end - 15), pt x_end y_end]
    pts_head1 := [pt (x_end - 10) (y_end - 7), pt x_end y_end]
    pts_head2 := [pt (x_end + 10) (y_end - 7), pt x_end y_end]
    line_shaft := set_points 2 s.line_shaft
    line_head1 := set_points 2 s.line_head1
    line_head2 := set_points 2 s.line_head2 }

/-- The truncated offset `(int)(k * cosf(a))`. -/
def icos (fm : FloatOps) (k : Int) (a : fm.F) : Int :=
  fm.toInt (fm.mul (fm.ofInt k) (fm.cosf a))

/-- The truncated offset `(int)(k * sinf(a))`. -/
def isin (fm : FloatOps) (k : Int) (a : fm.F) : Int :=
  fm.toInt (fm.mul (fm.ofInt k) (fm.sinf a))

def set_arrow_points_slight (fm : FloatOps) (to_right : Bool) (s : NavState) : NavState :=
  let origin_x : Int := (172 - ARROW_WIDTH) / 2
  let origin_y : Int := 60
  let x0 := origin_x + ARROW_WIDTH / 2
  let y0 := origin_y + ARROW_HEIGHT - 10
  let x1 := x0 + (if to_right then 45 else -45)
  let y1 := y0 - 90
  let x_ctrl := x0 + (if to_right then 30 else -30)
  let y_ctrl := y0 - 40
  let angle := fm.atan2f (fm.ofInt (y1 - y_ctrl)) (fm.ofInt (x1 - x_ctrl))
  let len : Int := 17
  let plus := fm.add angle (fm.ofDec 22 1)
  let minus := fm.sub angle (fm.ofDec 22 1)
  { s with
    pts_poly := store [pt x0 y0, pt x_ctrl y_ctrl, pt x1 y1] s.pts_poly
    line_poly := set_points 3 s.line_poly
    pts_shaft := [pt (x1 - icos fm len angle) (y1 - isin fm len angle), pt x1 y1]
    pts_head1 := [pt (x1 - icos fm 8 plus) (y1 - isin fm 8 plus), pt x1 y1]
    pts_head2 := [pt (x1 - icos fm 8 minus) (y1 - isin fm 8 minus), pt x1 y1]
    line_shaft := set_points 2 s.line_shaft
    line_head1 := set_points 2 s.line_head1
    line_head2 := set_points 2 s.line_head2 }

def set_arrow_points_sharp (fm : FloatOps) (to_right : Bool) (s : NavState) : NavState :=
  let origin_x : Int := (172 - ARROW_WIDTH) / 2
  let origin_y : Int := 60
  let x0 := origin_x + ARROW_WIDTH / 2
  let y0 := origin_y + ARROW_HEIGHT - 10
  let y1 := y0 - 50
  let x2 := if to_right then x0 + 40 else x0 - 40
  let y2 := y1 - 40
  let angle := fm.atan2f (fm.ofInt (y2 - y1)) (fm.ofInt (x2 - x0))
  let x_tip := x2
  let y_tip := y2
  let plus := fm.add angle (fm.ofDec 22 1)
  let minus := fm.sub angle (fm.ofDec 22 1)
  { s with
    pts_poly := store [pt x0 y0, pt x0 y1, pt x2 y1, pt x2 y2] s.pts_poly
    line_poly := set_points 4 s.line_poly
    pts_shaft := [pt (x2 - icos fm 12 angle) (y2 - isin fm 12 angle), pt x_tip y_tip]
    pts_head1 := [pt (x_tip - icos fm 8 plus) (y_tip - isin fm 8 plus), pt x_tip y_tip]
    pts_head2 := [pt (x_tip - icos fm 8 minus) (y_tip - isin fm 8 minus), pt x_tip y_tip]
    line_shaft := set_points 2 s.line_shaft
    line_head1 := set_points 2 s.line_head1
    line_head2 := set_points 2 s.line_head2 }

/-- The point of step `i` of the circle of `set_arrow_points_roundabout`. -/
def roundabout_point (fm : FloatOps) (cx cy r : Int) (i : Nat) : lv_point_t :=
  let ang := fm.mul (fm.div (fm.ofInt i) (fm.ofDec 120 1)) (fm.ofDec 628318 5)
  pt (cx + icos fm r ang) (cy + isin fm r ang)

def set_arrow_points_roundabout (fm : FloatOps) (exit_dir : Int) (s : NavState) : NavState :=
  let origin_x : Int := (172 - ARROW_WIDTH) / 2
  let origin_y : Int := 60
  let cx := origin_x + ARROW_WIDTH / 2
  let cy := origin_y + ARROW_HEIGHT / 2
  let r : Int := 40
  let circle := (List.range 13).map (roundabout_point fm cx cy r)
  let shaft :=
    if exit_dir = 0 then [pt cx (cy - r), pt cx (cy - r - 15)]
    else if exit_dir < 0 then [pt (cx - r) cy, pt (cx - r - 15) cy]
    else [pt (cx + r) cy, pt (cx + r + 15) cy]
  let head1 :=
    if exit_dir = 0 then [pt (cx - 8) (cy - r - 5), pt cx (cy - r - 15)]
    else if exit_dir < 0 then [pt (cx - r - 5) (cy - 8), pt (cx - r - 15) cy]
    else [pt (cx + r + 5) (cy - 8), pt (cx + r + 15) cy]
  let head2 :=
    if exit_dir = 0 then [pt (cx + 8) (cy - r - 5), pt cx (cy - r - 15)]
    else if exit_dir < 0 then [pt (cx - r - 5) (cy + 8), pt (cx - r - 15) cy]
    else [pt (cx + r + 5) (cy + 8), pt (cx + r + 15) cy]
  { s with
    pts_poly := store circle s.pts_poly
    line_poly := set_points circle.length s.line_poly
    pts_shaft := shaft, pts_head1 := head1, pts_head2 := head2
    line_shaft := set_points 2 s.line_shaft
    line_head1 := set_points 2 s.line_head1
    line_head2 := set_points 2 s.line_head2 }

def set_arrow_points_keep (to_right : Bool) (s : NavState) : NavState :=
  let origin_x : Int := (172 - ARROW_WIDTH) / 2
  let origin_y : Int := 60
  let x_mid := origin_x + ARROW_WIDTH / 2
  let y_bot := origin_y + ARROW_HEIGHT - 10
  let y_top := origin_y + 22
  let y_tick := y_top + 30
  let tick_len : Int := 24
  let tick := if to_right then [pt x_mid y_tick, pt (x_mid + tick_len) (y_tick - 16)]
              else [pt x_mid y_tick, pt (x_mid - tick_len) (y_tick - 16)]
  { s with
    pts_shaft := [pt x_mid y_bot, pt x_mid y_top]
    line_shaft := set_points 2 s.line_shaft
    pts_head1 := [pt (x_mid - 15) (y_top + 15), pt x_mid y_top]
    pts_head2 := [pt (x_mid + 15) (y_top + 15), pt x_mid y_top]
    line_head1 := set_points 2 s.line_head1
    line_head2 := set_points 2 s.line_head2
    pts_poly := store tick s.pts_poly
    line_poly := set_points 2 s.line_poly }

def set_flag_symbol (s : NavState) : NavState :=
  let origin_x : Int := (172 - ARROW_WIDTH) / 2
  let origin_y : Int := 60
  let x_left := origin_x + ARROW_WIDTH / 2 - 28
  let y_bot := origin_y + ARROW_HEIGHT - 35
  let y_top := y_bot - 66
  { s with
    pts_flag_pole := [pt x_left y_bot, pt x_left y_top]
    flag_pole := set_points 2 s.flag_pole
    pts_flag_head := [pt x_left y_top, pt x_left (y_top + 24), pt (x_left + 36) (y_top + 12)]
    flag_triangle := set_points 3 s.flag_triangle }

/-! ## Visibility helpers -/

def hide_all_arrows (s : NavState) : NavState :=
  { s with
    line_shaft := add_hidden s.line_shaft
    line_head1 := add_hidden s.line_head1
    line_head2 := add_hidden s.line_head2
    line_poly := add_hidden s.line_poly }

def show_shaft_head (s : NavState) : NavState :=
  { s with
    line_shaft := clear_hidden s.line_shaft
    line_head1 := clear_hidden s.line_head1
    line_head2 := clear_hidden s.line_head2
    line_poly := add_hidden s.line_poly }

def show_poly_with_heads (s : NavState) : NavState :=
  { s with
    line_shaft := clear_hidden s.line_shaft
    line_head1 := clear_hidden s.line_head1
    line_head2 := clear_hidden s.line_head2
    line_poly := clear_hidden s.line_poly }

def ui_navigation_hide_all_objects (s : NavState) : NavState :=
  { s with
    line_shaft := add_hidden s.line_shaft
    line_head1 := add_hidden s.line_head1
    line_head2 := add_hidden s.line_head2
    line_poly := add_hidden s.line_poly
    flag_pole := add_hidden s.flag_pole
    flag_triangle := add_hidden s.flag_triangle }

/-! ## Maneuver classifier: `update_arrow_image` -/

/-- The token tests of `update_arrow_image`, on the normalised text `n`. -/
def is_left (n : List Char) : Bool :=
  strstr n "left".toList || strstr n "turn_left".toList || strstr n "left_turn".toList

def is_right (n : List Char) : Bool :=
  strstr n "right".toList || strstr n "turn_right".toList || strstr n "right_turn".toList

def is_keep (n : List Char) : Bool :=
  strstr n "keep_".toList || strstr n "keep ".toList || strstr n "bear_".toList
    || strstr n "bear ".toList

def is_slight (n : List Char) : Bool := strstr n "slight".toList

def is_sharp (n : List Char) : Bool := strstr n "sharp".toList

def is_uturn (n : List Char) : Bool :=
  strstr n "uturn".toList || strstr n "u_turn".toList || strstr n "u-turn".toList
    || strstr n "turn_around".toList

def is_round (n : List Char) : Bool :=
  strstr n "roundabout".toList || strstr n "rotary".toList || strstr n "circle".toList

def is_straight (n : List Char) : Bool :=
  strstr n "straight".toList || strstr n "forward".toList || strstr n "continue".toList

def is_dest (n : List Char) : Bool :=
  strstr n "destination".toList || strstr n "arrived".toList || strstr n "end".toList

/-- The colour policy of `update_arrow_image` (the variable `arrow_color`). -/
def arrow_color (n : List Char) (color : Nat) : Nat :=
  if is_straight n then COLOR_ARROW_STRAIGHT
  else if is_uturn n then 0xF81F
  else if is_round n then COLOR_ACCENT_YELLOW
  else if is_keep n || is_sharp n || is_slight n || is_left n || is_right n then 0xFD20
  else if is_dest n then 0xF800
  else color

/-- The opening of `update_arrow_image` after the null guard: colour the four
lines with `color`, hide them and hide the flag parts. -/
def reset_arrows (color : Nat) (s : NavState) : NavState :=
  let s := { s with
    line_shaft := set_line_color color s.line_shaft
    line_head1 := set_line_color color s.line_head1
    line_head2 := set_line_color color s.line_head2
    line_poly := set_line_color color s.line_poly }
  let s := hide_all_arrows s
  { s with flag_pole := add_hidden s.flag_pole, flag_triangle := add_hidden s.flag_triangle }

/-- The block at the label `ARROW_COLOR`. -/
def ARROW_COLOR (c : Nat) (s : NavState) : NavState :=
  { s with
    line_shaft := set_line_color c s.line_shaft
    line_head1 := set_line_color c s.line_head1
    line_head2 := set_line_color c s.line_head2
    line_poly := set_line_color c s.line_poly }

/-- The object `lv_line_create(lv_obj_get_parent(line_shaft))` with the flag
style (line colour `0xF800`) added. -/
def new_flag_line (s : NavState) : LineObj :=
  { parent := (s.line_shaft.map LineObj.parent).getD 0
    hidden := false
    style_color := some 0xF800
    local_color := none
    point_num := 0 }

/-- The destination block of `update_arrow_image`: create the flag objects if
they do not exist, set their points, show them in `0xF800`. -/
def show_flag (s : NavState) : NavState :=
  let s := if s.flag_pole.isNone then { s with flag_pole := some (new_flag_line s) } else s
  let s := if s.flag_triangle.isNone then { s with flag_triangle := some (new_flag_line s) }
           else s
  let s := set_flag_symbol s
  { s with
    flag_pole := set_line_color 0xF800 (clear_hidden s.flag_pole)
    flag_triangle := set_line_color 0xF800 (clear_hidden s.flag_triangle) }

def update_arrow_image (fm : FloatOps) (direction : Option (List Char)) (color : Nat)
    (s : NavState) : NavState :=
  if s.line_shaft.isNone || s.line_head1.isNone || s.line_head2.isNone || s.line_poly.isNone
  then s
  else
    let s := reset_arrows color s
    match direction with
    | none => s
    | some [] => s
    | some (c :: cs) =>
      let n := dir_norm (c :: cs)
      let col := arrow_color n color
      if is_uturn n then
        ARROW_COLOR col (show_poly_with_heads (set_arrow_points_uturn fm false s))
      else if is_keep n && is_right n then
        ARROW_COLOR col (show_poly_with_heads (set_arrow_points_keep true s))
      else if is_keep n && is_left n then
        ARROW_COLOR col (show_poly_with_heads (set_arrow_points_keep false s))
      else if is_sharp n && is_right n then
        ARROW_COLOR col (show_poly_with_heads (set_arrow_points_sharp fm true s))
      else if is_sharp n && is_left n then
        ARROW_COLOR col (show_poly_with_heads (set_arrow_points_sharp fm false s))
      else if (is_slight n || is_keep n) && is_right n then
        ARROW_COLOR col (show_poly_with_heads (set_arrow_points_slight fm true s))
      else if (is_slight n || is_keep n) && is_left n then
        ARROW_COLOR col (show_poly_with_heads (set_arrow_points_slight fm false s))
      else if is_round n then
        let exit_dir : Int := if is_left n then -1 else if is_right n then 1 else 0
        ARROW_COLOR col (show_poly_with_heads (set_arrow_points_roundabout fm exit_dir s))
      else if is_right n then
        ARROW_COLOR col (show_shaft_head (set_arrow_points_left_right true s))
      else if is_left n then
        ARROW_COLOR col (show_shaft_head (set_arrow_points_left_right false s))
      else if is_dest n then
        show_flag s
      else if is_straight n then
        ARROW_COLOR col (show_shaft_head (set_arrow_points_straight s))
      else s

/-! ## Navigation display controller -/

/-- The object `lv_line_create(parent)` with `style_arrow_line` added. -/
def new_arrow_line (parent : Nat) : LineObj :=
  { parent := parent
    hidden := false
    style_color := some COLOR_ARROW_STRAIGHT
    local_color := none
    point_num := 0 }

/-- `ui_navigation_screen_create(parent)`.  `lv_line_create` is taken to
succeed (its result is used unchecked); the three flags say whether the
corresponding `lv_label_create` returns an object. -/
def ui_navigation_screen_create (fm : FloatOps) (parent : Option Nat)
    (got_distance got_maneuver got_eta : Bool) (s : NavState) : NavState :=
  match parent with
  | none => s
  | some p =>
    let s := { s with nav_styles_initialized := true }
    let s := { s with
      line_poly := some (new_arrow_line p)
      line_shaft := some (new_arrow_line p)
      line_head1 := some (new_arrow_line p)
      line_head2 := some (new_arrow_line p) }
    let s := { s with current_direction := [] }
    let s := ui_navigation_hide_all_objects s
    if !got_distance then { s with label_distance := none }
    else
      let s := { s with label_distance := some [] }
      let s := { s with label_maneuver := if got_maneuver then some [] else none }
      let s := { s with label_eta_banner := if got_eta then some [] else none }
      update_arrow_image fm (some "straight".toList) COLOR_ARROW_STRAIGHT s

/-- `ui_navigation_screen_update_direction(direction, animated)`; the cache
`current_direction[32]` keeps the first 31 characters. -/
def ui_navigation_screen_update_direction (fm : FloatOps) (direction : Option (List Char))
    (_animated : Bool) (s : NavState) : NavState :=
  match direction with
  | none => s
  | some d =>
    if s.current_direction = d then s
    else if d = [] then
      { ui_navigation_hide_all_objects s with current_direction := [] }
    else
      update_arrow_image fm (some d) COLOR_ARROW_STRAIGHT
        { s with current_direction := d.take 31 }

def ui_navigation_screen_show_critical_alert (show_it : Bool) (s : NavState) : NavState :=
  { s with critical_alert_active := show_it, alert_calls := show_it :: s.alert_calls }

def ui_navigation_screen_update_maneuver (maneuver : Option (List Char)) (s : NavState) :
    NavState :=
  match s.label_maneuver, maneuver with
  | some _, some m => { s with label_maneuver := some m }
  | _, _ => s

def ui_navigation_screen_update_eta (eta : Option (List Char)) (s : NavState) : NavState :=
  match s.label_eta_banner, eta with
  | some _, some e => { s with label_eta_banner := some e }
  | _, _ => s

def ui_navigation_screen_clear (s : NavState) : NavState :=
  let s := { s with
    label_distance := s.label_distance.map fun _ => []
    label_maneuver := s.label_maneuver.map fun _ => []
    label_eta_banner := s.label_eta_banner.map fun _ => [] }
  let s := { s with current_direction := [], critical_alert_active := false }
  ui_navigation_hide_all_objects s

/-! ## What is on screen -/

/-- A glyph part is hidden when its object carries the hidden flag; a part
whose object was never created is not drawn either. -/
def part_hidden (o : Option LineObj) : Bool :=
  match o with
  | none => true
  | some l => l.hidden

/-- A glyph part is shown when its object exists and is not hidden. -/
def part_shown (o : Option LineObj) : Bool :=
  match o with
  | none => false
  | some l => !l.hidden

/-- Every glyph part (shaft, both heads, polyline, flag pole, flag triangle)
is hidden. -/
def all_parts_hidden (s : NavState) : Prop :=
  part_hidden s.line_shaft = true ∧ part_hidden s.line_head1 = true
    ∧ part_hidden s.line_head2 = true ∧ part_hidden s.line_poly = true
    ∧ part_hidden s.flag_pole = true ∧ part_hidden s.flag_triangle = true

instance (s : NavState) : Decidable (all_parts_hidden s) := by
  unfold all_parts_hidden; infer_instance

/-- The four line objects of the arrow exist (the guard at the top of
`update_arrow_image` passes); true from `ui_navigation_screen_create` on. -/
def lines_exist (s : NavState) : Prop :=
  s.line_shaft.isSome = true ∧ s.line_head1.isSome = true
    ∧ s.line_head2.isSome = true ∧ s.line_poly.isSome = true

instance (s : NavState) : Decidable (lines_exist s) := by
  unfold lines_exist; infer_instance

/-- The state after `ui_navigation_screen_create(parent)` on a fresh program,
with every label created. -/
def created (fm : FloatOps) : NavState :=
  ui_navigation_screen_create fm (some 1) true true true NavState.init

/-! ## The state each route of `update_arrow_image` leaves

Each definition below is the right-hand side of one routing line of
`update_arrow_image`, applied after the opening block `reset_arrows`. -/

/-- Route `is_right` / `is_left` alone (plain turn). -/
def turn_glyph (to_right : Bool) (d : List Char) (color : Nat) (s : NavState) : NavState :=
  ARROW_COLOR (arrow_color (dir_norm d) color)
    (show_shaft_head (set_arrow_points_left_right to_right (reset_arrows color s)))

/-- Route `is_keep && is_right` / `is_keep && is_left`. -/
def keep_glyph (to_right : Bool) (d : List Char) (color : Nat) (s : NavState) : NavState :=
  ARROW_COLOR (arrow_color (dir_norm d) color)
    (show_poly_with_heads (set_arrow_points_keep to_right (reset_arrows color s)))

/-- Route `is_sharp && is_right` / `is_sharp && is_left`. -/
def sharp_glyph (fm : FloatOps) (to_right : Bool) (d : List Char) (color : Nat)
    (s : NavState) : NavState :=
  ARROW_COLOR (arrow_color (dir_norm d) color)
    (show_poly_with_heads (set_arrow_points_sharp fm to_right (reset_arrows color s)))

/-- Route `(is_slight || is_keep) && is_right` / `... && is_left`. -/
def slight_glyph (fm : FloatOps) (to_right : Bool) (d : List Char) (color : Nat)
    (s : NavState) : NavState :=
  ARROW_COLOR (arrow_color (dir_norm d) color)
    (show_poly_with_heads (set_arrow_points_slight fm to_right (reset_arrows color s)))

/-- Route `is_uturn`: always `set_arrow_points_uturn(false)`. -/
def uturn_glyph (fm : FloatOps) (d : List Char) (color : Nat) (s : NavState) : NavState :=
  ARROW_COLOR (arrow_color (dir_norm d) color)
    (show_poly_with_heads (set_arrow_points_uturn fm false (reset_arrows color s)))

/-- Route `is_round` with the given `exit_dir`. -/
def roundabout_glyph (fm : FloatOps) (exit_dir : Int) (d : List Char) (color : Nat)
    (s : NavState) : NavState :=
  ARROW_COLOR (arrow_color (dir_norm d) color)
    (show_poly_with_heads (set_arrow_points_roundabout fm exit_dir (reset_arrows color s)))

/-- The shaft and both heads are shown, the polyline and the flag are not. -/
def shaft_heads_shown (s : NavState) : Prop :=
  part_shown s.line_shaft = true ∧ part_shown s.line_head1 = true
    ∧ part_shown s.line_head2 = true ∧ part_hidden s.line_poly = true
    ∧ part_hidden s.flag_pole = true ∧ part_hidden s.flag_triangle = true

instance (s : NavState) : Decidable (shaft_heads_shown s) := by
  unfold shaft_heads_shown; infer_instance

/-- The shaft, both heads and the polyline are shown, the flag is not. -/
def poly_heads_shown (s : NavState) : Prop :=
  part_shown s.line_shaft = true ∧ part_shown s.line_head1 = true
    ∧ part_shown s.line_head2 = true ∧ part_shown s.line_poly = true
    ∧ part_hidden s.flag_pole = true ∧ part_hidden s.flag_triangle = true

instance (s : NavState) : Decidable (poly_heads_shown s) := by
  unfold poly_heads_shown; infer_instance

/-- The token `tok` occurs in `text` (as a contiguous substring). -/
def has (text : List Char) (tok : String) : Prop := tok.toList <:+: text

instance (text : List Char) (tok : String) : Decidable (has text tok) := by
  unfold has; infer_instance

/-- The hypothesis of the plain left turn in its first form: the normalised
text has "left" and none of "keep", "sharp", "slight", "uturn", "roundabout". -/
def plain_left_input (d : List Char) : Prop :=
  has (dir_norm d) "left"
    ∧ ∀ tok ∈ ["keep", "sharp", "slight", "uturn", "roundabout"], ¬ has (dir_norm d) tok

instance (d : List Char) : Decidable (plain_left_input d) := by
  unfold plain_left_input; infer_instance

/-- Either the arrow has been created (its four line objects exist) or no glyph
part exists yet: the two situations the firmware can be in. -/
def parts_consistent (s : NavState) : Prop :=
  lines_exist s ∨
    (s.line_shaft = none ∧ s.line_head1 = none ∧ s.line_head2 = none ∧ s.line_poly = none
      ∧ s.flag_pole = none ∧ s.flag_triangle = none)

instance (s : NavState) : Decidable (parts_consistent s) := by
  unfold parts_consistent; infer_instance

/-! ## Screen state machine (`ui_screens.cpp`, `ui_screens.h`) -/

/-- The values of `enum UIScreen`; a `UIScreen` argument is its integer value,
so that values outside the enumeration can be passed. -/
def UI_SCREEN_NONE : Int := 0
def UI_SCREEN_WELCOME : Int := 1
def UI_SCREEN_IDLE : Int := 2
def UI_SCREEN_NAVIGATION : Int := 3
def UI_SCREEN_INCOMING_CALL : Int := 4
def UI_SCREEN_OUTGOING_CALL : Int := 5
def UI_SCREEN_MISSED_CALL : Int := 6

/-- The calls made on the presentation surface (LVGL), with object handles. -/
inductive LvCall where
  | timer_handler
  | scr_load (obj : Nat)
  | obj_create (obj : Nat)
  | set_bg_color (obj : Nat) (color : Nat)
  | set_bg_opa (obj : Nat) (opa : Nat)
deriving DecidableEq, Repr

/-- The globals of `ui_screens.cpp` and the part of the presentation surface
they act on.  A screen pointer is an optional object handle; `live` lists the
handles for which `lv_obj_is_valid` holds, `active` is the root loaded by
`lv_scr_load`, `next_obj` the handle the next `lv_obj_create` returns and
`calls` the surface calls made so far, latest first. -/
structure ScreenState where
  screen_welcome : Option Nat
  screen_idle : Option Nat
  screen_navigation : Option Nat
  screen_incoming_call : Option Nat
  screen_outgoing_call : Option Nat
  screen_missed_call : Option Nat
  current_screen : Int
  live : List Nat
  active : Option Nat
  next_obj : Nat
  calls : List LvCall
deriving DecidableEq, Repr

def ScreenState.init : ScreenState where
  screen_welcome := none
  screen_idle := none
  screen_navigation := none
  screen_incoming_call := none
  screen_outgoing_call := none
  screen_missed_call := none
  current_screen := UI_SCREEN_NONE
  live := []
  active := none
  next_obj := 1
  calls := []

def LV_OPA_COVER : Nat := 255

def lv_obj_is_valid (obj : Nat) (s : ScreenState) : Bool := decide (obj ∈ s.live)

def lv_timer_handler (s : ScreenState) : ScreenState :=
  { s with calls := LvCall.timer_handler :: s.calls }

def lv_scr_load (obj : Nat) (s : ScreenState) : ScreenState :=
  { s with active := some obj, calls := LvCall.scr_load obj :: s.calls }

/-- `lv_obj_create(nullptr)`: a new live object, returned with the new state. -/
def lv_obj_create (s : ScreenState) : Nat × ScreenState :=
  (s.next_obj,
    { s with
      live := s.next_obj :: s.live
      next_obj := s.next_obj + 1
      calls := LvCall.obj_create s.next_obj :: s.calls })

/-- The `switch` of `ui_show_screen`: the screen pointer selected by `screen`,
or `none` in the `default` case. -/
def target_screen (screen : Int) (s : ScreenState) : Option (Option Nat) :=
  if screen = UI_SCREEN_WELCOME then some s.screen_welcome
  else if screen = UI_SCREEN_IDLE then some s.screen_idle
  else if screen = UI_SCREEN_NAVIGATION then some s.screen_navigation
  else if screen = UI_SCREEN_INCOMING_CALL then some s.screen_incoming_call
  else if screen = UI_SCREEN_OUTGOING_CALL then some s.screen_outgoing_call
  else if screen = UI_SCREEN_MISSED_CALL then some s.screen_missed_call
  else none

def ui_show_screen (screen : Int) (_anim_time : Nat) (s : ScreenState) : ScreenState :=
  match target_screen screen s with
  | none => s
  | some none => s
  | some (some target) =>
    if !lv_obj_is_valid target s then s
    else
      let s := lv_timer_handler s
      let s := lv_scr_load target s
      let s := lv_timer_handler (lv_timer_handler s)
      { s with current_screen := screen }

def ui_get_current_screen (s : ScreenState) : Int := s.current_screen

def ui_show_navigation (s : ScreenState) : ScreenState :=
  let s :=
    match s.screen_navigation with
    | some _ => s
    | none =>
      let (obj, s) := lv_obj_create s
      { s with
        screen_navigation := some obj
        calls := LvCall.set_bg_opa obj LV_OPA_COVER :: LvCall.set_bg_color obj 0x000000
                  :: s.calls }
  let s :=
    match s.screen_navigation with
    | some obj => lv_scr_load obj s
    | none => s
  { s with current_screen := UI_SCREEN_NAVIGATION }

def ui_transition_fade (_from_screen to_screen : Int) (time : Nat) (s : ScreenState) :
    ScreenState :=
  ui_show_screen to_screen time s

def ui_screens_cleanup (s : ScreenState) : ScreenState :=
  { s with current_screen := UI_SCREEN_NONE }

/-- The object creation of `ui_screens_init`: the six `lv_obj_create` calls.
`lv_obj_create` always returns an object here, so the null check after them
never fires; the per-screen `..._create` calls that follow act on the state
of the other files. -/
def ui_screens_init (s : ScreenState) : ScreenState :=
  let (w, s) := lv_obj_create s
  let (i, s) := lv_obj_create s
  let (n, s) := lv_obj_create s
  let (ic, s) := lv_obj_create s
  let (oc, s) := lv_obj_create s
  let (mc, s) := lv_obj_create s
  { s with
    screen_welcome := some w
    screen_idle := some i
    screen_navigation := some n
    screen_incoming_call := some ic
    screen_outgoing_call := some oc
    screen_missed_call := some mc }

/-- `screen` is one of the seven members of `enum UIScreen`. -/
def is_enum_member (screen : Int) : Prop :=
  screen = UI_SCREEN_NONE ∨ screen = UI_SCREEN_WELCOME ∨ screen = UI_SCREEN_IDLE
    ∨ screen = UI_SCREEN_NAVIGATION ∨ screen = UI_SCREEN_INCOMING_CALL
    ∨ screen = UI_SCREEN_OUTGOING_CALL ∨ screen = UI_SCREEN_MISSED_CALL

instance (screen : Int) : Decidable (is_enum_member screen) := by
  unfold is_enum_member; infer_instance

/-- `screen` is one of the six contexts that have a root object: Welcome, Idle,
Navigation, IncomingCall, OutgoingCall, MissedCall. -/
def is_context (screen : Int) : Prop :=
  screen = UI_SCREEN_WELCOME ∨ screen = UI_SCREEN_IDLE ∨ screen = UI_SCREEN_NAVIGATION
    ∨ screen = UI_SCREEN_INCOMING_CALL ∨ screen = UI_SCREEN_OUTGOING_CALL
    ∨ screen = UI_SCREEN_MISSED_CALL

instance (screen : Int) : Decidable (is_context screen) := by
  unfold is_context; infer_instance

/-- A call of one of the context switching functions, with its arguments. -/
inductive ScreenOp where
  | show_screen (screen : Int) (anim_time : Nat)
  | transition_fade (from_screen to_screen : Int) (time : Nat)
  | show_navigation
deriving DecidableEq, Repr

def ScreenOp.run : ScreenOp → ScreenState → ScreenState
  | .show_screen screen t, s => ui_show_screen screen t s
  | .transition_fade f t time, s => ui_transition_fade f t time s
  | .show_navigation, s => ui_show_navigation s

/-- Running a sequence of calls, first call first. -/
def run_ops : List ScreenOp → ScreenState → ScreenState
  | [], s => s
  | op :: ops, s => run_ops ops (op.run s)

/-- The state after `ui_screens_init` on a fresh program. -/
def booted : ScreenState := ui_screens_init ScreenState.init

/-! ## The routing of `update_arrow_image` as data -/

/-- The routes of `update_arrow_image`, one constructor for each routing line
(with the argument passed to the geometry helper), `none` for "keep hidden". -/
inductive Glyph where
  | uturn
  | keep (to_right : Bool)
  | sharp (to_right : Bool)
  | slight (to_right : Bool)
  | roundabout (exit_dir : Int)
  | turn (to_right : Bool)
  | destination
  | straight
  | none
deriving DecidableEq, Repr

/-- The routing chain of `update_arrow_image` on the normalised text `n`: the
conditions of the `if` lines, in their order. -/
def route (n : List Char) : Glyph :=
  if is_uturn n then Glyph.uturn
  else if is_keep n && is_right n then Glyph.keep true
  else if is_keep n && is_left n then Glyph.keep false
  else if is_sharp n && is_right n then Glyph.sharp true
  else if is_sharp n && is_left n then Glyph.sharp false
  else if (is_slight n || is_keep n) && is_right n then Glyph.slight true
  else if (is_slight n || is_keep n) && is_left n then Glyph.slight false
  else if is_round n then
    Glyph.roundabout (if is_left n then -1 else if is_right n then 1 else 0)
  else if is_right n then Glyph.turn true
  else if is_left n then Glyph.turn false
  else if is_dest n then Glyph.destination
  else if is_straight n then Glyph.straight
  else Glyph.none

/-- The route taken for an instruction: none for a null or empty one. -/
def route_of (direction : Option (List Char)) : Glyph :=
  match direction with
  | Option.none => Glyph.none
  | some [] => Glyph.none
  | some (c :: cs) => route (dir_norm (c :: cs))

/-- Route `is_straight`. -/
def straight_glyph (d : List Char) (color : Nat) (s : NavState) : NavState :=
  ARROW_COLOR (arrow_color (dir_norm d) color)
    (show_shaft_head (set_arrow_points_straight (reset_arrows color s)))

/-- Route `is_dest`: the flag, with the arrow lines left as the opening block
left them. -/
def destination_glyph (color : Nat) (s : NavState) : NavState :=
  show_flag (reset_arrows color s)

/-- The body of the routing line for each route. -/
def draw (fm : FloatOps) (g : Glyph) (d : List Char) (color : Nat) (s : NavState) :
    NavState :=
  match g with
  | Glyph.uturn => uturn_glyph fm d color s
  | Glyph.keep r => keep_glyph r d color s
  | Glyph.sharp r => sharp_glyph fm r d color s
  | Glyph.slight r => slight_glyph fm r d color s
  | Glyph.roundabout e => roundabout_glyph fm e d color s
  | Glyph.turn r => turn_glyph r d color s
  | Glyph.destination => destination_glyph color s
  | Glyph.straight => straight_glyph d color s
  | Glyph.none => reset_arrows color s

/-- The flag pole and the flag triangle are shown, the shaft, both heads and
the polyline are hidden. -/
def flag_only_shown (s : NavState) : Prop :=
  part_shown s.flag_pole = true ∧ part_shown s.flag_triangle = true
    ∧ part_hidden s.line_shaft = true ∧ part_hidden s.line_head1 = true
    ∧ part_hidden s.line_head2 = true ∧ part_hidden s.line_poly = true

instance (s : NavState) : Decidable (flag_only_shown s) := by
  unfold flag_only_shown; infer_instance

/-- The local line colour of each of the four arrow lines is `c`. -/
def arrow_lines_colored (c : Nat) (s : NavState) : Prop :=
  s.line_shaft.map LineObj.local_color = some (some c)
    ∧ s.line_head1.map LineObj.local_color = some (some c)
    ∧ s.line_head2.map LineObj.local_color = some (some c)
    ∧ s.line_poly.map LineObj.local_color = some (some c)

instance (c : Nat) (s : NavState) : Decidable (arrow_lines_colored c s) := by
  unfold arrow_lines_colored; infer_instance

/-- The local line colour of both flag parts is `c`. -/
def flag_colored (c : Nat) (s : NavState) : Prop :=
  s.flag_pole.map LineObj.local_color = some (some c)
    ∧ s.flag_triangle.map LineObj.local_color = some (some c)

instance (c : Nat) (s : NavState) : Decidable (flag_colored c s) := by
  unfold flag_colored; infer_instance

/-! ## Distance display -/

/-- The conversion `%d` of `snprintf`: the decimal digits, with a minus sign
for a negative number. -/
def fmt_d (n : Int) : List Char :=
  if n < 0 then '-' :: Nat.toDigits 10 n.natAbs else Nat.toDigits 10 n.toNat

/-- What `snprintf(distance_str, sizeof(distance_str), ...)` leaves in
`char distance_str[32]`: at most 31 characters of the formatted text. -/
def snprintf_32 (text : List Char) : List Char := text.take 31

/-- `ui_navigation_screen_update_distance(distance, animated)`.  `fmt_1f` is
the conversion `%.1f` of `snprintf` on the single precision value (a C library
function, kept as a parameter like the arithmetic). -/
def ui_navigation_screen_update_distance (fm : FloatOps) (fmt_1f : fm.F → List Char)
    (distance : Int) (_animated : Bool) (s : NavState) : NavState :=
  match s.label_distance with
  | Option.none => s
  | some _ =>
    let s := { s with current_distance := distance }
    if distance ≤ 0 then
      ui_navigation_screen_show_critical_alert false { s with label_distance := some [] }
    else
      let distance_str :=
        if distance ≥ 1000 then
          snprintf_32 (fmt_1f (fm.div (fm.ofInt distance) (fm.ofDec 10000 1)) ++ " km".toList)
        else snprintf_32 (fmt_d distance ++ " m".toList)
      let s := { s with label_distance := some distance_str }
      let should_show_alert : Bool := decide (distance > 0 ∧ distance < 100)
      if should_show_alert != s.critical_alert_active then
        ui_navigation_screen_show_critical_alert should_show_alert s
      else s

/-- `%.1f` for the fixed point stand-in: the value rounded to tenths (half away
from zero), written with one decimal digit. -/
def FixedPoint.fmt_1f (a : Int) : List Char :=
  let tenths := (a.natAbs * 10 + FixedPoint.scale.natAbs / 2) / FixedPoint.scale.natAbs
  (if a < 0 ∧ tenths ≠ 0 then ['-'] else [])
    ++ Nat.toDigits 10 (tenths / 10) ++ ['.'] ++ Nat.toDigits 10 (tenths % 10)

/-! ## The whole display: screen state machine and navigation controller -/

/-- The globals of `ui_screens.cpp` together with those of
`ui_navigation_screen.cpp`. -/
structure Display where
  ui : ScreenState
  nav : NavState
deriving DecidableEq

/-- `ui_show_screen` in the whole program: it reads and writes the globals of
`ui_screens.cpp` and calls the presentation surface, nothing else. -/
def Display.show_screen (screen : Int) (anim_time : Nat) (w : Display) : Display :=
  { w with ui := ui_show_screen screen anim_time w.ui }

/-- `ui_show_navigation` in the whole program. -/
def Display.show_navigation (w : Display) : Display :=
  { w with ui := ui_show_navigation w.ui }

/-- `ui_transition_fade` in the whole program. -/
def Display.transition_fade (from_screen to_screen : Int) (time : Nat) (w : Display) :
    Display :=
  { w with ui := ui_transition_fade from_screen to_screen time w.ui }

/-- What the navigation controller keeps and shows: the cached instruction,
the distance, the alert flag, the three label texts and the hidden flag of
each glyph part. -/
structure NavView where
  current_direction : List Char
  current_distance : Int
  critical_alert_active : Bool
  label_distance : Option (List Char)
  label_maneuver : Option (List Char)
  label_eta_banner : Option (List Char)
  hidden_shaft : Option Bool
  hidden_head1 : Option Bool
  hidden_head2 : Option Bool
  hidden_poly : Option Bool
  hidden_flag_pole : Option Bool
  hidden_flag_triangle : Option Bool
deriving DecidableEq

def nav_view (s : NavState) : NavView where
  current_direction := s.current_direction
  current_distance := s.current_distance
  critical_alert_active := s.critical_alert_active
  label_distance := s.label_distance
  label_maneuver := s.label_maneuver
  label_eta_banner := s.label_eta_banner
  hidden_shaft := s.line_shaft.map LineObj.hidden
  hidden_head1 := s.line_head1.map LineObj.hidden
  hidden_head2 := s.line_head2.map LineObj.hidden
  hidden_poly := s.line_poly.map LineObj.hidden
  hidden_flag_pole := s.flag_pole.map LineObj.hidden
  hidden_flag_triangle := s.flag_triangle.map LineObj.hidden

/-! ## The Navigation entry as a two-phase activation -/

/-- The first phase in the words of the specification: make sure an opaque
black navigation root exists (create it when `screen_navigation` is null). -/
def ensure_navigation_root (s : ScreenState) : ScreenState :=
  match s.screen_navigation with
  | some _ => s
  | Option.none =>
    let (obj, s) := lv_obj_create s
    { s with
      screen_navigation := some obj
      calls := LvCall.set_bg_opa obj LV_OPA_COVER :: LvCall.set_bg_color obj 0x000000
                :: s.calls }

/-- The two-phase activation in the words of the specification: ensure the
opaque root, then make the general request `ui_show_screen(UI_SCREEN_NAVIGATION)`,
with its rejections. -/
def show_navigation_two_phase (anim_time : Nat) (s : ScreenState) : ScreenState :=
  ui_show_screen UI_SCREEN_NAVIGATION anim_time (ensure_navigation_root s)

/-! ## Letter case -/

/-- An ASCII small letter made a capital, any other character kept: the
counterpart of `lower_char`, to state that classification ignores case. -/
def upper_char (c : Char) : Char :=
  if 'a' ≤ c ∧ c ≤ 'z' then Char.ofNat (c.toNat - 'a'.toNat + 'A'.toNat) else c

/-! ## Geometry: mirror, canvas, polylines and head directions -/

/-- The mirror image of a point about the vertical centre line `x = 86` of the
172 pixel wide display. -/
def mirror (p : lv_point_t) : lv_point_t := ⟨172 - p.x, p.y⟩

/-- The point lies on the display inside the icon zone: `0 <= x <= 171` and
`60 <= y <= 200`. -/
def in_canvas (p : lv_point_t) : Prop := 0 ≤ p.x ∧ p.x ≤ 171 ∧ 60 ≤ p.y ∧ p.y ≤ 200

instance (p : lv_point_t) : Decidable (in_canvas p) := by
  unfold in_canvas; infer_instance

/-- The three points that `set_arrow_points_slight` writes to `pts_poly`. -/
def slight_polyline (to_right : Bool) : List lv_point_t :=
  let origin_x : Int := (172 - ARROW_WIDTH) / 2
  let origin_y : Int := 60
  let x0 := origin_x + ARROW_WIDTH / 2
  let y0 := origin_y + ARROW_HEIGHT - 10
  let x1 := x0 + (if to_right then 45 else -45)
  let y1 := y0 - 90
  let x_ctrl := x0 + (if to_right then 30 else -30)
  let y_ctrl := y0 - 40
  [pt x0 y0, pt x_ctrl y_ctrl, pt x1 y1]

/-- The arguments `(dy, dx)` of the `atan2f` call of `set_arrow_points_slight`:
`(y1 - y_ctrl, x1 - x_ctrl)`. -/
def slight_head_vector (to_right : Bool) : Int × Int :=
  let origin_x : Int := (172 - ARROW_WIDTH) / 2
  let origin_y : Int := 60
  let x0 := origin_x + ARROW_WIDTH / 2
  let y0 := origin_y + ARROW_HEIGHT - 10
  let x1 := x0 + (if to_right then 45 else -45)
  let y1 := y0 - 90
  let x_ctrl := x0 + (if to_right then 30 else -30)
  let y_ctrl := y0 - 40
  (y1 - y_ctrl, x1 - x_ctrl)

/-- The four points that `set_arrow_points_sharp` writes to `pts_poly`. -/
def sharp_polyline (to_right : Bool) : List lv_point_t :=
  let origin_x : Int := (172 - ARROW_WIDTH) / 2
  let origin_y : Int := 60
  let x0 := origin_x + ARROW_WIDTH / 2
  let y0 := origin_y + ARROW_HEIGHT - 10
  let y1 := y0 - 50
  let x2 := if to_right then x0 + 40 else x0 - 40
  let y2 := y1 - 40
  [pt x0 y0, pt x0 y1, pt x2 y1, pt x2 y2]

/-- The arguments `(dy, dx)` of the `atan2f` call of `set_arrow_points_sharp`:
`(y2 - y1, x2 - x0)`. -/
def sharp_head_vector (to_right : Bool) : Int × Int :=
  let origin_x : Int := (172 - ARROW_WIDTH) / 2
  let origin_y : Int := 60
  let x0 := origin_x + ARROW_WIDTH / 2
  let y0 := origin_y + ARROW_HEIGHT - 10
  let y1 := y0 - 50
  let x2 := if to_right then x0 + 40 else x0 - 40
  let y2 := y1 - 40
  (y2 - y1, x2 - x0)

/-- The vector `(dy, dx)` from the point `p` to the point `q`. -/
def segment_vector (p q : lv_point_t) : Int × Int := (q.y - p.y, q.x - p.x)

/-- The three arrowhead segments (shaft end, two wings) drawn at the tip
`(x, y)` for the direction `angle`, with shaft length `len`: the assignments to
`pts_shaft`, `pts_head1`, `pts_head2` shared by `set_arrow_points_slight` and
`set_arrow_points_sharp`. -/
def head_at (fm : FloatOps) (len x y : Int) (angle : fm.F) : List (List lv_point_t) :=
  [[pt (x - icos fm len angle) (y - isin fm len angle), pt x y],
   [pt (x - icos fm 8 (fm.add angle (fm.ofDec 22 1)))
       (y - isin fm 8 (fm.add angle (fm.ofDec 22 1))), pt x y],
   [pt (x - icos fm 8 (fm.sub angle (fm.ofDec 22 1)))
       (y - isin fm 8 (fm.sub angle (fm.ofDec 22 1))), pt x y]]

/-- What is on screen: for each glyph part, `none` when it is hidden or does
not exist, else the points the line object draws (the first `point_num`
entries of its array). -/
def part_points (o : Option LineObj) (arr : List lv_point_t) : Option (List lv_point_t) :=
  match o with
  | Option.none => Option.none
  | some l => if l.hidden then Option.none else some (arr.take l.point_num)

structure Drawing where
  shaft : Option (List lv_point_t)
  head1 : Option (List lv_point_t)
  head2 : Option (List lv_point_t)
  poly : Option (List lv_point_t)
  flag_pole : Option (List lv_point_t)
  flag_triangle : Option (List lv_point_t)
deriving DecidableEq, Repr

/-- The visible glyph parts of a state, with their geometry. -/
def drawing (s : NavState) : Drawing where
  shaft := part_points s.line_shaft s.pts_shaft
  head1 := part_points s.line_head1 s.pts_head1
  head2 := part_points s.line_head2 s.pts_head2
  poly := part_points s.line_poly s.pts_poly
  flag_pole := part_points s.flag_pole s.pts_flag_pole
  flag_triangle := part_points s.flag_triangle s.pts_flag_head

/-! ## The classifier with the keep disjunct of the Slight tests removed -/

/-- In the words of the claim about rule 4: `update_arrow_image` with the
condition `(is_slight || is_keep)` of the two Slight routing tests replaced by
`is_slight`, everything else as in `update_arrow_image`. -/
def update_arrow_image_slight_only (fm : FloatOps) (direction : Option (List Char))
    (color : Nat) (s : NavState) : NavState :=
  if s.line_shaft.isNone || s.line_head1.isNone || s.line_head2.isNone || s.line_poly.isNone
  then s
  else
    let s := reset_arrows color s
    match direction with
    | Option.none => s
    | some [] => s
    | some (c :: cs) =>
      let n := dir_norm (c :: cs)
      let col := arrow_color n color
      if is_uturn n then
        ARROW_COLOR col (show_poly_with_heads (set_arrow_points_uturn fm false s))
      else if is_keep n && is_right n then
        ARROW_COLOR col (show_poly_with_heads (set_arrow_points_keep true s))
      else if is_keep n && is_left n then
        ARROW_COLOR col (show_poly_with_heads (set_arrow_points_keep false s))
      else if is_sharp n && is_right n then
        ARROW_COLOR col (show_poly_with_heads (set_arrow_points_sharp fm true s))
      else if is_sharp n && is_left n then
        ARROW_COLOR col (show_poly_with_heads (set_arrow_points_sharp fm false s))
      else if is_slight n && is_right n then
        ARROW_COLOR col (show_poly_with_heads (set_arrow_points_slight fm true s))
      else if is_slight n && is_left n then
        ARROW_COLOR col (show_poly_with_heads (set_arrow_points_slight fm false s))
      else if is_round n then
        let exit_dir : Int := if is_left n then -1 else if is_right n then 1 else 0
        ARROW_COLOR col (show_poly_with_heads (set_arrow_points_roundabout fm exit_dir s))
      else if is_right n then
        ARROW_COLOR col (show_shaft_head (set_arrow_points_left_right true s))
      else if is_left n then
        ARROW_COLOR col (show_shaft_head (set_arrow_points_left_right false s))
      else if is_dest n then
        show_flag s
      else if is_straight n then
        ARROW_COLOR col (show_shaft_head (set_arrow_points_straight s))
      else s

/-! ## Theme colours (`ui_theme.h`, `ui_theme.cpp`) -/

def COLOR_ARROW_LEFT : Nat := 0x07E0
def COLOR_ARROW_RIGHT : Nat := 0x07E0
def COLOR_ARROW_SHARP : Nat := 0xFE20
def COLOR_ARROW_SLIGHT : Nat := 0x07FF
def COLOR_ARROW_UTURN : Nat := 0x07E0
def COLOR_ARROW_MERGE : Nat := 0xF81F
def COLOR_ARROW_KEEP : Nat := 0xF81F
def COLOR_ARROW_DEST : Nat := 0xF800

/-- The buffer `dir_lower[16]` of `ui_theme_get_arrow_color`: the first 15
characters (`strncpy` with `sizeof(dir_lower) - 1`), lowered. -/
def dir_lower (direction : List Char) : List Char :=
  (direction.take 15).map lower_char

def ui_theme_get_arrow_color (direction : Option (List Char)) : Nat :=
  match direction with
  | Option.none => COLOR_ARROW_STRAIGHT
  | some d =>
    let l := dir_lower d
    if strstr l "destination".toList || strstr l "arrived".toList
        || strstr l "destination_reached".toList then COLOR_ARROW_DEST
    else if strstr l "sharp_left".toList || strstr l "sharp_right".toList
        || strstr l "sharp-left".toList || strstr l "sharp-right".toList then COLOR_ARROW_SHARP
    else if strstr l "slight_left".toList || strstr l "slight_right".toList
        || strstr l "slight-left".toList || strstr l "slight-right".toList then
      COLOR_ARROW_SLIGHT
    else if strstr l "merge_left".toList || strstr l "merge-right".toList
        || strstr l "merge_right".toList || strstr l "merge".toList then COLOR_ARROW_MERGE
    else if strstr l "keep_left".toList || strstr l "keep-right".toList
        || strstr l "keep_right".toList || strstr l "keep".toList then COLOR_ARROW_KEEP
    else if strstr l "uturn".toList || strstr l "u-turn".toList || strstr l "u_turn".toList
      then COLOR_ARROW_UTURN
    else if strstr l "straight".toList || strstr l "continue".toList then COLOR_ARROW_STRAIGHT
    else if strstr l "left".toList then COLOR_ARROW_LEFT
    else if strstr l "right".toList then COLOR_ARROW_RIGHT
    else COLOR_ARROW_STRAIGHT

/-! ## Call screens (`ui_incoming_call_screen.cpp`, `ui_outgoing_call_screen.cpp`) -/

/-- A label object: whether `lv_obj_is_valid` holds for it, and its text. -/
structure Label where
  valid : Bool
  text : List Char
deriving DecidableEq, Repr

/-- The avatar circle: whether `lv_obj_is_valid` holds for it, and its child
0 (`lv_obj_get_child(img_avatar, 0)`), the label with the initial. -/
structure Avatar where
  valid : Bool
  child : Option Label
deriving DecidableEq, Repr

/-- The widgets of `ui_incoming_call_screen.cpp` that carry caller data. -/
structure IncomingCallState where
  label_header : Option Label
  img_avatar : Option Avatar
  label_name : Option Label
  label_number : Option Label
deriving DecidableEq, Repr

def IncomingCallState.init : IncomingCallState where
  label_header := Option.none
  img_avatar := Option.none
  label_name := Option.none
  label_number := Option.none

/-- `ui_incoming_call_screen_create(parent)`: the labels and the avatar with
their first texts (the dismiss button and the hint label hold no caller data
and are left out). -/
def ui_incoming_call_screen_create (parent : Option Nat) (s : IncomingCallState) :
    IncomingCallState :=
  match parent with
  | Option.none => s
  | some _ =>
    { label_header := some { valid := true, text := "Incoming Call".toList }
      img_avatar := some { valid := true, child := some { valid := true, text := "?".toList } }
      label_name := some { valid := true, text := "Caller".toList }
      label_number := some { valid := true, text := "".toList } }

/-- The avatar update shared by both call screens: the block guarded by
`img_avatar && lv_obj_is_valid(img_avatar)`, writing the initial `name[0]`. -/
def set_avatar_initial (c : Char) (avatar : Option Avatar) : Option Avatar :=
  match avatar with
  | Option.none => Option.none
  | some av =>
    if av.valid then
      match av.child with
      | Option.none => some av
      | some ch => if ch.valid then some { av with child := some { ch with text := [c] } }
                   else some av
    else some av

def ui_incoming_call_screen_update (name number : Option (List Char))
    (s : IncomingCallState) : IncomingCallState :=
  let s :=
    match s.label_name with
    | Option.none => s
    | some l =>
      if l.valid then
        match name with
        | some (c :: cs) =>
          { s with
            label_name := some { l with text := c :: cs }
            img_avatar := set_avatar_initial c s.img_avatar }
        | _ => { s with label_name := some { l with text := "Unknown".toList } }
      else s
  match s.label_number with
  | Option.none => s
  | some l =>
    if l.valid then
      match number with
      | some (c :: cs) =>
        if c :: cs ≠ "Unknown".toList then
          { s with label_number := some { l with text := c :: cs } }
        else { s with label_number := some { l with text := [] } }
      | _ => { s with label_number := some { l with text := [] } }
    else s

/-- The widgets of `ui_outgoing_call_screen.cpp` that carry caller data. -/
structure OutgoingCallState where
  img_avatar : Option Avatar
  label_name : Option Label
deriving DecidableEq, Repr

def OutgoingCallState.init : OutgoingCallState where
  img_avatar := Option.none
  label_name := Option.none

/-- `ui_outgoing_call_screen_create(parent)`: the avatar and the name label
(status, spinner, duration and the hang-up button hold no caller name and are
left out). -/
def ui_outgoing_call_screen_create (parent : Option Nat) (s : OutgoingCallState) :
    OutgoingCallState :=
  match parent with
  | Option.none => s
  | some _ =>
    { img_avatar := some { valid := true, child := some { valid := true, text := "?".toList } }
      label_name := some { valid := true, text := "Calling...".toList } }

def ui_outgoing_call_screen_update (name : Option (List Char)) (s : OutgoingCallState) :
    OutgoingCallState :=
  match s.label_name with
  | Option.none => s
  | some l =>
    if l.valid then
      match name with
      | some (c :: cs) =>
        { s with
          label_name := some { l with text := c :: cs }
          img_avatar := set_avatar_initial c s.img_avatar }
      | _ => { s with label_name := some { l with text := "Unknown".toList } }
    else s

/-- The text of the name label, when the label exists. -/
def shown_name (l : Option Label) : Option (List Char) := l.map Label.text

/-- The text of the avatar's initial label, when it exists. -/
def shown_initial (a : Option Avatar) : Option (List Char) :=
  match a with
  | Option.none => Option.none
  | some av => av.child.map Label.text

/-- Every widget the incoming call update touches exists and is valid: the
name label, the number label, the avatar and the avatar's initial label. -/
def incoming_widgets_valid (s : IncomingCallState) : Prop :=
  (∃ l, s.label_name = some l ∧ l.valid = true)
    ∧ (∃ l, s.label_number = some l ∧ l.valid = true)
    ∧ ∃ av ch, s.img_avatar = some av ∧ av.valid = true ∧ av.child = some ch ∧ ch.valid = true

/-- Every widget the outgoing call update touches exists and is valid. -/
def outgoing_widgets_valid (s : OutgoingCallState) : Prop :=
  (∃ l, s.label_name = some l ∧ l.valid = true)
    ∧ ∃ av ch, s.img_avatar = some av ∧ av.valid = true ∧ av.child = some ch ∧ ch.valid = true

/-! ## Single precision arithmetic (IEEE 754 binary32) -/

/-- A finite binary32 value, held as the fraction `num / den` (not reduced).
Infinities and NaN are not represented: the program converts `int` values and
divides and multiplies by literals, which stays far below the overflow
threshold and never divides by zero. -/
structure Binary32 where
  num : Int
  den : Nat
deriving DecidableEq, Repr

namespace Binary32

/-- The integer nearest to `p / q`, a tie going to the even one. -/
def round_half_even (p q : Nat) : Nat :=
  if 2 * (p % q) < q then p / q
  else if q < 2 * (p % q) then p / q + 1
  else if (p / q) % 2 = 0 then p / q
  else p / q + 1

/-- The position of the leading binary digit of `n`, by halving (`fuel` bounds
the number of halvings). -/
def ilog2_fuel : Nat → Nat → Nat
  | 0, _ => 0
  | fuel + 1, n => if n < 2 then 0 else ilog2_fuel fuel (n / 2) + 1

/-- The position of the leading binary digit: `2 ^ ilog2 n <= n < 2 ^ (ilog2 n + 1)`
for `n > 0`. -/
def ilog2 (n : Nat) : Nat := ilog2_fuel n n

/-- The binary exponent of the fraction `p / q > 0`: the `k` with
`2 ^ k <= p / q < 2 ^ (k + 1)`. -/
def floor_log2 (p q : Nat) : Int :=
  if q * 2 ^ ilog2 p ≤ p * 2 ^ ilog2 q then (ilog2 p : Int) - (ilog2 q : Int)
  else (ilog2 p : Int) - (ilog2 q : Int) - 1

/-- Rounding of the real number `± p / q` to binary32, to nearest with ties to
even: the significand has 24 binary digits, so the unit in the last place is
`2 ^ e` with `e = floor_log2 p q - 23`, and not less than `2 ^ (-149)`
(subnormal range). -/
def round (neg : Bool) (p q : Nat) : Binary32 :=
  if p = 0 ∨ q = 0 then ⟨0, 1⟩
  else
    let e : Int := max (floor_log2 p q - 23) (-149)
    let sign : Int := if neg then -1 else 1
    if 0 ≤ e then ⟨sign * (round_half_even p (q * 2 ^ e.toNat) * 2 ^ e.toNat : Nat), 1⟩
    else ⟨sign * (round_half_even (p * 2 ^ (-e).toNat) q : Nat), 2 ^ (-e).toNat⟩

/-- Rounding of the fraction `n / d` to binary32. -/
def ofFrac (n : Int) (d : Nat) : Binary32 := round (decide (n < 0)) n.natAbs d

/-- The conversion `(float)n` of an `int`. -/
def ofInt (n : Int) : Binary32 := ofFrac n 1

/-- The literal `m / 10^e` written with the suffix `f`. -/
def ofDec (m e : Nat) : Binary32 := round false m (10 ^ e)

def add (a b : Binary32) : Binary32 := ofFrac (a.num * b.den + b.num * a.den) (a.den * b.den)

def sub (a b : Binary32) : Binary32 := ofFrac (a.num * b.den - b.num * a.den) (a.den * b.den)

def mul (a b : Binary32) : Binary32 := ofFrac (a.num * b.num) (a.den * b.den)

def div (a b : Binary32) : Binary32 :=
  ofFrac (if b.num < 0 then - (a.num * b.den) else a.num * b.den) (a.den * b.num.natAbs)

/-- The conversion `(int)x`: truncation toward zero. -/
def toInt (a : Binary32) : Int := a.num.tdiv a.den

/-- The value in tenths that `%.1f` prints: the exact binary value rounded to
the nearest tenth, a tie going to the even tenth. -/
def tenths (a : Binary32) : Nat := round_half_even (10 * a.num.natAbs) a.den

/-- The conversion `%.1f` of `printf` (the `float` is passed as a `double`,
which changes nothing of its value): sign, integer digits, point, one
decimal digit. -/
def fmt_1f (a : Binary32) : List Char :=
  (if a.num < 0 then ['-'] else [])
    ++ Nat.toDigits 10 (tenths a / 10) ++ ['.'] ++ Nat.toDigits 10 (tenths a % 10)

end Binary32

/-- Single precision with the IEEE 754 arithmetic of `Binary32`.  The library
functions `cosf`, `sinf` and `atan2f`, whose results C does not fix, stay
parameters. -/
def binary32 (cosf sinf : Binary32 → Binary32) (atan2f : Binary32 → Binary32 → Binary32) :
    FloatOps where
  F := Binary32
  ofInt := Binary32.ofInt
  ofDec := Binary32.ofDec
  add := Binary32.add
  sub := Binary32.sub
  mul := Binary32.mul
  div := Binary32.div
  cosf := cosf
  sinf := sinf
  atan2f := atan2f
  toInt := Binary32.toInt

/-- The tenths of the km text: `%.1f` of `(float)d / 1000.0f`. -/
def km_tenths (d : Int) : Nat :=
  Binary32.tenths (Binary32.div (Binary32.ofInt d) (Binary32.ofDec 10000 1))

/-! ## Calls of `ui_screens.cpp` from program start -/

/-- A call of one of the functions of `ui_screens.cpp` that write its globals
or act on the presentation surface. -/
inductive ScreenCall where
  | init
  | show_screen (screen : Int) (anim_time : Nat)
  | transition_fade (from_screen to_screen : Int) (time : Nat)
  | show_navigation
  | cleanup
deriving DecidableEq, Repr

def ScreenCall.run : ScreenCall → ScreenState → ScreenState
  | .init, s => ui_screens_init s
  | .show_screen screen t, s => ui_show_screen screen t s
  | .transition_fade f t time, s => ui_transition_fade f t time s
  | .show_navigation, s => ui_show_navigation s
  | .cleanup, s => ui_screens_cleanup s

theorem begins_iff (needle hay : List Char) : begins needle hay = true ↔ needle <+: hay := by
  induction needle generalizing hay with
  | nil => simp [begins]
  | cons a as ih =>
    cases hay with
    | nil => simp [begins]
    | cons b bs => simp [begins, ih]

theorem strstr_iff (hay needle : List Char) : strstr hay needle = true ↔ needle <:+: hay := by
  induction hay with
  | nil => simp [strstr, begins_iff]
  | cons c cs ih => simp [strstr, begins_iff, ih, List.infix_cons_iff]

theorem strstr_iff_has (n : List Char) (tok : String) :
    strstr n tok.toList = true ↔ has n tok := strstr_iff n tok.toList

/-- A text that has a token has every piece of that token. -/
theorem has_of_has {n : List Char} {small big : String} (h : small.toList <:+: big.toList)
    (hb : has n big) : has n small := List.IsInfix.trans h hb

theorem has_ne_nil {d : List Char} {tok : String} (h : has (dir_norm d) tok)
    (ht : tok.toList ≠ []) : d ≠ [] := by
  rintro rfl
  exact ht (List.infix_nil.mp h)

theorem is_left_iff (n : List Char) : is_left n = true ↔ has n "left" := by
  simp only [is_left, Bool.or_eq_true, strstr_iff_has]
  constructor
  · rintro ((h | h) | h)
    · exact h
    · exact has_of_has (by decide) h
    · exact has_of_has (by decide) h
  · intro h; exact Or.inl (Or.inl h)

theorem is_right_iff (n : List Char) : is_right n = true ↔ has n "right" := by
  simp only [is_right, Bool.or_eq_true, strstr_iff_has]
  constructor
  · rintro ((h | h) | h)
    · exact h
    · exact has_of_has (by decide) h
    · exact has_of_has (by decide) h
  · intro h; exact Or.inl (Or.inl h)

theorem is_keep_iff (n : List Char) :
    is_keep n = true ↔ has n "keep_" ∨ has n "keep " ∨ has n "bear_" ∨ has n "bear " := by
  simp only [is_keep, Bool.or_eq_true, strstr_iff_has]
  tauto

theorem is_slight_iff (n : List Char) : is_slight n = true ↔ has n "slight" :=
  strstr_iff_has n "slight"

theorem is_sharp_iff (n : List Char) : is_sharp n = true ↔ has n "sharp" :=
  strstr_iff_has n "sharp"

theorem is_uturn_iff (n : List Char) :
    is_uturn n = true ↔
      has n "uturn" ∨ has n "u_turn" ∨ has n "u-turn" ∨ has n "turn_around" := by
  simp only [is_uturn, Bool.or_eq_true, strstr_iff_has]
  tauto

theorem is_round_iff (n : List Char) :
    is_round n = true ↔ has n "roundabout" ∨ has n "rotary" ∨ has n "circle" := by
  simp only [is_round, Bool.or_eq_true, strstr_iff_has]
  tauto

theorem is_straight_iff (n : List Char) :
    is_straight n = true ↔ has n "straight" ∨ has n "forward" ∨ has n "continue" := by
  simp only [is_straight, Bool.or_eq_true, strstr_iff_has]
  tauto

theorem is_dest_iff (n : List Char) :
    is_dest n = true ↔ has n "destination" ∨ has n "arrived" ∨ has n "end" := by
  simp only [is_dest, Bool.or_eq_true, strstr_iff_has]
  tauto

theorem eq_false_of_not {b : Bool} {p : Prop} (h : b = true ↔ p) (hp : ¬ p) : b = false := by
  cases b
  · rfl
  · exact absurd (h.mp rfl) hp

/-! ## Lemmas on `update_arrow_image` -/

/-- With the four line objects present and a non-empty instruction,
`update_arrow_image` is its routing chain on the normalised text. -/
theorem update_arrow_image_route (fm : FloatOps) (d : List Char) (color : Nat) (s : NavState)
    (hs : lines_exist s) (hd : d ≠ []) :
    update_arrow_image fm (some d) color s =
      if is_uturn (dir_norm d) then uturn_glyph fm d color s
      else if is_keep (dir_norm d) && is_right (dir_norm d) then keep_glyph true d color s
      else if is_keep (dir_norm d) && is_left (dir_norm d) then keep_glyph false d color s
      else if is_sharp (dir_norm d) && is_right (dir_norm d) then sharp_glyph fm true d color s
      else if is_sharp (dir_norm d) && is_left (dir_norm d) then sharp_glyph fm false d color s
      else if (is_slight (dir_norm d) || is_keep (dir_norm d)) && is_right (dir_norm d) then
        slight_glyph fm true d color s
      else if (is_slight (dir_norm d) || is_keep (dir_norm d)) && is_left (dir_norm d) then
        slight_glyph fm false d color s
      else if is_round (dir_norm d) then
        roundabout_glyph fm
          (if is_left (dir_norm d) then -1 else if is_right (dir_norm d) then 1 else 0) d color s
      else if is_right (dir_norm d) then turn_glyph true d color s
      else if is_left (dir_norm d) then turn_glyph false d color s
      else if is_dest (dir_norm d) then show_flag (reset_arrows color s)
      else if is_straight (dir_norm d) then
        ARROW_COLOR (arrow_color (dir_norm d) color)
          (show_shaft_head (set_arrow_points_straight (reset_arrows color s)))
      else reset_arrows color s := by
  obtain ⟨h1, h2, h3, h4⟩ := hs
  cases d with
  | nil => exact absurd rfl hd
  | cons c cs =>
    have g : (s.line_shaft.isNone || s.line_head1.isNone || s.line_head2.isNone
        || s.line_poly.isNone) = false := by
      rw [Option.isSome_iff_exists] at h1 h2 h3 h4
      obtain ⟨_, h1⟩ := h1; obtain ⟨_, h2⟩ := h2
      obtain ⟨_, h3⟩ := h3; obtain ⟨_, h4⟩ := h4
      simp [h1, h2, h3, h4]
    simp only [update_arrow_image, g, uturn_glyph, keep_glyph, sharp_glyph, slight_glyph,
      roundabout_glyph, turn_glyph]
    rfl

theorem lines_exist_some {s : NavState} (hs : lines_exist s) :
    ∃ a b c e, s.line_shaft = some a ∧ s.line_head1 = some b ∧ s.line_head2 = some c
      ∧ s.line_poly = some e := by
  obtain ⟨h1, h2, h3, h4⟩ := hs
  rw [Option.isSome_iff_exists] at h1 h2 h3 h4
  obtain ⟨a, h1⟩ := h1; obtain ⟨b, h2⟩ := h2
  obtain ⟨c, h3⟩ := h3; obtain ⟨e, h4⟩ := h4
  exact ⟨a, b, c, e, h1, h2, h3, h4⟩

theorem turn_glyph_shown (to_right : Bool) (d : List Char) (color : Nat) (s : NavState)
    (hs : lines_exist s) : shaft_heads_shown (turn_glyph to_right d color s) := by
  obtain ⟨a, b, c, e, h1, h2, h3, h4⟩ := lines_exist_some hs
  cases hp : s.flag_pole <;> cases ht : s.flag_triangle <;>
    simp [shaft_heads_shown, turn_glyph, ARROW_COLOR, show_shaft_head,
      set_arrow_points_left_right, reset_arrows, hide_all_arrows, add_hidden, clear_hidden,
      set_line_color, set_points, part_shown, part_hidden, h1, h2, h3, h4, hp, ht]

theorem keep_glyph_shown (to_right : Bool) (d : List Char) (color : Nat) (s : NavState)
    (hs : lines_exist s) : poly_heads_shown (keep_glyph to_right d color s) := by
  obtain ⟨a, b, c, e, h1, h2, h3, h4⟩ := lines_exist_some hs
  cases hp : s.flag_pole <;> cases ht : s.flag_triangle <;>
    simp [poly_heads_shown, keep_glyph, ARROW_COLOR, show_poly_with_heads,
      set_arrow_points_keep, reset_arrows, hide_all_arrows, add_hidden, clear_hidden,
      set_line_color, set_points, part_shown, part_hidden, h1, h2, h3, h4, hp, ht]

theorem uturn_glyph_shown (fm : FloatOps) (d : List Char) (color : Nat) (s : NavState)
    (hs : lines_exist s) : poly_heads_shown (uturn_glyph fm d color s) := by
  obtain ⟨a, b, c, e, h1, h2, h3, h4⟩ := lines_exist_some hs
  cases hp : s.flag_pole <;> cases ht : s.flag_triangle <;>
    simp [poly_heads_shown, uturn_glyph, ARROW_COLOR, show_poly_with_heads,
      set_arrow_points_uturn, reset_arrows, hide_all_arrows, add_hidden, clear_hidden,
      set_line_color, set_points, part_shown, part_hidden, h1, h2, h3, h4, hp, ht]

theorem roundabout_glyph_shown (fm : FloatOps) (exit_dir : Int) (d : List Char) (color : Nat)
    (s : NavState) (hs : lines_exist s) :
    poly_heads_shown (roundabout_glyph fm exit_dir d color s) := by
  obtain ⟨a, b, c, e, h1, h2, h3, h4⟩ := lines_exist_some hs
  cases hp : s.flag_pole <;> cases ht : s.flag_triangle <;>
    simp [poly_heads_shown, roundabout_glyph, ARROW_COLOR, show_poly_with_heads,
      set_arrow_points_roundabout, reset_arrows, hide_all_arrows, add_hidden, clear_hidden,
      set_line_color, set_points, part_shown, part_hidden, h1, h2, h3, h4, hp, ht]

/-- The point count of the polyline tells the Keep glyph (2) from the Slight
glyph (3) and the Sharp glyph (4). -/
theorem keep_glyph_poly_points (to_right : Bool) (d : List Char) (color : Nat) (s : NavState) :
    (keep_glyph to_right d color s).line_poly.map LineObj.point_num
      = s.line_poly.map fun _ => 2 := by
  cases h : s.line_poly <;>
    simp [keep_glyph, ARROW_COLOR, show_poly_with_heads, set_arrow_points_keep, reset_arrows,
      hide_all_arrows, add_hidden, clear_hidden, set_line_color, set_points, h]

theorem slight_glyph_poly_points (fm : FloatOps) (to_right : Bool) (d : List Char)
    (color : Nat) (s : NavState) :
    (slight_glyph fm to_right d color s).line_poly.map LineObj.point_num
      = s.line_poly.map fun _ => 3 := by
  cases h : s.line_poly <;>
    simp [slight_glyph, ARROW_COLOR, show_poly_with_heads, set_arrow_points_slight,
      reset_arrows, hide_all_arrows, add_hidden, clear_hidden, set_line_color, set_points, h]

theorem keep_glyph_ne_slight (fm : FloatOps) (r r2 : Bool) (d : List Char) (color : Nat)
    (s : NavState) (hs : lines_exist s) :
    keep_glyph r d color s ≠ slight_glyph fm r2 d color s := by
  obtain ⟨a, b, c, e, h1, h2, h3, h4⟩ := lines_exist_some hs
  intro h
  have h := congrArg (fun t => t.line_poly.map LineObj.point_num) h
  simp [keep_glyph_poly_points, slight_glyph_poly_points, h4] at h

/-- C1 (amended).  With the four line objects present: an instruction whose
normalised text (first 63 characters, lowered) has "left", has no "right" and
has none of "keep", "sharp", "slight", "uturn", "roundabout", "bear_", "bear ",
"u_turn", "u-turn", "turn_around", "rotary", "circle" gets the plain TurnLeft
glyph (`set_arrow_points_left_right(false)`, shaft and heads shown); one that
has "right" and none of those tokens gets the plain TurnRight glyph. -/
theorem plain_turn_glyph (fm : FloatOps) (d : List Char) (color : Nat) (s : NavState)
    (hs : lines_exist s)
    (hnone : ∀ tok ∈ ["keep", "sharp", "slight", "uturn", "roundabout", "bear_", "bear ",
      "u_turn", "u-turn", "turn_around", "rotary", "circle"], ¬ has (dir_norm d) tok) :
    (has (dir_norm d) "left" → ¬ has (dir_norm d) "right" →
      update_arrow_image fm (some d) color s = turn_glyph false d color s
        ∧ shaft_heads_shown (update_arrow_image fm (some d) color s))
    ∧ (has (dir_norm d) "right" →
      update_arrow_image fm (some d) color s = turn_glyph true d color s
        ∧ shaft_heads_shown (update_arrow_image fm (some d) color s)) := by
  have hkeep : is_keep (dir_norm d) = false :=
    eq_false_of_not (is_keep_iff _) (by
      rintro (h | h | h | h)
      · exact hnone "keep" (by simp) (has_of_has (by decide) h)
      · exact hnone "keep" (by simp) (has_of_has (by decide) h)
      · exact hnone "bear_" (by simp) h
      · exact hnone "bear " (by simp) h)
  have hsharp : is_sharp (dir_norm d) = false :=
    eq_false_of_not (is_sharp_iff _) (hnone "sharp" (by simp))
  have hslight : is_slight (dir_norm d) = false :=
    eq_false_of_not (is_slight_iff _) (hnone "slight" (by simp))
  have huturn : is_uturn (dir_norm d) = false :=
    eq_false_of_not (is_uturn_iff _) (by
      rintro (h | h | h | h)
      · exact hnone "uturn" (by simp) h
      · exact hnone "u_turn" (by simp) h
      · exact hnone "u-turn" (by simp) h
      · exact hnone "turn_around" (by simp) h)
  have hround : is_round (dir_norm d) = false :=
    eq_false_of_not (is_round_iff _) (by
      rintro (h | h | h)
      · exact hnone "roundabout" (by simp) h
      · exact hnone "rotary" (by simp) h
      · exact hnone "circle" (by simp) h)
  constructor
  · intro hl hr
    have hL : is_left (dir_norm d) = true := (is_left_iff _).mpr hl
    have hR : is_right (dir_norm d) = false := eq_false_of_not (is_right_iff _) hr
    have e : update_arrow_image fm (some d) color s = turn_glyph false d color s := by
      rw [update_arrow_image_route fm d color s hs (has_ne_nil hl (by decide))]
      simp [hkeep, hsharp, hslight, huturn, hround, hL, hR]
    exact ⟨e, e ▸ turn_glyph_shown false d color s hs⟩
  · intro hr
    have hR : is_right (dir_norm d) = true := (is_right_iff _).mpr hr
    have e : update_arrow_image fm (some d) color s = turn_glyph true d color s := by
      rw [update_arrow_image_route fm d color s hs (has_ne_nil hr (by decide))]
      simp [hkeep, hsharp, hslight, huturn, hround, hR]
    exact ⟨e, e ▸ turn_glyph_shown true d color s hs⟩

/-- C1, witness: "turn_left" and "turn_right" on the created screen. -/
theorem plain_turn_glyph_witness :
    (lines_exist (created fixedPoint)
      ∧ (∀ tok ∈ ["keep", "sharp", "slight", "uturn", "roundabout", "bear_", "bear ",
          "u_turn", "u-turn", "turn_around", "rotary", "circle"],
          ¬ has (dir_norm "turn_left".toList) tok)
      ∧ has (dir_norm "turn_left".toList) "left"
      ∧ ¬ has (dir_norm "turn_left".toList) "right"
      ∧ update_arrow_image fixedPoint (some "turn_left".toList) COLOR_ARROW_STRAIGHT
            (created fixedPoint)
          = turn_glyph false "turn_left".toList COLOR_ARROW_STRAIGHT (created fixedPoint)
      ∧ shaft_heads_shown (update_arrow_image fixedPoint (some "turn_left".toList)
          COLOR_ARROW_STRAIGHT (created fixedPoint)))
    ∧ (has (dir_norm "turn_right".toList) "right"
      ∧ update_arrow_image fixedPoint (some "turn_right".toList) COLOR_ARROW_STRAIGHT
            (created fixedPoint)
          = turn_glyph true "turn_right".toList COLOR_ARROW_STRAIGHT (created fixedPoint)) :=
  ⟨⟨by decide, by decide, by decide, by decide,
      (plain_turn_glyph fixedPoint "turn_left".toList COLOR_ARROW_STRAIGHT (created fixedPoint)
        (by decide) (by decide)).1 (by decide) (by decide)⟩,
    by decide,
    ((plain_turn_glyph fixedPoint "turn_right".toList COLOR_ARROW_STRAIGHT
        (created fixedPoint) (by decide) (by decide)).2 (by decide)).1⟩

/-- C1 as first stated fails: each of "left_then_right", "bear_left", "u_turn_left"
and "rotary_left" has "left" and none of "keep", "sharp", "slight", "uturn",
"roundabout", yet on the created screen it gets the TurnRight, KeepLeft, UTurn
and Roundabout (left exit) glyph respectively, not the plain TurnLeft glyph. -/
theorem plain_turn_first_form_fails :
    (plain_left_input "left_then_right".toList
      ∧ update_arrow_image fixedPoint (some "left_then_right".toList) COLOR_ARROW_STRAIGHT
          (created fixedPoint)
        = turn_glyph true "left_then_right".toList COLOR_ARROW_STRAIGHT (created fixedPoint)
      ∧ update_arrow_image fixedPoint (some "left_then_right".toList) COLOR_ARROW_STRAIGHT
          (created fixedPoint)
        ≠ turn_glyph false "left_then_right".toList COLOR_ARROW_STRAIGHT (created fixedPoint))
    ∧ (plain_left_input "bear_left".toList
      ∧ update_arrow_image fixedPoint (some "bear_left".toList) COLOR_ARROW_STRAIGHT
          (created fixedPoint)
        = keep_glyph false "bear_left".toList COLOR_ARROW_STRAIGHT (created fixedPoint)
      ∧ update_arrow_image fixedPoint (some "bear_left".toList) COLOR_ARROW_STRAIGHT
          (created fixedPoint)
        ≠ turn_glyph false "bear_left".toList COLOR_ARROW_STRAIGHT (created fixedPoint))
    ∧ (plain_left_input "u_turn_left".toList
      ∧ update_arrow_image fixedPoint (some "u_turn_left".toList) COLOR_ARROW_STRAIGHT
          (created fixedPoint)
        = uturn_glyph fixedPoint "u_turn_left".toList COLOR_ARROW_STRAIGHT (created fixedPoint)
      ∧ update_arrow_image fixedPoint (some "u_turn_left".toList) COLOR_ARROW_STRAIGHT
          (created fixedPoint)
        ≠ turn_glyph false "u_turn_left".toList COLOR_ARROW_STRAIGHT (created fixedPoint))
    ∧ (plain_left_input "rotary_left".toList
      ∧ update_arrow_image fixedPoint (some "rotary_left".toList) COLOR_ARROW_STRAIGHT
          (created fixedPoint)
        = roundabout_glyph fixedPoint (-1) "rotary_left".toList COLOR_ARROW_STRAIGHT
            (created fixedPoint)
      ∧ update_arrow_image fixedPoint (some "rotary_left".toList) COLOR_ARROW_STRAIGHT
          (created fixedPoint)
        ≠ turn_glyph false "rotary_left".toList COLOR_ARROW_STRAIGHT (created fixedPoint)) := by
  refine ⟨⟨?_, ?_, ?_⟩, ⟨?_, ?_, ?_⟩, ⟨?_, ?_, ?_⟩, ⟨?_, ?_, ?_⟩⟩ <;> decide

/-- C3.  With the four line objects present: every instruction whose normalised
text (first 63 characters, lowered) has a U-turn token ("uturn", "u_turn",
"u-turn" or "turn_around") gets the UTurn glyph built by
`set_arrow_points_uturn(false)`, whatever else the text has; "uturn_left" and
"uturn_right" leave the very same state (same geometry). -/
theorem uturn_glyph_selected (fm : FloatOps) (d : List Char) (color : Nat) (s : NavState)
    (hs : lines_exist s)
    (hu : ∃ tok ∈ ["uturn", "u_turn", "u-turn", "turn_around"], has (dir_norm d) tok) :
    update_arrow_image fm (some d) color s = uturn_glyph fm d color s
      ∧ poly_heads_shown (update_arrow_image fm (some d) color s)
      ∧ update_arrow_image fm (some "uturn_left".toList) color s
          = update_arrow_image fm (some "uturn_right".toList) color s := by
  have hU : is_uturn (dir_norm d) = true := by
    rw [is_uturn_iff]
    obtain ⟨tok, hm, h⟩ := hu
    simp only [List.mem_cons, List.mem_singleton, List.not_mem_nil, or_false] at hm
    rcases hm with rfl | rfl | rfl | rfl
    · exact Or.inl h
    · exact Or.inr (Or.inl h)
    · exact Or.inr (Or.inr (Or.inl h))
    · exact Or.inr (Or.inr (Or.inr h))
  have hd : d ≠ [] := by
    rintro rfl
    simp [dir_norm, is_uturn, strstr, begins] at hU
  have e : update_arrow_image fm (some d) color s = uturn_glyph fm d color s := by
    rw [update_arrow_image_route fm d color s hs hd]
    simp [hU]
  refine ⟨e, e ▸ uturn_glyph_shown fm d color s hs, ?_⟩
  have hl : is_uturn (dir_norm "uturn_left".toList) = true := by decide
  have hr : is_uturn (dir_norm "uturn_right".toList) = true := by decide
  have cl : arrow_color (dir_norm "uturn_left".toList) color = 0xF81F := by
    have h1 : is_straight (dir_norm "uturn_left".toList) = false := by decide
    unfold arrow_color
    rw [h1, hl]
    rfl
  have cr : arrow_color (dir_norm "uturn_right".toList) color = 0xF81F := by
    have h1 : is_straight (dir_norm "uturn_right".toList) = false := by decide
    unfold arrow_color
    rw [h1, hr]
    rfl
  rw [update_arrow_image_route fm _ color s hs (by decide),
    update_arrow_image_route fm _ color s hs (by decide)]
  simp only [hl, hr, if_true, uturn_glyph, cl, cr]

/-- C3, witness: "make_a_u-turn_then_keep_left" on the created screen. -/
theorem uturn_glyph_selected_witness :
    lines_exist (created fixedPoint)
      ∧ (∃ tok ∈ ["uturn", "u_turn", "u-turn", "turn_around"],
          has (dir_norm "make_a_u-turn_then_keep_left".toList) tok)
      ∧ update_arrow_image fixedPoint (some "make_a_u-turn_then_keep_left".toList)
            COLOR_ARROW_STRAIGHT (created fixedPoint)
          = uturn_glyph fixedPoint "make_a_u-turn_then_keep_left".toList COLOR_ARROW_STRAIGHT
              (created fixedPoint)
      ∧ poly_heads_shown (update_arrow_image fixedPoint
          (some "make_a_u-turn_then_keep_left".toList) COLOR_ARROW_STRAIGHT
          (created fixedPoint))
      ∧ update_arrow_image fixedPoint (some "uturn_left".toList) COLOR_ARROW_STRAIGHT
            (created fixedPoint)
          = update_arrow_image fixedPoint (some "uturn_right".toList) COLOR_ARROW_STRAIGHT
              (created fixedPoint) :=
  ⟨by decide, by decide,
    uturn_glyph_selected fixedPoint "make_a_u-turn_then_keep_left".toList COLOR_ARROW_STRAIGHT
      (created fixedPoint) (by decide) (by decide)⟩

theorem reset_arrows_hidden (color : Nat) (s : NavState) :
    all_parts_hidden (reset_arrows color s) := by
  cases h1 : s.line_shaft <;> cases h2 : s.line_head1 <;> cases h3 : s.line_head2 <;>
    cases h4 : s.line_poly <;> cases h5 : s.flag_pole <;> cases h6 : s.flag_triangle <;>
    simp [all_parts_hidden, reset_arrows, hide_all_arrows, add_hidden, set_line_color,
      part_hidden, h1, h2, h3, h4, h5, h6]

theorem hidden_of_no_parts {s : NavState}
    (h : s.line_shaft = none ∧ s.line_head1 = none ∧ s.line_head2 = none ∧ s.line_poly = none
      ∧ s.flag_pole = none ∧ s.flag_triangle = none) : all_parts_hidden s := by
  obtain ⟨h1, h2, h3, h4, h5, h6⟩ := h
  simp [all_parts_hidden, part_hidden, h1, h2, h3, h4, h5, h6]

/-- Without an instruction `update_arrow_image` stops after its opening block. -/
theorem update_arrow_image_blank (fm : FloatOps) (color : Nat) (s : NavState) :
    update_arrow_image fm none color s
        = (if s.line_shaft.isNone || s.line_head1.isNone || s.line_head2.isNone
            || s.line_poly.isNone then s else reset_arrows color s)
      ∧ update_arrow_image fm (some []) color s = update_arrow_image fm none color s := by
  constructor <;> simp only [update_arrow_image]

/-- C5.  In a state where the arrow has been created, or where no glyph part
exists yet: `update_arrow_image` leaves every glyph part (shaft, both heads,
polyline, flag pole, flag triangle) hidden for the null instruction, for the
empty instruction, and for every non-empty instruction whose normalised text
has no laterality token ("left", "right"), no U-turn token, no roundabout
token, no destination token ("destination", "arrived", "end") and no straight
token ("straight", "forward", "continue"), whatever else it has. -/
theorem unknown_instruction_hidden (fm : FloatOps) (color : Nat) (s : NavState)
    (hs : parts_consistent s) :
    all_parts_hidden (update_arrow_image fm none color s)
    ∧ all_parts_hidden (update_arrow_image fm (some []) color s)
    ∧ ∀ d : List Char, d ≠ [] →
        (∀ tok ∈ ["left", "right", "uturn", "u_turn", "u-turn", "turn_around", "roundabout",
          "rotary", "circle", "destination", "arrived", "end", "straight", "forward",
          "continue"], ¬ has (dir_norm d) tok) →
        all_parts_hidden (update_arrow_image fm (some d) color s) := by
  have hblank : all_parts_hidden (update_arrow_image fm none color s) := by
    rw [(update_arrow_image_blank fm color s).1]
    rcases hs with hs | hs
    · obtain ⟨a, b, c, e, h1, h2, h3, h4⟩ := lines_exist_some hs
      simp only [h1, h2, h3, h4, Option.isNone_some, Bool.or_self, Bool.false_eq_true, if_false]
      exact reset_arrows_hidden color s
    · split
      · exact hidden_of_no_parts hs
      · exact reset_arrows_hidden color s
  refine ⟨hblank, (update_arrow_image_blank fm color s).2 ▸ hblank, ?_⟩
  intro d hd hnone
  rcases hs with hs | hs
  · have hL : is_left (dir_norm d) = false :=
      eq_false_of_not (is_left_iff _) (hnone "left" (by simp))
    have hR : is_right (dir_norm d) = false :=
      eq_false_of_not (is_right_iff _) (hnone "right" (by simp))
    have hU : is_uturn (dir_norm d) = false :=
      eq_false_of_not (is_uturn_iff _) (by
        rintro (h | h | h | h)
        · exact hnone "uturn" (by simp) h
        · exact hnone "u_turn" (by simp) h
        · exact hnone "u-turn" (by simp) h
        · exact hnone "turn_around" (by simp) h)
    have hRd : is_round (dir_norm d) = false :=
      eq_false_of_not (is_round_iff _) (by
        rintro (h | h | h)
        · exact hnone "roundabout" (by simp) h
        · exact hnone "rotary" (by simp) h
        · exact hnone "circle" (by simp) h)
    have hD : is_dest (dir_norm d) = false :=
      eq_false_of_not (is_dest_iff _) (by
        rintro (h | h | h)
        · exact hnone "destination" (by simp) h
        · exact hnone "arrived" (by simp) h
        · exact hnone "end" (by simp) h)
    have hS : is_straight (dir_norm d) = false :=
      eq_false_of_not (is_straight_iff _) (by
        rintro (h | h | h)
        · exact hnone "straight" (by simp) h
        · exact hnone "forward" (by simp) h
        · exact hnone "continue" (by simp) h)
    rw [update_arrow_image_route fm d color s hs hd]
    simp only [hL, hR, hU, hRd, hD, hS, Bool.and_false, Bool.false_eq_true, if_false]
    exact reset_arrows_hidden color s
  · have g : update_arrow_image fm (some d) color s = s := by
      obtain ⟨h1, _⟩ := hs
      simp [update_arrow_image, h1]
    rw [g]
    exact hidden_of_no_parts hs

/-- C5, witness: on the created screen, null, "" and "keep_sharp_slight_ahead". -/
theorem unknown_instruction_hidden_witness :
    parts_consistent (created fixedPoint)
      ∧ all_parts_hidden (update_arrow_image fixedPoint none COLOR_ARROW_STRAIGHT
          (created fixedPoint))
      ∧ all_parts_hidden (update_arrow_image fixedPoint (some []) COLOR_ARROW_STRAIGHT
          (created fixedPoint))
      ∧ all_parts_hidden (update_arrow_image fixedPoint
          (some "keep_sharp_slight_ahead".toList) COLOR_ARROW_STRAIGHT (created fixedPoint)) :=
  ⟨by decide,
    (unknown_instruction_hidden fixedPoint COLOR_ARROW_STRAIGHT (created fixedPoint)
      (by decide)).1,
    (unknown_instruction_hidden fixedPoint COLOR_ARROW_STRAIGHT (created fixedPoint)
      (by decide)).2.1,
    (unknown_instruction_hidden fixedPoint COLOR_ARROW_STRAIGHT (created fixedPoint)
      (by decide)).2.2 "keep_sharp_slight_ahead".toList (by decide) (by decide)⟩

/-! ## Theorems on the screen state machine -/

theorem target_screen_none_iff (screen : Int) (s : ScreenState) :
    target_screen screen s = none ↔ ¬ is_context screen := by
  unfold target_screen is_context
  constructor
  · intro h
    split_ifs at h with h1 h2 h3 h4 h5 h6
    tauto
  · intro h
    have h1 : screen ≠ UI_SCREEN_WELCOME := fun e => h (by tauto)
    have h2 : screen ≠ UI_SCREEN_IDLE := fun e => h (by tauto)
    have h3 : screen ≠ UI_SCREEN_NAVIGATION := fun e => h (by tauto)
    have h4 : screen ≠ UI_SCREEN_INCOMING_CALL := fun e => h (by tauto)
    have h5 : screen ≠ UI_SCREEN_OUTGOING_CALL := fun e => h (by tauto)
    have h6 : screen ≠ UI_SCREEN_MISSED_CALL := fun e => h (by tauto)
    simp [h1, h2, h3, h4, h5, h6]

theorem is_context_of_target {screen : Int} {s : ScreenState} {r : Option Nat}
    (h : target_screen screen s = some r) : is_context screen := by
  by_contra hc
  rw [(target_screen_none_iff screen s).mpr hc] at h
  exact Option.noConfusion h

theorem is_context_member {screen : Int} (h : is_context screen) :
    is_enum_member screen ∧ screen ≠ UI_SCREEN_NONE := by
  unfold is_context at h
  unfold is_enum_member
  refine ⟨by tauto, ?_⟩
  rcases h with h | h | h | h | h | h <;> rw [h] <;> decide

/-- C6.  `ui_show_screen(screen, t)` returns the state it was given (so
`current_screen` is unchanged and no `lv_scr_load` or any other surface call is
made) whenever `screen` is not one of the six contexts (this covers
`UI_SCREEN_NONE` and every value outside the enumeration), or the root object
of `screen` is null, or that root fails `lv_obj_is_valid`. -/
theorem show_screen_rejected (screen : Int) (t : Nat) (s : ScreenState)
    (h : ¬ is_context screen ∨ target_screen screen s = some none
      ∨ ∃ obj, target_screen screen s = some (some obj) ∧ lv_obj_is_valid obj s = false) :
    ui_show_screen screen t s = s
      ∧ ui_get_current_screen (ui_show_screen screen t s) = ui_get_current_screen s
      ∧ (ui_show_screen screen t s).active = s.active
      ∧ (ui_show_screen screen t s).calls = s.calls := by
  have e : ui_show_screen screen t s = s := by
    rcases h with h | h | ⟨obj, h, hv⟩
    · simp [ui_show_screen, (target_screen_none_iff screen s).mpr h]
    · simp [ui_show_screen, h]
    · simp [ui_show_screen, h, hv]
  rw [e]
  exact ⟨rfl, rfl, rfl, rfl⟩

/-- C6, witness: `UI_SCREEN_NONE` and the value 42 after boot, Navigation
before any screen object exists, and IncomingCall when its root has been
deleted. -/
theorem show_screen_rejected_witness :
    (¬ is_context UI_SCREEN_NONE ∧ ui_show_screen UI_SCREEN_NONE 300 booted = booted)
    ∧ (¬ is_context 42 ∧ ui_show_screen 42 300 booted = booted)
    ∧ (target_screen UI_SCREEN_NAVIGATION ScreenState.init = some none
        ∧ ui_show_screen UI_SCREEN_NAVIGATION 0 ScreenState.init = ScreenState.init)
    ∧ ((∃ obj, target_screen UI_SCREEN_INCOMING_CALL { booted with live := [1, 2, 3] }
            = some (some obj)
          ∧ lv_obj_is_valid obj { booted with live := [1, 2, 3] } = false)
        ∧ ui_show_screen UI_SCREEN_INCOMING_CALL 300 { booted with live := [1, 2, 3] }
            = { booted with live := [1, 2, 3] }) :=
  ⟨⟨by decide, (show_screen_rejected UI_SCREEN_NONE 300 booted (Or.inl (by decide))).1⟩,
    ⟨by decide, (show_screen_rejected 42 300 booted (Or.inl (by decide))).1⟩,
    ⟨by decide,
      (show_screen_rejected UI_SCREEN_NAVIGATION 0 ScreenState.init
        (Or.inr (Or.inl (by decide)))).1⟩,
    ⟨⟨4, by decide, by decide⟩,
      (show_screen_rejected UI_SCREEN_INCOMING_CALL 300 { booted with live := [1, 2, 3] }
        (Or.inr (Or.inr ⟨4, by decide, by decide⟩))).1⟩⟩

/-- An accepted `ui_show_screen`: what it leaves. -/
theorem show_screen_accept_eq (ctx : Int) (t : Nat) (s : ScreenState) (obj : Nat)
    (hroot : target_screen ctx s = some (some obj)) (hvalid : lv_obj_is_valid obj s = true) :
    ui_show_screen ctx t s =
      { s with
        current_screen := ctx
        active := some obj
        calls := LvCall.timer_handler :: LvCall.timer_handler :: LvCall.scr_load obj
                  :: LvCall.timer_handler :: s.calls } := by
  simp [ui_show_screen, hroot, hvalid, lv_timer_handler, lv_scr_load]

/-- C7.  For every context `ctx` among Welcome, Idle, Navigation, IncomingCall,
OutgoingCall, MissedCall whose root object `obj` exists and passes
`lv_obj_is_valid`, `ui_show_screen(ctx, t)` loads that root with one
`lv_scr_load` (it is the loaded root afterwards) and `ui_get_current_screen()`
then returns `ctx`; and when the IncomingCall and Navigation roots exist and
are valid, the active context is IncomingCall after the first of
request(IncomingCall), request(Navigation) and Navigation, with the Navigation
root loaded, after the second: one context, never `UI_SCREEN_NONE`. -/
theorem show_screen_accepted (ctx : Int) (t : Nat) (s : ScreenState) (obj : Nat)
    (hctx : is_context ctx) (hroot : target_screen ctx s = some (some obj))
    (hvalid : lv_obj_is_valid obj s = true) :
    (ui_show_screen ctx t s).active = some obj
      ∧ ui_get_current_screen (ui_show_screen ctx t s) = ctx
      ∧ ui_get_current_screen (ui_show_screen ctx t s) ≠ UI_SCREEN_NONE
      ∧ (ui_show_screen ctx t s).calls
          = LvCall.timer_handler :: LvCall.timer_handler :: LvCall.scr_load obj
              :: LvCall.timer_handler :: s.calls
      ∧ ∀ (t1 t2 : Nat) (a b : Nat),
          s.screen_incoming_call = some a → lv_obj_is_valid a s = true →
          s.screen_navigation = some b → lv_obj_is_valid b s = true →
          ui_get_current_screen (ui_show_screen UI_SCREEN_INCOMING_CALL t1 s)
              = UI_SCREEN_INCOMING_CALL
            ∧ ui_get_current_screen
                (ui_show_screen UI_SCREEN_NAVIGATION t2
                  (ui_show_screen UI_SCREEN_INCOMING_CALL t1 s)) = UI_SCREEN_NAVIGATION
            ∧ (ui_show_screen UI_SCREEN_NAVIGATION t2
                  (ui_show_screen UI_SCREEN_INCOMING_CALL t1 s)).active = some b := by
  rw [show_screen_accept_eq ctx t s obj hroot hvalid]
  refine ⟨rfl, rfl, (is_context_member hctx).2, rfl, ?_⟩
  intro t1 t2 a b ha hva hb hvb
  have r1 : target_screen UI_SCREEN_INCOMING_CALL s = some (some a) := by
    simp [target_screen, ha, UI_SCREEN_INCOMING_CALL, UI_SCREEN_WELCOME, UI_SCREEN_IDLE,
      UI_SCREEN_NAVIGATION]
  rw [show_screen_accept_eq _ t1 s a r1 hva]
  have r2 : target_screen UI_SCREEN_NAVIGATION
      { s with
        current_screen := UI_SCREEN_INCOMING_CALL
        active := some a
        calls := LvCall.timer_handler :: LvCall.timer_handler :: LvCall.scr_load a
                  :: LvCall.timer_handler :: s.calls } = some (some b) := by
    simp [target_screen, hb, UI_SCREEN_WELCOME, UI_SCREEN_IDLE, UI_SCREEN_NAVIGATION]
  rw [show_screen_accept_eq _ t2 _ b r2 (by simpa [lv_obj_is_valid] using hvb)]
  exact ⟨rfl, rfl, rfl⟩

/-- C7, witness: request(IncomingCall) after boot; its root is object 4, the
Navigation root is object 3. -/
theorem show_screen_accepted_witness :
    is_context UI_SCREEN_INCOMING_CALL
      ∧ target_screen UI_SCREEN_INCOMING_CALL booted = some (some 4)
      ∧ lv_obj_is_valid 4 booted = true
      ∧ (ui_show_screen UI_SCREEN_INCOMING_CALL 300 booted).active = some 4
      ∧ ui_get_current_screen (ui_show_screen UI_SCREEN_INCOMING_CALL 300 booted)
          = UI_SCREEN_INCOMING_CALL
      ∧ ui_get_current_screen
          (ui_show_screen UI_SCREEN_NAVIGATION 300
            (ui_show_screen UI_SCREEN_INCOMING_CALL 300 booted)) = UI_SCREEN_NAVIGATION
      ∧ (ui_show_screen UI_SCREEN_NAVIGATION 300
            (ui_show_screen UI_SCREEN_INCOMING_CALL 300 booted)).active = some 3 :=
  ⟨by decide, by decide, by decide,
    (show_screen_accepted UI_SCREEN_INCOMING_CALL 300 booted 4 (by decide) (by decide)
      (by decide)).1,
    (show_screen_accepted UI_SCREEN_INCOMING_CALL 300 booted 4 (by decide) (by decide)
      (by decide)).2.1,
    ((show_screen_accepted UI_SCREEN_INCOMING_CALL 300 booted 4 (by decide) (by decide)
      (by decide)).2.2.2.2 300 300 4 3 (by decide) (by decide) (by decide) (by decide)).2⟩

/-- After one context switching call, `current_screen` is what it was or one
of the six contexts. -/
theorem op_current_screen (op : ScreenOp) (s : ScreenState) :
    (op.run s).current_screen = s.current_screen ∨ is_context (op.run s).current_screen := by
  have show_case : ∀ screen t, (ui_show_screen screen t s).current_screen = s.current_screen
      ∨ is_context (ui_show_screen screen t s).current_screen := by
    intro screen t
    unfold ui_show_screen
    cases h : target_screen screen s with
    | none => exact Or.inl rfl
    | some r =>
      cases r with
      | none => exact Or.inl rfl
      | some obj =>
        by_cases hv : lv_obj_is_valid obj s = true
        · right
          simpa [hv, lv_timer_handler, lv_scr_load] using is_context_of_target h
        · left
          simp [hv]
  cases op with
  | show_screen screen t => exact show_case screen t
  | transition_fade f to_screen time => exact show_case to_screen time
  | show_navigation =>
    right
    show is_context (ui_show_navigation s).current_screen
    have : (ui_show_navigation s).current_screen = UI_SCREEN_NAVIGATION := rfl
    rw [this]
    decide

/-- C8.  From a state whose `current_screen` is one of the seven enum members
(the initial state, with `UI_SCREEN_NONE`, is one), after any sequence of calls
of `ui_show_screen`, `ui_transition_fade` and `ui_show_navigation` with any
arguments, `current_screen` is still one of the seven members; if it was not
`UI_SCREEN_NONE` before the sequence it is not `UI_SCREEN_NONE` after it; and
`ui_screens_cleanup` resets it to `UI_SCREEN_NONE`. -/
theorem current_screen_invariant (ops : List ScreenOp) (s : ScreenState)
    (hmem : is_enum_member s.current_screen) :
    is_enum_member (run_ops ops s).current_screen
      ∧ (s.current_screen ≠ UI_SCREEN_NONE → (run_ops ops s).current_screen ≠ UI_SCREEN_NONE)
      ∧ (ui_screens_cleanup (run_ops ops s)).current_screen = UI_SCREEN_NONE
      ∧ is_enum_member ScreenState.init.current_screen := by
  refine ⟨?_, ?_, rfl, by decide⟩
  · induction ops generalizing s with
    | nil => exact hmem
    | cons op ops ih =>
      apply ih
      rcases op_current_screen op s with h | h
      · rw [h]; exact hmem
      · exact (is_context_member h).1
  · clear hmem
    induction ops generalizing s with
    | nil => exact id
    | cons op ops ih =>
      intro hne
      apply ih
      rcases op_current_screen op s with h | h
      · rw [h]; exact hne
      · exact (is_context_member h).2

/-- C8, witness: from the initial state, Navigation entry followed by three
rejected requests (`UI_SCREEN_NONE`, the value 99, Welcome without a root);
and the same three requests from the state after Navigation entry, whose
`current_screen` is not `UI_SCREEN_NONE`. -/
theorem current_screen_invariant_witness :
    (is_enum_member ScreenState.init.current_screen
      ∧ (run_ops [ScreenOp.show_navigation, ScreenOp.show_screen UI_SCREEN_NONE 0,
            ScreenOp.show_screen 99 5, ScreenOp.transition_fade 3 UI_SCREEN_WELCOME 100]
          ScreenState.init).current_screen = UI_SCREEN_NAVIGATION
      ∧ is_enum_member (run_ops [ScreenOp.show_navigation,
            ScreenOp.show_screen UI_SCREEN_NONE 0, ScreenOp.show_screen 99 5,
            ScreenOp.transition_fade 3 UI_SCREEN_WELCOME 100]
          ScreenState.init).current_screen)
    ∧ (is_enum_member (ui_show_navigation ScreenState.init).current_screen
      ∧ (ui_show_navigation ScreenState.init).current_screen ≠ UI_SCREEN_NONE
      ∧ (run_ops [ScreenOp.show_screen UI_SCREEN_NONE 0, ScreenOp.show_screen 99 5,
            ScreenOp.transition_fade 3 UI_SCREEN_WELCOME 100]
          (ui_show_navigation ScreenState.init)).current_screen ≠ UI_SCREEN_NONE) :=
  ⟨⟨by decide, by decide,
      (current_screen_invariant [ScreenOp.show_navigation,
        ScreenOp.show_screen UI_SCREEN_NONE 0, ScreenOp.show_screen 99 5,
        ScreenOp.transition_fade 3 UI_SCREEN_WELCOME 100] ScreenState.init (by decide)).1⟩,
    ⟨by decide, by decide,
      (current_screen_invariant [ScreenOp.show_screen UI_SCREEN_NONE 0,
        ScreenOp.show_screen 99 5, ScreenOp.transition_fade 3 UI_SCREEN_WELCOME 100]
        (ui_show_navigation ScreenState.init) (by decide)).2.1 (by decide)⟩⟩

/-! ## Idempotence of the classifier and of `update_direction` -/

theorem store_store (a b : List lv_point_t) : store a (store a b) = store a b := by
  simp [store]

theorem update_arrow_image_no_lines (fm : FloatOps) (dir : Option (List Char)) (color : Nat)
    (s : NavState) (h : ¬ lines_exist s) : update_arrow_image fm dir color s = s := by
  have g : (s.line_shaft.isNone || s.line_head1.isNone || s.line_head2.isNone
      || s.line_poly.isNone) = true := by
    cases h1 : s.line_shaft <;> cases h2 : s.line_head1 <;> cases h3 : s.line_head2 <;>
      cases h4 : s.line_poly <;> simp_all [lines_exist]
  simp only [update_arrow_image, g, if_true]

theorem update_arrow_image_lines_blank (fm : FloatOps) (color : Nat) (s : NavState)
    (hs : lines_exist s) :
    update_arrow_image fm none color s = reset_arrows color s := by
  obtain ⟨a, b, c, e, h1, h2, h3, h4⟩ := lines_exist_some hs
  rw [(update_arrow_image_blank fm color s).1]
  simp [h1, h2, h3, h4]

/-- The route taken by `update_arrow_image` depends on the instruction only:
for a non-empty instruction, one and the same route serves every state in
which the four line objects exist. -/
theorem update_arrow_image_uniform (fm : FloatOps) (d : List Char) (color : Nat)
    (hd : d ≠ []) :
    ∃ G : NavState → NavState,
      (∀ t, lines_exist t → update_arrow_image fm (some d) color t = G t)
      ∧ (G = uturn_glyph fm d color ∨ (∃ r, G = keep_glyph r d color)
        ∨ (∃ r, G = sharp_glyph fm r d color) ∨ (∃ r, G = slight_glyph fm r d color)
        ∨ (∃ e, G = roundabout_glyph fm e d color) ∨ (∃ r, G = turn_glyph r d color)
        ∨ G = (fun t => show_flag (reset_arrows color t))
        ∨ (∃ c, G = fun t =>
            ARROW_COLOR c (show_shaft_head (set_arrow_points_straight (reset_arrows color t))))
        ∨ G = reset_arrows color) := by
  by_cases c1 : is_uturn (dir_norm d) = true
  · exact ⟨_, fun t ht => by rw [update_arrow_image_route fm d color t ht hd, if_pos c1],
      Or.inl rfl⟩
  by_cases c2 : (is_keep (dir_norm d) && is_right (dir_norm d)) = true
  · exact ⟨_, fun t ht => by
      rw [update_arrow_image_route fm d color t ht hd, if_neg c1, if_pos c2],
      Or.inr (Or.inl ⟨_, rfl⟩)⟩
  by_cases c3 : (is_keep (dir_norm d) && is_left (dir_norm d)) = true
  · exact ⟨_, fun t ht => by
      rw [update_arrow_image_route fm d color t ht hd, if_neg c1, if_neg c2, if_pos c3],
      Or.inr (Or.inl ⟨_, rfl⟩)⟩
  by_cases c4 : (is_sharp (dir_norm d) && is_right (dir_norm d)) = true
  · exact ⟨_, fun t ht => by
      rw [update_arrow_image_route fm d color t ht hd, if_neg c1, if_neg c2, if_neg c3,
        if_pos c4],
      Or.inr (Or.inr (Or.inl ⟨_, rfl⟩))⟩
  by_cases c5 : (is_sharp (dir_norm d) && is_left (dir_norm d)) = true
  · exact ⟨_, fun t ht => by
      rw [update_arrow_image_route fm d color t ht hd, if_neg c1, if_neg c2, if_neg c3,
        if_neg c4, if_pos c5],
      Or.inr (Or.inr (Or.inl ⟨_, rfl⟩))⟩
  by_cases c6 : ((is_slight (dir_norm d) || is_keep (dir_norm d)) && is_right (dir_norm d))
      = true
  · exact ⟨_, fun t ht => by
      rw [update_arrow_image_route fm d color t ht hd, if_neg c1, if_neg c2, if_neg c3,
        if_neg c4, if_neg c5, if_pos c6],
      Or.inr (Or.inr (Or.inr (Or.inl ⟨_, rfl⟩)))⟩
  by_cases c7 : ((is_slight (dir_norm d) || is_keep (dir_norm d)) && is_left (dir_norm d))
      = true
  · exact ⟨_, fun t ht => by
      rw [update_arrow_image_route fm d color t ht hd, if_neg c1, if_neg c2, if_neg c3,
        if_neg c4, if_neg c5, if_neg c6, if_pos c7],
      Or.inr (Or.inr (Or.inr (Or.inl ⟨_, rfl⟩)))⟩
  by_cases c8 : is_round (dir_norm d) = true
  · exact ⟨_, fun t ht => by
      rw [update_arrow_image_route fm d color t ht hd, if_neg c1, if_neg c2, if_neg c3,
        if_neg c4, if_neg c5, if_neg c6, if_neg c7, if_pos c8],
      Or.inr (Or.inr (Or.inr (Or.inr (Or.inl ⟨_, rfl⟩))))⟩
  by_cases c9 : is_right (dir_norm d) = true
  · exact ⟨_, fun t ht => by
      rw [update_arrow_image_route fm d color t ht hd, if_neg c1, if_neg c2, if_neg c3,
        if_neg c4, if_neg c5, if_neg c6, if_neg c7, if_neg c8, if_pos c9],
      Or.inr (Or.inr (Or.inr (Or.inr (Or.inr (Or.inl ⟨_, rfl⟩)))))⟩
  by_cases c10 : is_left (dir_norm d) = true
  · exact ⟨_, fun t ht => by
      rw [update_arrow_image_route fm d color t ht hd, if_neg c1, if_neg c2, if_neg c3,
        if_neg c4, if_neg c5, if_neg c6, if_neg c7, if_neg c8, if_neg c9, if_pos c10],
      Or.inr (Or.inr (Or.inr (Or.inr (Or.inr (Or.inl ⟨_, rfl⟩)))))⟩
  by_cases c11 : is_dest (dir_norm d) = true
  · exact ⟨_, fun t ht => by
      rw [update_arrow_image_route fm d color t ht hd, if_neg c1, if_neg c2, if_neg c3,
        if_neg c4, if_neg c5, if_neg c6, if_neg c7, if_neg c8, if_neg c9, if_neg c10,
        if_pos c11],
      Or.inr (Or.inr (Or.inr (Or.inr (Or.inr (Or.inr (Or.inl rfl))))))⟩
  by_cases c12 : is_straight (dir_norm d) = true
  · exact ⟨_, fun t ht => by
      rw [update_arrow_image_route fm d color t ht hd, if_neg c1, if_neg c2, if_neg c3,
        if_neg c4, if_neg c5, if_neg c6, if_neg c7, if_neg c8, if_neg c9, if_neg c10,
        if_neg c11, if_pos c12],
      Or.inr (Or.inr (Or.inr (Or.inr (Or.inr (Or.inr (Or.inr (Or.inl ⟨_, rfl⟩)))))))⟩
  · exact ⟨_, fun t ht => by
      rw [update_arrow_image_route fm d color t ht hd, if_neg c1, if_neg c2, if_neg c3,
        if_neg c4, if_neg c5, if_neg c6, if_neg c7, if_neg c8, if_neg c9, if_neg c10,
        if_neg c11, if_neg c12],
      Or.inr (Or.inr (Or.inr (Or.inr (Or.inr (Or.inr (Or.inr (Or.inr rfl)))))))⟩

@[simp] theorem lines_exist_reset_arrows (color : Nat) (s : NavState) :
    lines_exist (reset_arrows color s) ↔ lines_exist s := by
  simp [lines_exist, reset_arrows, hide_all_arrows, add_hidden, set_line_color]

@[simp] theorem current_direction_reset_arrows (color : Nat) (s : NavState) :
    (reset_arrows color s).current_direction = s.current_direction := by
  simp [reset_arrows, hide_all_arrows, add_hidden, set_line_color]

@[simp] theorem lines_exist_ARROW_COLOR (c : Nat) (s : NavState) :
    lines_exist (ARROW_COLOR c s) ↔ lines_exist s := by
  simp [lines_exist, ARROW_COLOR, set_line_color]

@[simp] theorem current_direction_ARROW_COLOR (c : Nat) (s : NavState) :
    (ARROW_COLOR c s).current_direction = s.current_direction := by
  simp [ARROW_COLOR, set_line_color]

@[simp] theorem lines_exist_show_shaft_head (s : NavState) :
    lines_exist (show_shaft_head s) ↔ lines_exist s := by
  simp [lines_exist, show_shaft_head, add_hidden, clear_hidden]

@[simp] theorem current_direction_show_shaft_head (s : NavState) :
    (show_shaft_head s).current_direction = s.current_direction := by
  simp [show_shaft_head, add_hidden, clear_hidden]

@[simp] theorem lines_exist_show_poly_with_heads (s : NavState) :
    lines_exist (show_poly_with_heads s) ↔ lines_exist s := by
  simp [lines_exist, show_poly_with_heads, clear_hidden]

@[simp] theorem current_direction_show_poly_with_heads (s : NavState) :
    (show_poly_with_heads s).current_direction = s.current_direction := by
  simp [show_poly_with_heads, clear_hidden]

@[simp] theorem lines_exist_set_arrow_points_left_right (r : Bool) (s : NavState) :
    lines_exist (set_arrow_points_left_right r s) ↔ lines_exist s := by
  simp [lines_exist, set_arrow_points_left_right, set_points]

@[simp] theorem current_direction_set_arrow_points_left_right (r : Bool) (s : NavState) :
    (set_arrow_points_left_right r s).current_direction = s.current_direction := by
  simp [set_arrow_points_left_right, set_points]

@[simp] theorem lines_exist_set_arrow_points_straight (s : NavState) :
    lines_exist (set_arrow_points_straight s) ↔ lines_exist s := by
  simp [lines_exist, set_arrow_points_straight, set_points]

@[simp] theorem current_direction_set_arrow_points_straight (s : NavState) :
    (set_arrow_points_straight s).current_direction = s.current_direction := by
  simp [set_arrow_points_straight, set_points]

@[simp] theorem lines_exist_set_arrow_points_keep (r : Bool) (s : NavState) :
    lines_exist (set_arrow_points_keep r s) ↔ lines_exist s := by
  simp [lines_exist, set_arrow_points_keep, set_points]

@[simp] theorem current_direction_set_arrow_points_keep (r : Bool) (s : NavState) :
    (set_arrow_points_keep r s).current_direction = s.current_direction := by
  simp [set_arrow_points_keep, set_points]

@[simp] theorem lines_exist_set_arrow_points_uturn (fm : FloatOps) (l : Bool) (s : NavState) :
    lines_exist (set_arrow_points_uturn fm l s) ↔ lines_exist s := by
  simp [lines_exist, set_arrow_points_uturn, set_points]

@[simp] theorem current_direction_set_arrow_points_uturn (fm : FloatOps) (l : Bool) (s : NavState) :
    (set_arrow_points_uturn fm l s).current_direction = s.current_direction := by
  simp [set_arrow_points_uturn, set_points]

@[simp] theorem lines_exist_set_arrow_points_slight (fm : FloatOps) (r : Bool) (s : NavState) :
    lines_exist (set_arrow_points_slight fm r s) ↔ lines_exist s := by
  simp [lines_exist, set_arrow_points_slight, set_points]

@[simp] theorem current_direction_set_arrow_points_slight (fm : FloatOps) (r : Bool) (s : NavState) :
    (set_arrow_points_slight fm r s).current_direction = s.current_direction := by
  simp [set_arrow_points_slight, set_points]

@[simp] theorem lines_exist_set_arrow_points_sharp (fm : FloatOps) (r : Bool) (s : NavState) :
    lines_exist (set_arrow_points_sharp fm r s) ↔ lines_exist s := by
  simp [lines_exist, set_arrow_points_sharp, set_points]

@[simp] theorem current_direction_set_arrow_points_sharp (fm : FloatOps) (r : Bool) (s : NavState) :
    (set_arrow_points_sharp fm r s).current_direction = s.current_direction := by
  simp [set_arrow_points_sharp, set_points]

@[simp] theorem lines_exist_set_arrow_points_roundabout (fm : FloatOps) (e : Int) (s : NavState) :
    lines_exist (set_arrow_points_roundabout fm e s) ↔ lines_exist s := by
  simp [lines_exist, set_arrow_points_roundabout, set_points]

@[simp] theorem current_direction_set_arrow_points_roundabout (fm : FloatOps) (e : Int) (s : NavState) :
    (set_arrow_points_roundabout fm e s).current_direction = s.current_direction := by
  simp [set_arrow_points_roundabout, set_points]

@[simp] theorem lines_exist_ui_navigation_hide_all_objects (s : NavState) :
    lines_exist (ui_navigation_hide_all_objects s) ↔ lines_exist s := by
  simp [lines_exist, ui_navigation_hide_all_objects, add_hidden]

@[simp] theorem current_direction_ui_navigation_hide_all_objects (s : NavState) :
    (ui_navigation_hide_all_objects s).current_direction = s.current_direction := by
  simp [ui_navigation_hide_all_objects, add_hidden]

@[simp] theorem lines_exist_show_flag (s : NavState) :
    lines_exist (show_flag s) ↔ lines_exist s := by
  unfold show_flag
  cases h1 : s.flag_pole <;> cases h2 : s.flag_triangle <;>
    simp [lines_exist, set_flag_symbol, h1, h2]

@[simp] theorem current_direction_show_flag (s : NavState) :
    (show_flag s).current_direction = s.current_direction := by
  unfold show_flag
  cases h1 : s.flag_pole <;> cases h2 : s.flag_triangle <;>
    simp [set_flag_symbol, h1, h2]

theorem reset_arrows_idem (color : Nat) (s : NavState) :
    reset_arrows color (reset_arrows color s) = reset_arrows color s := by
  simp [reset_arrows, hide_all_arrows, add_hidden, set_line_color, Function.comp_def]

theorem turn_glyph_idem (r : Bool) (d : List Char) (color : Nat) (s : NavState) :
    turn_glyph r d color (turn_glyph r d color s) = turn_glyph r d color s := by
  simp [turn_glyph, ARROW_COLOR, show_shaft_head, set_arrow_points_left_right, reset_arrows,
    hide_all_arrows, add_hidden, clear_hidden, set_line_color, set_points, Function.comp_def]

theorem keep_glyph_idem (r : Bool) (d : List Char) (color : Nat) (s : NavState) :
    keep_glyph r d color (keep_glyph r d color s) = keep_glyph r d color s := by
  simp [keep_glyph, ARROW_COLOR, show_poly_with_heads, set_arrow_points_keep, reset_arrows,
    hide_all_arrows, add_hidden, clear_hidden, set_line_color, set_points, store_store,
    Function.comp_def]

theorem uturn_glyph_idem (fm : FloatOps) (d : List Char) (color : Nat) (s : NavState) :
    uturn_glyph fm d color (uturn_glyph fm d color s) = uturn_glyph fm d color s := by
  simp [uturn_glyph, ARROW_COLOR, show_poly_with_heads, set_arrow_points_uturn, reset_arrows,
    hide_all_arrows, add_hidden, clear_hidden, set_line_color, set_points, store_store,
    Function.comp_def]

theorem sharp_glyph_idem (fm : FloatOps) (r : Bool) (d : List Char) (color : Nat)
    (s : NavState) :
    sharp_glyph fm r d color (sharp_glyph fm r d color s) = sharp_glyph fm r d color s := by
  simp [sharp_glyph, ARROW_COLOR, show_poly_with_heads, set_arrow_points_sharp, reset_arrows,
    hide_all_arrows, add_hidden, clear_hidden, set_line_color, set_points, store_store,
    Function.comp_def]

theorem slight_glyph_idem (fm : FloatOps) (r : Bool) (d : List Char) (color : Nat)
    (s : NavState) :
    slight_glyph fm r d color (slight_glyph fm r d color s) = slight_glyph fm r d color s := by
  simp [slight_glyph, ARROW_COLOR, show_poly_with_heads, set_arrow_points_slight, reset_arrows,
    hide_all_arrows, add_hidden, clear_hidden, set_line_color, set_points, store_store,
    Function.comp_def]

theorem roundabout_glyph_idem (fm : FloatOps) (e : Int) (d : List Char) (color : Nat)
    (s : NavState) :
    roundabout_glyph fm e d color (roundabout_glyph fm e d color s)
      = roundabout_glyph fm e d color s := by
  simp [roundabout_glyph, ARROW_COLOR, show_poly_with_heads, set_arrow_points_roundabout,
    reset_arrows, hide_all_arrows, add_hidden, clear_hidden, set_line_color, set_points,
    store_store, Function.comp_def]

theorem straight_idem (c color : Nat) (s : NavState) :
    ARROW_COLOR c (show_shaft_head (set_arrow_points_straight (reset_arrows color
        (ARROW_COLOR c (show_shaft_head (set_arrow_points_straight (reset_arrows color s)))))))
      = ARROW_COLOR c (show_shaft_head (set_arrow_points_straight (reset_arrows color s))) := by
  simp [ARROW_COLOR, show_shaft_head, set_arrow_points_straight, reset_arrows,
    hide_all_arrows, add_hidden, clear_hidden, set_line_color, set_points, Function.comp_def]

theorem show_flag_idem (color : Nat) (s : NavState) :
    show_flag (reset_arrows color (show_flag (reset_arrows color s)))
      = show_flag (reset_arrows color s) := by
  cases h1 : s.flag_pole <;> cases h2 : s.flag_triangle <;>
    simp [show_flag, set_flag_symbol, new_flag_line, reset_arrows, hide_all_arrows, add_hidden,
      clear_hidden, set_line_color, set_points, Function.comp_def, h1, h2]

theorem update_arrow_image_idem (fm : FloatOps) (dir : Option (List Char)) (color : Nat)
    (s : NavState) :
    update_arrow_image fm dir color (update_arrow_image fm dir color s)
      = update_arrow_image fm dir color s := by
  by_cases hs : lines_exist s
  · have blank : update_arrow_image fm none color (update_arrow_image fm none color s)
        = update_arrow_image fm none color s := by
      rw [update_arrow_image_lines_blank fm color s hs,
        update_arrow_image_lines_blank fm color _ (by simpa using hs), reset_arrows_idem]
    cases dir with
    | none => exact blank
    | some d =>
      cases d with
      | nil =>
        rw [(update_arrow_image_blank fm color s).2, (update_arrow_image_blank fm color _).2]
        exact blank
      | cons c cs =>
        obtain ⟨G, hG, hcase⟩ := update_arrow_image_uniform fm (c :: cs) color (by simp)
        rw [hG s hs]
        rcases hcase with h | ⟨r, h⟩ | ⟨r, h⟩ | ⟨r, h⟩ | ⟨e, h⟩ | ⟨r, h⟩ | h | ⟨k, h⟩ | h
        · subst h
          rw [hG _ (by simpa [uturn_glyph] using hs), uturn_glyph_idem]
        · subst h
          rw [hG _ (by simpa [keep_glyph] using hs), keep_glyph_idem]
        · subst h
          rw [hG _ (by simpa [sharp_glyph] using hs), sharp_glyph_idem]
        · subst h
          rw [hG _ (by simpa [slight_glyph] using hs), slight_glyph_idem]
        · subst h
          rw [hG _ (by simpa [roundabout_glyph] using hs), roundabout_glyph_idem]
        · subst h
          rw [hG _ (by simpa [turn_glyph] using hs), turn_glyph_idem]
        · subst h
          rw [hG _ (by simpa using hs)]
          exact show_flag_idem color s
        · subst h
          rw [hG _ (by simpa using hs)]
          exact straight_idem k color s
        · subst h
          rw [hG _ (by simpa using hs), reset_arrows_idem]
  · rw [update_arrow_image_no_lines fm dir color s hs,
      update_arrow_image_no_lines fm dir color s hs]

theorem update_arrow_image_current_direction (fm : FloatOps) (dir : Option (List Char))
    (color : Nat) (s : NavState) :
    (update_arrow_image fm dir color s).current_direction = s.current_direction := by
  by_cases hs : lines_exist s
  · have blank : (update_arrow_image fm none color s).current_direction
        = s.current_direction := by
      rw [update_arrow_image_lines_blank fm color s hs]; simp
    cases dir with
    | none => exact blank
    | some d =>
      cases d with
      | nil => rw [(update_arrow_image_blank fm color s).2]; exact blank
      | cons c cs =>
        obtain ⟨G, hG, hcase⟩ := update_arrow_image_uniform fm (c :: cs) color (by simp)
        rw [hG s hs]
        rcases hcase with h | ⟨r, h⟩ | ⟨r, h⟩ | ⟨r, h⟩ | ⟨e, h⟩ | ⟨r, h⟩ | h | ⟨k, h⟩ | h <;>
          subst h <;>
          simp [uturn_glyph, keep_glyph, sharp_glyph, slight_glyph, roundabout_glyph,
            turn_glyph]
  · rw [update_arrow_image_no_lines fm dir color s hs]

/-- C9.  For every state and every non-empty instruction `d`, of any length,
calling `ui_navigation_screen_update_direction(d)` a second time leaves the
state (cached instruction, point arrays, hidden flags and line colours of all
glyph parts, and everything else) exactly as the first call left it. -/
theorem update_direction_idempotent (fm : FloatOps) (d : List Char) (a1 a2 : Bool)
    (s : NavState) (hd : d ≠ []) :
    ui_navigation_screen_update_direction fm (some d) a2
        (ui_navigation_screen_update_direction fm (some d) a1 s)
      = ui_navigation_screen_update_direction fm (some d) a1 s := by
  by_cases h : s.current_direction = d
  · have e : ui_navigation_screen_update_direction fm (some d) a1 s = s := by
      simp [ui_navigation_screen_update_direction, h]
    rw [e]
    simp [ui_navigation_screen_update_direction, h]
  · have e : ui_navigation_screen_update_direction fm (some d) a1 s
        = update_arrow_image fm (some d) COLOR_ARROW_STRAIGHT
            { s with current_direction := d.take 31 } := by
      simp [ui_navigation_screen_update_direction, h, hd]
    rw [e]
    generalize hs1 : update_arrow_image fm (some d) COLOR_ARROW_STRAIGHT
      { s with current_direction := d.take 31 } = s1
    have hc : s1.current_direction = d.take 31 := by
      rw [← hs1, update_arrow_image_current_direction]
    have eta : { s1 with current_direction := d.take 31 } = s1 := by
      rw [← hc]
    unfold ui_navigation_screen_update_direction
    simp only [hd, if_false]
    split
    · rfl
    · rw [eta, ← hs1, update_arrow_image_idem]

/-- C9, witness: "turn_left", and a 40 character instruction (longer than the
31 character cache), each sent twice to the created screen. -/
theorem update_direction_idempotent_witness :
    ("turn_left".toList ≠ []
      ∧ ui_navigation_screen_update_direction fixedPoint (some "turn_left".toList) true
          (ui_navigation_screen_update_direction fixedPoint (some "turn_left".toList) true
            (created fixedPoint))
        = ui_navigation_screen_update_direction fixedPoint (some "turn_left".toList) true
            (created fixedPoint))
    ∧ ("in_four_hundred_metres_turn_slight_right".toList ≠ []
      ∧ ui_navigation_screen_update_direction fixedPoint
          (some "in_four_hundred_metres_turn_slight_right".toList) true
          (ui_navigation_screen_update_direction fixedPoint
            (some "in_four_hundred_metres_turn_slight_right".toList) true (created fixedPoint))
        = ui_navigation_screen_update_direction fixedPoint
            (some "in_four_hundred_metres_turn_slight_right".toList) true
            (created fixedPoint)) :=
  ⟨⟨by decide,
      update_direction_idempotent fixedPoint "turn_left".toList true true (created fixedPoint)
        (by decide)⟩,
    ⟨by decide,
      update_direction_idempotent fixedPoint "in_four_hundred_metres_turn_slight_right".toList
        true true (created fixedPoint) (by decide)⟩⟩

/-- C10 (the code departs from it).  Directly after
`ui_navigation_screen_create`, with every object created, the straight arrow
drawn by the final `update_arrow_image("straight", ...)` of `create` is on
screen; `ui_navigation_screen_update_direction("")` then returns at the
comparison with the (empty) cached instruction and changes nothing: the shaft
and both heads stay shown, so not every glyph part is hidden.  The cached
instruction is empty. -/
theorem blank_direction_after_create (fm : FloatOps) (animated : Bool) :
    ui_navigation_screen_update_direction fm (some []) animated (created fm) = created fm
      ∧ part_shown (created fm).line_shaft = true
      ∧ part_shown (created fm).line_head1 = true
      ∧ part_shown (created fm).line_head2 = true
      ∧ ¬ all_parts_hidden
          (ui_navigation_screen_update_direction fm (some []) animated (created fm))
      ∧ (ui_navigation_screen_update_direction fm (some []) animated
          (created fm)).current_direction = [] := by
  have e : ui_navigation_screen_update_direction fm (some []) animated (created fm)
      = created fm := rfl
  rw [e]
  refine ⟨rfl, rfl, rfl, rfl, ?_, rfl⟩
  intro h
  have hshaft : part_hidden (created fm).line_shaft = false := rfl
  exact Bool.noConfusion (hshaft.symm.trans h.1)

/-! ## The states the controller can be in

`parts_consistent` holds at program start and is kept by every operation of
the controller that touches the glyph parts. -/

theorem update_arrow_image_lines_exist (fm : FloatOps) (dir : Option (List Char))
    (color : Nat) (s : NavState) :
    lines_exist (update_arrow_image fm dir color s) ↔ lines_exist s := by
  by_cases hs : lines_exist s
  · have blank : lines_exist (update_arrow_image fm none color s) ↔ lines_exist s := by
      rw [update_arrow_image_lines_blank fm color s hs]; simp
    cases dir with
    | none => exact blank
    | some d =>
      cases d with
      | nil => rw [(update_arrow_image_blank fm color s).2]; exact blank
      | cons c cs =>
        obtain ⟨G, hG, hcase⟩ := update_arrow_image_uniform fm (c :: cs) color (by simp)
        rw [hG s hs]
        rcases hcase with h | ⟨r, h⟩ | ⟨r, h⟩ | ⟨r, h⟩ | ⟨e, h⟩ | ⟨r, h⟩ | h | ⟨k, h⟩ | h <;>
          subst h <;>
          simp [uturn_glyph, keep_glyph, sharp_glyph, slight_glyph, roundabout_glyph,
            turn_glyph]
  · rw [update_arrow_image_no_lines fm dir color s hs]

theorem parts_consistent_init : parts_consistent NavState.init := by decide

theorem parts_consistent_update_arrow_image (fm : FloatOps) (dir : Option (List Char))
    (color : Nat) (s : NavState) (h : parts_consistent s) :
    parts_consistent (update_arrow_image fm dir color s) := by
  rcases h with h | h
  · exact Or.inl ((update_arrow_image_lines_exist fm dir color s).mpr h)
  · have hn : ¬ lines_exist s := by
      intro hl
      have h1 := hl.1
      rw [h.1] at h1
      exact Bool.noConfusion h1
    rw [update_arrow_image_no_lines fm dir color s hn]
    exact Or.inr h

theorem parts_consistent_hide_all (s : NavState) (h : parts_consistent s) :
    parts_consistent (ui_navigation_hide_all_objects s) := by
  rcases h with h | ⟨h1, h2, h3, h4, h5, h6⟩
  · exact Or.inl ((lines_exist_ui_navigation_hide_all_objects s).mpr h)
  · right
    simp [ui_navigation_hide_all_objects, add_hidden, h1, h2, h3, h4, h5, h6]

theorem parts_consistent_update_direction (fm : FloatOps) (dir : Option (List Char))
    (animated : Bool) (s : NavState) (h : parts_consistent s) :
    parts_consistent (ui_navigation_screen_update_direction fm dir animated s) := by
  unfold ui_navigation_screen_update_direction
  cases dir with
  | none => exact h
  | some d =>
    simp only []
    split
    · exact h
    · split
      · exact parts_consistent_hide_all s h
      · exact parts_consistent_update_arrow_image fm _ _ _ h

theorem parts_consistent_clear (s : NavState) (h : parts_consistent s) :
    parts_consistent (ui_navigation_screen_clear s) := by
  unfold ui_navigation_screen_clear
  exact parts_consistent_hide_all _ h

theorem parts_consistent_create (fm : FloatOps) (parent : Option Nat) (g1 g2 g3 : Bool)
    (s : NavState) (h : parts_consistent s) :
    parts_consistent (ui_navigation_screen_create fm parent g1 g2 g3 s) := by
  cases parent with
  | none => exact h
  | some p =>
    left
    unfold ui_navigation_screen_create
    simp only []
    split
    · simp [lines_exist, ui_navigation_hide_all_objects, add_hidden]
    · rw [update_arrow_image_lines_exist]
      simp [lines_exist, ui_navigation_hide_all_objects, add_hidden]

/-! ## Routes and what they show -/

/-- With the four line objects present, `update_arrow_image` does the body of
the route that the chain `route` selects. -/
theorem update_arrow_image_eq_draw (fm : FloatOps) (dir : Option (List Char)) (color : Nat)
    (s : NavState) (hs : lines_exist s) :
    update_arrow_image fm dir color s = draw fm (route_of dir) (dir.getD []) color s := by
  cases dir with
  | none => exact update_arrow_image_lines_blank fm color s hs
  | some d =>
    cases d with
    | nil =>
      rw [(update_arrow_image_blank fm color s).2]
      exact update_arrow_image_lines_blank fm color s hs
    | cons c cs =>
      rw [update_arrow_image_route fm (c :: cs) color s hs (by simp)]
      show _ = draw fm (route (dir_norm (c :: cs))) (c :: cs) color s
      unfold route
      generalize hn : dir_norm (c :: cs) = n
      by_cases c1 : is_uturn n = true
      · rw [if_pos c1, if_pos c1]; rfl
      rw [if_neg c1, if_neg c1]
      by_cases c2 : (is_keep n && is_right n) = true
      · rw [if_pos c2, if_pos c2]; rfl
      rw [if_neg c2, if_neg c2]
      by_cases c3 : (is_keep n && is_left n) = true
      · rw [if_pos c3, if_pos c3]; rfl
      rw [if_neg c3, if_neg c3]
      by_cases c4 : (is_sharp n && is_right n) = true
      · rw [if_pos c4, if_pos c4]; rfl
      rw [if_neg c4, if_neg c4]
      by_cases c5 : (is_sharp n && is_left n) = true
      · rw [if_pos c5, if_pos c5]; rfl
      rw [if_neg c5, if_neg c5]
      by_cases c6 : ((is_slight n || is_keep n) && is_right n) = true
      · rw [if_pos c6, if_pos c6]; rfl
      rw [if_neg c6, if_neg c6]
      by_cases c7 : ((is_slight n || is_keep n) && is_left n) = true
      · rw [if_pos c7, if_pos c7]; rfl
      rw [if_neg c7, if_neg c7]
      by_cases c8 : is_round n = true
      · rw [if_pos c8, if_pos c8]; rfl
      rw [if_neg c8, if_neg c8]
      by_cases c9 : is_right n = true
      · rw [if_pos c9, if_pos c9]; rfl
      rw [if_neg c9, if_neg c9]
      by_cases c10 : is_left n = true
      · rw [if_pos c10, if_pos c10]; rfl
      rw [if_neg c10, if_neg c10]
      by_cases c11 : is_dest n = true
      · rw [if_pos c11, if_pos c11]; rfl
      rw [if_neg c11, if_neg c11]
      by_cases c12 : is_straight n = true
      · rw [if_pos c12, if_pos c12, ← hn]; rfl
      rw [if_neg c12, if_neg c12]
      rfl

theorem sharp_glyph_shown (fm : FloatOps) (r : Bool) (d : List Char) (color : Nat)
    (s : NavState) (hs : lines_exist s) : poly_heads_shown (sharp_glyph fm r d color s) := by
  obtain ⟨a, b, c, e, h1, h2, h3, h4⟩ := lines_exist_some hs
  cases hp : s.flag_pole <;> cases ht : s.flag_triangle <;>
    simp [poly_heads_shown, sharp_glyph, ARROW_COLOR, show_poly_with_heads,
      set_arrow_points_sharp, reset_arrows, hide_all_arrows, add_hidden, clear_hidden,
      set_line_color, set_points, part_shown, part_hidden, h1, h2, h3, h4, hp, ht]

theorem slight_glyph_shown (fm : FloatOps) (r : Bool) (d : List Char) (color : Nat)
    (s : NavState) (hs : lines_exist s) : poly_heads_shown (slight_glyph fm r d color s) := by
  obtain ⟨a, b, c, e, h1, h2, h3, h4⟩ := lines_exist_some hs
  cases hp : s.flag_pole <;> cases ht : s.flag_triangle <;>
    simp [poly_heads_shown, slight_glyph, ARROW_COLOR, show_poly_with_heads,
      set_arrow_points_slight, reset_arrows, hide_all_arrows, add_hidden, clear_hidden,
      set_line_color, set_points, part_shown, part_hidden, h1, h2, h3, h4, hp, ht]

theorem straight_glyph_shown (d : List Char) (color : Nat) (s : NavState)
    (hs : lines_exist s) : shaft_heads_shown (straight_glyph d color s) := by
  obtain ⟨a, b, c, e, h1, h2, h3, h4⟩ := lines_exist_some hs
  cases hp : s.flag_pole <;> cases ht : s.flag_triangle <;>
    simp [shaft_heads_shown, straight_glyph, ARROW_COLOR, show_shaft_head,
      set_arrow_points_straight, reset_arrows, hide_all_arrows, add_hidden, clear_hidden,
      set_line_color, set_points, part_shown, part_hidden, h1, h2, h3, h4, hp, ht]

theorem destination_glyph_shown (color : Nat) (s : NavState) (hs : lines_exist s) :
    flag_only_shown (destination_glyph color s) := by
  obtain ⟨a, b, c, e, h1, h2, h3, h4⟩ := lines_exist_some hs
  cases hp : s.flag_pole <;> cases ht : s.flag_triangle <;>
    simp [flag_only_shown, destination_glyph, show_flag, set_flag_symbol, new_flag_line,
      reset_arrows, hide_all_arrows, add_hidden, clear_hidden,
      set_line_color, set_points, part_shown, part_hidden, h1, h2, h3, h4, hp, ht]

/-- C11.  With the four line objects present, `update_arrow_image` does the
body of the route its chain selects, and after it exactly the parts of that
route are shown: the Straight and the plain Turn routes show the shaft and both
heads, with the polyline and the flag parts hidden; the UTurn, Keep, Sharp,
Slight and Roundabout routes show the shaft, both heads and the polyline, with
the flag parts hidden; the Destination route shows the flag pole and the flag
triangle, with the shaft, the heads and the polyline hidden; the route None
(null, empty or unknown instruction) shows nothing. -/
theorem visible_parts_by_route (fm : FloatOps) (dir : Option (List Char)) (color : Nat)
    (s : NavState) (hs : lines_exist s) :
    update_arrow_image fm dir color s = draw fm (route_of dir) (dir.getD []) color s
    ∧ ((route_of dir = Glyph.straight ∨ ∃ r, route_of dir = Glyph.turn r) →
        shaft_heads_shown (update_arrow_image fm dir color s))
    ∧ ((route_of dir = Glyph.uturn ∨ (∃ r, route_of dir = Glyph.keep r)
          ∨ (∃ r, route_of dir = Glyph.sharp r) ∨ (∃ r, route_of dir = Glyph.slight r)
          ∨ ∃ e, route_of dir = Glyph.roundabout e) →
        poly_heads_shown (update_arrow_image fm dir color s))
    ∧ (route_of dir = Glyph.destination →
        flag_only_shown (update_arrow_image fm dir color s))
    ∧ (route_of dir = Glyph.none → all_parts_hidden (update_arrow_image fm dir color s)) := by
  have e := update_arrow_image_eq_draw fm dir color s hs
  refine ⟨e, ?_, ?_, ?_, ?_⟩
  · rintro (h | ⟨r, h⟩) <;> rw [e, h]
    · exact straight_glyph_shown _ color s hs
    · exact turn_glyph_shown r _ color s hs
  · rintro (h | ⟨r, h⟩ | ⟨r, h⟩ | ⟨r, h⟩ | ⟨r, h⟩) <;> rw [e, h]
    · exact uturn_glyph_shown fm _ color s hs
    · exact keep_glyph_shown r _ color s hs
    · exact sharp_glyph_shown fm r _ color s hs
    · exact slight_glyph_shown fm r _ color s hs
    · exact roundabout_glyph_shown fm r _ color s hs
  · intro h
    rw [e, h]
    exact destination_glyph_shown color s hs
  · intro h
    rw [e, h]
    exact reset_arrows_hidden color s

/-- C11, witness: on the created screen, "straight", "sharp_left",
"destination" and "somewhere". -/
theorem visible_parts_by_route_witness :
    lines_exist (created fixedPoint)
    ∧ (route_of (some "straight".toList) = Glyph.straight
      ∧ shaft_heads_shown (update_arrow_image fixedPoint (some "straight".toList)
          COLOR_ARROW_STRAIGHT (created fixedPoint)))
    ∧ (route_of (some "sharp_left".toList) = Glyph.sharp false
      ∧ poly_heads_shown (update_arrow_image fixedPoint (some "sharp_left".toList)
          COLOR_ARROW_STRAIGHT (created fixedPoint)))
    ∧ (route_of (some "destination".toList) = Glyph.destination
      ∧ flag_only_shown (update_arrow_image fixedPoint (some "destination".toList)
          COLOR_ARROW_STRAIGHT (created fixedPoint)))
    ∧ (route_of (some "somewhere".toList) = Glyph.none
      ∧ all_parts_hidden (update_arrow_image fixedPoint (some "somewhere".toList)
          COLOR_ARROW_STRAIGHT (created fixedPoint))) :=
  ⟨by decide,
    ⟨by decide,
      (visible_parts_by_route fixedPoint (some "straight".toList) COLOR_ARROW_STRAIGHT
        (created fixedPoint) (by decide)).2.1 (Or.inl (by decide))⟩,
    ⟨by decide,
      (visible_parts_by_route fixedPoint (some "sharp_left".toList) COLOR_ARROW_STRAIGHT
        (created fixedPoint) (by decide)).2.2.1 (Or.inr (Or.inr (Or.inl ⟨false, by decide⟩)))⟩,
    ⟨by decide,
      (visible_parts_by_route fixedPoint (some "destination".toList) COLOR_ARROW_STRAIGHT
        (created fixedPoint) (by decide)).2.2.2.1 (by decide)⟩,
    ⟨by decide,
      (visible_parts_by_route fixedPoint (some "somewhere".toList) COLOR_ARROW_STRAIGHT
        (created fixedPoint) (by decide)).2.2.2.2 (by decide)⟩⟩

/-! ## Theorems on the distance display -/

/-- Without the distance label `ui_navigation_screen_update_distance` returns
at once. -/
theorem update_distance_no_label (fm : FloatOps) (fmt_1f : fm.F → List Char) (d : Int)
    (animated : Bool) (s : NavState) (h : s.label_distance = none) :
    ui_navigation_screen_update_distance fm fmt_1f d animated s = s := by
  simp [ui_navigation_screen_update_distance, h]

/-- `ui_navigation_screen_update_distance` with the label present and a
distance that is not positive. -/
theorem update_distance_nonpos (fm : FloatOps) (fmt_1f : fm.F → List Char) (d : Int)
    (animated : Bool) (s : NavState) (hl : s.label_distance.isSome = true) (hd : d ≤ 0) :
    ui_navigation_screen_update_distance fm fmt_1f d animated s =
      { s with
        current_distance := d
        label_distance := some []
        critical_alert_active := false
        alert_calls := false :: s.alert_calls } := by
  obtain ⟨t, ht⟩ := Option.isSome_iff_exists.mp hl
  simp [ui_navigation_screen_update_distance, ht, hd,
    ui_navigation_screen_show_critical_alert]

/-- `ui_navigation_screen_update_distance` with the label present and a
positive distance: the text, and the alert call when the flag changes. -/
theorem update_distance_pos (fm : FloatOps) (fmt_1f : fm.F → List Char) (d : Int)
    (animated : Bool) (s : NavState) (hl : s.label_distance.isSome = true) (hd : 0 < d) :
    ui_navigation_screen_update_distance fm fmt_1f d animated s =
      (if (decide (d > 0 ∧ d < 100) != s.critical_alert_active) = true then
        { s with
          current_distance := d
          label_distance := some
            (if d ≥ 1000 then
              snprintf_32 (fmt_1f (fm.div (fm.ofInt d) (fm.ofDec 10000 1)) ++ " km".toList)
            else snprintf_32 (fmt_d d ++ " m".toList))
          critical_alert_active := decide (d > 0 ∧ d < 100)
          alert_calls := decide (d > 0 ∧ d < 100) :: s.alert_calls }
      else
        { s with
          current_distance := d
          label_distance := some
            (if d ≥ 1000 then
              snprintf_32 (fmt_1f (fm.div (fm.ofInt d) (fm.ofDec 10000 1)) ++ " km".toList)
            else snprintf_32 (fmt_d d ++ " m".toList)) }) := by
  obtain ⟨t, ht⟩ := Option.isSome_iff_exists.mp hl
  have hd' : ¬ d ≤ 0 := not_le.mpr hd
  simp only [ui_navigation_screen_update_distance, ht, hd', if_false,
    ui_navigation_screen_show_critical_alert]

/-- C12 (amended).  In a state where the distance label exists, after
`ui_navigation_screen_update_distance(d)` the flag `critical_alert_active`
equals (0 < d and d < 100) and `current_distance` equals d; in a state where
the distance label was never created the call returns at once and leaves the
whole state, `current_distance` and `critical_alert_active` included, as it
was. -/
theorem update_distance_alert_flag (fm : FloatOps) (fmt_1f : fm.F → List Char) (d : Int)
    (animated : Bool) (s : NavState) :
    (s.label_distance.isSome = true →
      (ui_navigation_screen_update_distance fm fmt_1f d animated s).critical_alert_active
          = decide (0 < d ∧ d < 100)
        ∧ (ui_navigation_screen_update_distance fm fmt_1f d animated s).current_distance = d)
    ∧ (s.label_distance = none →
      ui_navigation_screen_update_distance fm fmt_1f d animated s = s) := by
  refine ⟨fun hl => ?_, update_distance_no_label fm fmt_1f d animated s⟩
  by_cases hd : d ≤ 0
  · rw [update_distance_nonpos fm fmt_1f d animated s hl hd]
    have : ¬ (0 < d ∧ d < 100) := fun h => absurd h.1 (not_lt.mpr hd)
    simp [this]
  · rw [update_distance_pos fm fmt_1f d animated s hl (not_le.mp hd)]
    split
    · exact ⟨rfl, rfl⟩
    · rename_i hne
      refine ⟨?_, rfl⟩
      show s.critical_alert_active = decide (0 < d ∧ d < 100)
      have key : decide (d > 0 ∧ d < 100) = s.critical_alert_active := by
        cases hb : s.critical_alert_active <;> cases hc : decide (d > 0 ∧ d < 100) <;>
          first
          | rfl
          | exact absurd (by rw [hb, hc]; rfl) hne
      exact key.symm

/-- C12, witness: 50 m and then 250 m on the created screen; 50 m before the
screen is created. -/
theorem update_distance_alert_flag_witness :
    ((created fixedPoint).label_distance.isSome = true
      ∧ (ui_navigation_screen_update_distance fixedPoint FixedPoint.fmt_1f 50 true
          (created fixedPoint)).critical_alert_active = true
      ∧ (ui_navigation_screen_update_distance fixedPoint FixedPoint.fmt_1f 50 true
          (created fixedPoint)).current_distance = 50)
    ∧ (NavState.init.label_distance = none
      ∧ ui_navigation_screen_update_distance fixedPoint FixedPoint.fmt_1f 50 true
          NavState.init = NavState.init) :=
  ⟨⟨by decide,
      (update_distance_alert_flag fixedPoint FixedPoint.fmt_1f 50 true
        (created fixedPoint)).1 (by decide)⟩,
    ⟨by decide,
      (update_distance_alert_flag fixedPoint FixedPoint.fmt_1f 50 true NavState.init).2
        (by decide)⟩⟩

/-- C12 as first stated fails: before the distance label is created,
`ui_navigation_screen_update_distance(50)` leaves `critical_alert_active` false
although 0 < 50 < 100, and leaves `current_distance` at 0. -/
theorem update_distance_without_label_stale :
    NavState.init.label_distance = none
    ∧ (ui_navigation_screen_update_distance fixedPoint FixedPoint.fmt_1f 50 true
        NavState.init).critical_alert_active = false
    ∧ decide ((0 : Int) < 50 ∧ (50 : Int) < 100) = true
    ∧ (ui_navigation_screen_update_distance fixedPoint FixedPoint.fmt_1f 50 true
        NavState.init).current_distance = 0
    ∧ (ui_navigation_screen_update_distance fixedPoint FixedPoint.fmt_1f 50 true
        NavState.init).current_distance ≠ 50 := by
  refine ⟨?_, ?_, ?_, ?_, ?_⟩ <;> decide

theorem update_distance_label_isSome (fm : FloatOps) (fmt_1f : fm.F → List Char) (d : Int)
    (animated : Bool) (s : NavState) (hl : s.label_distance.isSome = true) :
    (ui_navigation_screen_update_distance fm fmt_1f d animated s).label_distance.isSome
      = true := by
  by_cases hd : d ≤ 0
  · rw [update_distance_nonpos fm fmt_1f d animated s hl hd]; rfl
  · rw [update_distance_pos fm fmt_1f d animated s hl (not_le.mp hd)]
    split <;> rfl

/-- The alert calls made by `ui_navigation_screen_update_distance` with the
label present and a positive distance. -/
theorem update_distance_pos_calls (fm : FloatOps) (fmt_1f : fm.F → List Char) (d : Int)
    (animated : Bool) (s : NavState) (hl : s.label_distance.isSome = true) (hd : 0 < d) :
    (ui_navigation_screen_update_distance fm fmt_1f d animated s).alert_calls
      = if decide (0 < d ∧ d < 100) = s.critical_alert_active then s.alert_calls
        else decide (0 < d ∧ d < 100) :: s.alert_calls := by
  rw [update_distance_pos fm fmt_1f d animated s hl hd]
  cases hb : s.critical_alert_active <;> cases hc : decide (0 < d ∧ d < 100) <;>
    simp [hb, hc, show decide (d > 0 ∧ d < 100) = decide (0 < d ∧ d < 100) from rfl]

/-- C13 (amended).  With the distance label present: for d > 0,
`ui_navigation_screen_update_distance(d)` calls
`ui_navigation_screen_show_critical_alert` if and only if (0 < d < 100) differs
from `critical_alert_active` before the call, and then once, with (0 < d < 100);
for d <= 0 it calls it once with false, whatever the flag was.  Without the
label it never calls it.  Starting with the label present and the alert off,
the sequence 150, 50, 30 makes exactly one call, at 50, with true. -/
theorem update_distance_alert_calls (fm : FloatOps) (fmt_1f : fm.F → List Char) (d : Int)
    (animated : Bool) (s : NavState) :
    (s.label_distance.isSome = true → 0 < d →
      ((ui_navigation_screen_update_distance fm fmt_1f d animated s).alert_calls
            ≠ s.alert_calls
          ↔ decide (0 < d ∧ d < 100) ≠ s.critical_alert_active)
        ∧ (decide (0 < d ∧ d < 100) ≠ s.critical_alert_active →
          (ui_navigation_screen_update_distance fm fmt_1f d animated s).alert_calls
            = decide (0 < d ∧ d < 100) :: s.alert_calls))
    ∧ (s.label_distance.isSome = true → d ≤ 0 →
      (ui_navigation_screen_update_distance fm fmt_1f d animated s).alert_calls
        = false :: s.alert_calls)
    ∧ (s.label_distance = none →
      (ui_navigation_screen_update_distance fm fmt_1f d animated s).alert_calls
        = s.alert_calls)
    ∧ (s.label_distance.isSome = true → s.critical_alert_active = false →
      (ui_navigation_screen_update_distance fm fmt_1f 150 animated s).alert_calls
          = s.alert_calls
        ∧ (ui_navigation_screen_update_distance fm fmt_1f 50 animated
            (ui_navigation_screen_update_distance fm fmt_1f 150 animated s)).alert_calls
          = true :: s.alert_calls
        ∧ (ui_navigation_screen_update_distance fm fmt_1f 30 animated
            (ui_navigation_screen_update_distance fm fmt_1f 50 animated
              (ui_navigation_screen_update_distance fm fmt_1f 150 animated s))).alert_calls
          = true :: s.alert_calls) := by
  refine ⟨?_, ?_, ?_, ?_⟩
  · intro hl hd
    rw [update_distance_pos_calls fm fmt_1f d animated s hl hd]
    by_cases h : decide (0 < d ∧ d < 100) = s.critical_alert_active
    · rw [if_pos h]
      exact ⟨⟨fun hne => absurd rfl hne, fun hne => absurd h hne⟩, fun hne => absurd h hne⟩
    · rw [if_neg h]
      exact ⟨⟨fun _ => h, fun _ => List.cons_ne_self _ _⟩, fun _ => rfl⟩
  · intro hl hd
    rw [update_distance_nonpos fm fmt_1f d animated s hl hd]
  · intro hl
    rw [update_distance_no_label fm fmt_1f d animated s hl]
  · intro hl hoff
    have l1 := update_distance_label_isSome fm fmt_1f 150 animated s hl
    have l2 := update_distance_label_isSome fm fmt_1f 50 animated _ l1
    have f1 := ((update_distance_alert_flag fm fmt_1f 150 animated s).1 hl).1
    have f2 := ((update_distance_alert_flag fm fmt_1f 50 animated _).1 l1).1
    have c1 := update_distance_pos_calls fm fmt_1f 150 animated s hl (by decide)
    have c2 := update_distance_pos_calls fm fmt_1f 50 animated _ l1 (by decide)
    have c3 := update_distance_pos_calls fm fmt_1f 30 animated _ l2 (by decide)
    rw [hoff] at c1
    rw [f1] at c2
    rw [f2] at c3
    have e1 : (ui_navigation_screen_update_distance fm fmt_1f 150 animated s).alert_calls
        = s.alert_calls := c1
    have e2 : (ui_navigation_screen_update_distance fm fmt_1f 50 animated
        (ui_navigation_screen_update_distance fm fmt_1f 150 animated s)).alert_calls
        = true :: s.alert_calls := by
      rw [← e1]; exact c2
    exact ⟨e1, e2, by rw [← e2]; exact c3⟩

/-- C13, witness: on the created screen (label present, alert off) the
distances 50 and 0, and the sequence 150, 50, 30. -/
theorem update_distance_alert_calls_witness :
    (created fixedPoint).label_distance.isSome = true
    ∧ (created fixedPoint).critical_alert_active = false
    ∧ (created fixedPoint).alert_calls = []
    ∧ (ui_navigation_screen_update_distance fixedPoint FixedPoint.fmt_1f 50 true
        (created fixedPoint)).alert_calls = [true]
    ∧ (ui_navigation_screen_update_distance fixedPoint FixedPoint.fmt_1f 0 true
        (created fixedPoint)).alert_calls = [false]
    ∧ (ui_navigation_screen_update_distance fixedPoint FixedPoint.fmt_1f 150 true
          (created fixedPoint)).alert_calls = []
    ∧ (ui_navigation_screen_update_distance fixedPoint FixedPoint.fmt_1f 50 true
          (ui_navigation_screen_update_distance fixedPoint FixedPoint.fmt_1f 150 true
            (created fixedPoint))).alert_calls = [true]
    ∧ (ui_navigation_screen_update_distance fixedPoint FixedPoint.fmt_1f 30 true
          (ui_navigation_screen_update_distance fixedPoint FixedPoint.fmt_1f 50 true
            (ui_navigation_screen_update_distance fixedPoint FixedPoint.fmt_1f 150 true
              (created fixedPoint)))).alert_calls = [true] :=
  ⟨by decide, by decide, by decide,
    ((update_distance_alert_calls fixedPoint FixedPoint.fmt_1f 50 true
      (created fixedPoint)).1 (by decide) (by decide)).2 (by decide),
    (update_distance_alert_calls fixedPoint FixedPoint.fmt_1f 0 true
      (created fixedPoint)).2.1 (by decide) (by decide),
    (update_distance_alert_calls fixedPoint FixedPoint.fmt_1f 0 true
      (created fixedPoint)).2.2.2 (by decide) (by decide)⟩

/-- C13 as first stated fails: on the created screen the alert is off and
(0 < 0 < 100) is false as well, yet `ui_navigation_screen_update_distance(0)`
calls `ui_navigation_screen_show_critical_alert(false)`; and before the
distance label is created, (0 < 50 < 100) differs from the flag, yet
`ui_navigation_screen_update_distance(50)` makes no call. -/
theorem update_distance_alert_calls_first_form_fails :
    ((created fixedPoint).critical_alert_active = decide ((0 : Int) < 0 ∧ (0 : Int) < 100)
      ∧ (ui_navigation_screen_update_distance fixedPoint FixedPoint.fmt_1f 0 true
          (created fixedPoint)).alert_calls = false :: (created fixedPoint).alert_calls)
    ∧ (NavState.init.critical_alert_active ≠ decide ((0 : Int) < 50 ∧ (50 : Int) < 100)
      ∧ (ui_navigation_screen_update_distance fixedPoint FixedPoint.fmt_1f 50 true
          NavState.init).alert_calls = NavState.init.alert_calls) := by
  refine ⟨⟨?_, ?_⟩, ⟨?_, ?_⟩⟩ <;> decide

/-- A number below 1000 has at most three decimal digits. -/
theorem toDigits_length_le_three (n : Nat) (h : n < 1000) :
    (Nat.toDigits 10 n).length ≤ 3 :=
  Nat.toDigitsCore_length 10 (by decide) (n + 1) n 3 (by simpa using h) (by decide)

/-- The text "<digits> m" of a distance below 1000 fits `distance_str[32]`. -/
theorem snprintf_32_metres (n : Nat) (h : n < 1000) :
    snprintf_32 (Nat.toDigits 10 n ++ " m".toList) = Nat.toDigits 10 n ++ " m".toList := by
  unfold snprintf_32
  apply List.take_of_length_le
  have := toDigits_length_le_three n h
  simp only [List.length_append]
  have h2 : " m".toList.length = 2 := by decide
  omega

/-- C14.  With the distance label present,
`ui_navigation_screen_update_distance(d)` sets the label text to the empty
string for every d <= 0, and to the decimal digits of d followed by " m" for
every 0 < d < 1000 (so 999 gives "999 m"). -/
theorem update_distance_metres_text (fm : FloatOps) (fmt_1f : fm.F → List Char) (d : Int)
    (animated : Bool) (s : NavState) (hl : s.label_distance.isSome = true) :
    (d ≤ 0 →
      (ui_navigation_screen_update_distance fm fmt_1f d animated s).label_distance = some [])
    ∧ (0 < d → d < 1000 →
      (ui_navigation_screen_update_distance fm fmt_1f d animated s).label_distance
        = some (Nat.toDigits 10 d.toNat ++ " m".toList)) := by
  constructor
  · intro hd
    rw [update_distance_nonpos fm fmt_1f d animated s hl hd]
  · intro hd hlt
    have hk : ¬ d ≥ 1000 := not_le.mpr hlt
    have hn : ¬ d < 0 := not_lt.mpr (le_of_lt hd)
    have ht : d.toNat < 1000 := by omega
    have etext : (if d ≥ 1000 then
          snprintf_32 (fmt_1f (fm.div (fm.ofInt d) (fm.ofDec 10000 1)) ++ " km".toList)
        else snprintf_32 (fmt_d d ++ " m".toList))
        = Nat.toDigits 10 d.toNat ++ " m".toList := by
      rw [if_neg hk]
      unfold fmt_d
      rw [if_neg hn]
      exact snprintf_32_metres d.toNat ht
    rw [update_distance_pos fm fmt_1f d animated s hl hd, etext]
    split <;> rfl

/-- C14, witness: 500 gives "500 m", 999 gives "999 m", 0 gives "". -/
theorem update_distance_metres_text_witness :
    (created fixedPoint).label_distance.isSome = true
    ∧ (ui_navigation_screen_update_distance fixedPoint FixedPoint.fmt_1f 500 true
        (created fixedPoint)).label_distance = some "500 m".toList
    ∧ (ui_navigation_screen_update_distance fixedPoint FixedPoint.fmt_1f 999 true
        (created fixedPoint)).label_distance = some "999 m".toList
    ∧ (ui_navigation_screen_update_distance fixedPoint FixedPoint.fmt_1f 0 true
        (created fixedPoint)).label_distance = some "".toList :=
  ⟨by decide,
    (update_distance_metres_text fixedPoint FixedPoint.fmt_1f 500 true (created fixedPoint)
      (by decide)).2 (by decide) (by decide),
    (update_distance_metres_text fixedPoint FixedPoint.fmt_1f 999 true (created fixedPoint)
      (by decide)).2 (by decide) (by decide),
    (update_distance_metres_text fixedPoint FixedPoint.fmt_1f 0 true (created fixedPoint)
      (by decide)).1 (by decide)⟩

/-- From 1000 m on the label text is what `snprintf` makes of "%.1f km" and the
single precision quotient `distance / 1000.0f`. -/
theorem update_distance_km_text (fm : FloatOps) (fmt_1f : fm.F → List Char) (d : Int)
    (animated : Bool) (s : NavState) (hl : s.label_distance.isSome = true)
    (hd : 1000 ≤ d) :
    (ui_navigation_screen_update_distance fm fmt_1f d animated s).label_distance
      = some (snprintf_32
          (fmt_1f (fm.div (fm.ofInt d) (fm.ofDec 10000 1)) ++ " km".toList)) := by
  have hk : d ≥ 1000 := hd
  rw [update_distance_pos fm fmt_1f d animated s hl (by omega), if_pos hk]
  split <;> rfl

/-! ## Theorems on colours and on `clear` -/

theorem arrow_lines_colored_ARROW_COLOR (c : Nat) (t : NavState) (ht : lines_exist t) :
    arrow_lines_colored c (ARROW_COLOR c t) := by
  obtain ⟨a, b, e, f, h1, h2, h3, h4⟩ := lines_exist_some ht
  simp [arrow_lines_colored, ARROW_COLOR, set_line_color, h1, h2, h3, h4]

theorem flag_colored_destination (color : Nat) (s : NavState) :
    flag_colored 0xF800 (destination_glyph color s) := by
  cases hp : s.flag_pole <;> cases ht : s.flag_triangle <;>
    simp [flag_colored, destination_glyph, show_flag, set_flag_symbol, new_flag_line,
      reset_arrows, hide_all_arrows, add_hidden, clear_hidden, set_line_color, set_points,
      hp, ht]

/-- The routes that end at the label `ARROW_COLOR` colour the four lines with
`arrow_color`. -/
theorem draw_arrow_lines_colored (fm : FloatOps) (g : Glyph) (d : List Char) (color : Nat)
    (s : NavState) (hs : lines_exist s) (h1 : g ≠ Glyph.destination) (h2 : g ≠ Glyph.none) :
    arrow_lines_colored (arrow_color (dir_norm d) color) (draw fm g d color s) := by
  cases g with
  | destination => exact absurd rfl h1
  | none => exact absurd rfl h2
  | uturn =>
    exact arrow_lines_colored_ARROW_COLOR _ _ (by simpa using hs)
  | keep r =>
    exact arrow_lines_colored_ARROW_COLOR _ _ (by simpa using hs)
  | sharp r =>
    exact arrow_lines_colored_ARROW_COLOR _ _ (by simpa using hs)
  | slight r =>
    exact arrow_lines_colored_ARROW_COLOR _ _ (by simpa using hs)
  | roundabout e =>
    exact arrow_lines_colored_ARROW_COLOR _ _ (by simpa using hs)
  | turn r =>
    exact arrow_lines_colored_ARROW_COLOR _ _ (by simpa using hs)
  | straight =>
    exact arrow_lines_colored_ARROW_COLOR _ _ (by simpa using hs)

/-- What the route taken says about the token tests: the value of `route`
together with the tests that the colour policy looks at. -/
theorem route_cases (n : List Char) :
    (route n = Glyph.uturn ∧ is_uturn n = true)
    ∨ (is_uturn n = false
        ∧ (is_keep n || is_sharp n || is_slight n || is_left n || is_right n) = true
        ∧ ∃ b, route n = Glyph.keep b ∨ route n = Glyph.sharp b ∨ route n = Glyph.slight b
            ∨ route n = Glyph.turn b)
    ∨ (is_uturn n = false ∧ is_round n = true ∧ ∃ e, route n = Glyph.roundabout e)
    ∨ route n = Glyph.destination
    ∨ (route n = Glyph.straight ∧ is_straight n = true)
    ∨ route n = Glyph.none := by
  by_cases c1 : is_uturn n = true
  · have hr : route n = Glyph.uturn := by
      unfold route
      rw [if_pos c1]
    exact Or.inl ⟨hr, c1⟩
  have u : is_uturn n = false := by
    cases h : is_uturn n
    · rfl
    · exact absurd h c1
  by_cases c2 : (is_keep n && is_right n) = true
  · have hr : route n = Glyph.keep true := by
      unfold route
      rw [if_neg c1, if_pos c2]
    refine Or.inr (Or.inl ⟨u, ?_, _, Or.inl hr⟩)
    revert c2
    cases is_keep n <;> cases is_sharp n <;> cases is_slight n <;> cases is_left n <;>
      cases is_right n <;> decide
  by_cases c3 : (is_keep n && is_left n) = true
  · have hr : route n = Glyph.keep false := by
      unfold route
      rw [if_neg c1, if_neg c2, if_pos c3]
    refine Or.inr (Or.inl ⟨u, ?_, _, Or.inl hr⟩)
    revert c3
    cases is_keep n <;> cases is_sharp n <;> cases is_slight n <;> cases is_left n <;>
      cases is_right n <;> decide
  by_cases c4 : (is_sharp n && is_right n) = true
  · have hr : route n = Glyph.sharp true := by
      unfold route
      rw [if_neg c1, if_neg c2, if_neg c3, if_pos c4]
    refine Or.inr (Or.inl ⟨u, ?_, _, Or.inr (Or.inl hr)⟩)
    revert c4
    cases is_keep n <;> cases is_sharp n <;> cases is_slight n <;> cases is_left n <;>
      cases is_right n <;> decide
  by_cases c5 : (is_sharp n && is_left n) = true
  · have hr : route n = Glyph.sharp false := by
      unfold route
      rw [if_neg c1, if_neg c2, if_neg c3, if_neg c4, if_pos c5]
    refine Or.inr (Or.inl ⟨u, ?_, _, Or.inr (Or.inl hr)⟩)
    revert c5
    cases is_keep n <;> cases is_sharp n <;> cases is_slight n <;> cases is_left n <;>
      cases is_right n <;> decide
  by_cases c6 : ((is_slight n || is_keep n) && is_right n) = true
  · have hr : route n = Glyph.slight true := by
      unfold route
      rw [if_neg c1, if_neg c2, if_neg c3, if_neg c4, if_neg c5, if_pos c6]
    refine Or.inr (Or.inl ⟨u, ?_, _, Or.inr (Or.inr (Or.inl hr))⟩)
    revert c6
    cases is_keep n <;> cases is_sharp n <;> cases is_slight n <;> cases is_left n <;>
      cases is_right n <;> decide
  by_cases c7 : ((is_slight n || is_keep n) && is_left n) = true
  · have hr : route n = Glyph.slight false := by
      unfold route
      rw [if_neg c1, if_neg c2, if_neg c3, if_neg c4, if_neg c5, if_neg c6, if_pos c7]
    refine Or.inr (Or.inl ⟨u, ?_, _, Or.inr (Or.inr (Or.inl hr))⟩)
    revert c7
    cases is_keep n <;> cases is_sharp n <;> cases is_slight n <;> cases is_left n <;>
      cases is_right n <;> decide
  by_cases c8 : is_round n = true
  · have hr : route n = Glyph.roundabout (if is_left n then -1 else if is_right n then 1 else 0) := by
      unfold route
      rw [if_neg c1, if_neg c2, if_neg c3, if_neg c4, if_neg c5, if_neg c6, if_neg c7, if_pos c8]
    exact Or.inr (Or.inr (Or.inl ⟨u, c8, _, hr⟩))
  by_cases c9 : is_right n = true
  · have hr : route n = Glyph.turn true := by
      unfold route
      rw [if_neg c1, if_neg c2, if_neg c3, if_neg c4, if_neg c5, if_neg c6, if_neg c7, if_neg c8, if_pos c9]
    refine Or.inr (Or.inl ⟨u, ?_, _, Or.inr (Or.inr (Or.inr hr))⟩)
    revert c9
    cases is_keep n <;> cases is_sharp n <;> cases is_slight n <;> cases is_left n <;>
      cases is_right n <;> decide
  by_cases c10 : is_left n = true
  · have hr : route n = Glyph.turn false := by
      unfold route
      rw [if_neg c1, if_neg c2, if_neg c3, if_neg c4, if_neg c5, if_neg c6, if_neg c7, if_neg c8, if_neg c9, if_pos c10]
    refine Or.inr (Or.inl ⟨u, ?_, _, Or.inr (Or.inr (Or.inr hr))⟩)
    revert c10
    cases is_keep n <;> cases is_sharp n <;> cases is_slight n <;> cases is_left n <;>
      cases is_right n <;> decide
  by_cases c11 : is_dest n = true
  · have hr : route n = Glyph.destination := by
      unfold route
      rw [if_neg c1, if_neg c2, if_neg c3, if_neg c4, if_neg c5, if_neg c6, if_neg c7, if_neg c8, if_neg c9, if_neg c10, if_pos c11]
    exact Or.inr (Or.inr (Or.inr (Or.inl hr)))
  by_cases c12 : is_straight n = true
  · have hr : route n = Glyph.straight := by
      unfold route
      rw [if_neg c1, if_neg c2, if_neg c3, if_neg c4, if_neg c5, if_neg c6, if_neg c7, if_neg c8, if_neg c9, if_neg c10, if_neg c11, if_pos c12]
    exact Or.inr (Or.inr (Or.inr (Or.inr (Or.inl ⟨hr, c12⟩))))
  · have hr : route n = Glyph.none := by
      unfold route
      rw [if_neg c1, if_neg c2, if_neg c3, if_neg c4, if_neg c5, if_neg c6, if_neg c7, if_neg c8, if_neg c9, if_neg c10, if_neg c11, if_neg c12]
    exact Or.inr (Or.inr (Or.inr (Or.inr (Or.inr hr))))

theorem route_of_cons (d : List Char) (hd : d ≠ []) : route_of (some d) = route (dir_norm d) := by
  cases d with
  | nil => exact absurd rfl hd
  | cons c cs => rfl

/-- The colour policy in terms of the route and of the straight and roundabout
tests. -/
theorem arrow_color_by_route (n : List Char) (color : Nat) :
    (route n = Glyph.straight → arrow_color n color = COLOR_ARROW_STRAIGHT)
    ∧ (route n = Glyph.uturn →
        arrow_color n color = if is_straight n then COLOR_ARROW_STRAIGHT else 0xF81F)
    ∧ (∀ e, route n = Glyph.roundabout e →
        arrow_color n color = if is_straight n then COLOR_ARROW_STRAIGHT
          else COLOR_ACCENT_YELLOW)
    ∧ (∀ b, (route n = Glyph.keep b ∨ route n = Glyph.sharp b ∨ route n = Glyph.slight b
          ∨ route n = Glyph.turn b) →
        arrow_color n color = if is_straight n then COLOR_ARROW_STRAIGHT
          else if is_round n then COLOR_ACCENT_YELLOW else 0xFD20) := by
  rcases route_cases n with ⟨hr, hu⟩ | ⟨hu, hm, b0, hr⟩ | ⟨hu, hrd, e0, hr⟩ | hr | ⟨hr, hst⟩ | hr
  · refine ⟨fun h => ?_, fun _ => ?_, fun e h => ?_, fun b h => ?_⟩
    · rw [hr] at h; exact Glyph.noConfusion h
    · unfold arrow_color
      cases is_straight n <;> simp [hu]
    · rw [hr] at h; exact Glyph.noConfusion h
    · rw [hr] at h
      rcases h with h | h | h | h <;> exact Glyph.noConfusion h
  · refine ⟨fun h => ?_, fun h => ?_, fun e h => ?_, fun b _ => ?_⟩
    · rcases hr with hr | hr | hr | hr <;> rw [hr] at h <;> exact Glyph.noConfusion h
    · rcases hr with hr | hr | hr | hr <;> rw [hr] at h <;> exact Glyph.noConfusion h
    · rcases hr with hr | hr | hr | hr <;> rw [hr] at h <;> exact Glyph.noConfusion h
    · unfold arrow_color
      cases is_straight n <;> cases is_round n <;> simp [hu, hm]
  · refine ⟨fun h => ?_, fun h => ?_, fun _ _ => ?_, fun b h => ?_⟩
    · rw [hr] at h; exact Glyph.noConfusion h
    · rw [hr] at h; exact Glyph.noConfusion h
    · unfold arrow_color
      cases is_straight n <;> simp [hu, hrd]
    · rw [hr] at h
      rcases h with h | h | h | h <;> exact Glyph.noConfusion h
  · refine ⟨fun h => ?_, fun h => ?_, fun e h => ?_, fun b h => ?_⟩
    · rw [hr] at h; exact Glyph.noConfusion h
    · rw [hr] at h; exact Glyph.noConfusion h
    · rw [hr] at h; exact Glyph.noConfusion h
    · rw [hr] at h
      rcases h with h | h | h | h <;> exact Glyph.noConfusion h
  · refine ⟨fun _ => ?_, fun h => ?_, fun e h => ?_, fun b h => ?_⟩
    · unfold arrow_color
      simp [hst]
    · rw [hr] at h; exact Glyph.noConfusion h
    · rw [hr] at h; exact Glyph.noConfusion h
    · rw [hr] at h
      rcases h with h | h | h | h <;> exact Glyph.noConfusion h
  · refine ⟨fun h => ?_, fun h => ?_, fun e h => ?_, fun b h => ?_⟩
    · rw [hr] at h; exact Glyph.noConfusion h
    · rw [hr] at h; exact Glyph.noConfusion h
    · rw [hr] at h; exact Glyph.noConfusion h
    · rw [hr] at h
      rcases h with h | h | h | h <;> exact Glyph.noConfusion h

/-- C16 (amended).  With the four line objects present and a non-empty
instruction, the colour of the four arrow lines follows the token priority
straight, U-turn, roundabout, other arrow, which is not the routing order: the
Straight route gets `COLOR_ARROW_STRAIGHT` (0x07E0) and the Destination flag
gets 0xF800, always; the UTurn route gets 0xF81F and the Roundabout route gets
`COLOR_ACCENT_YELLOW` (0xFFE0) unless the text has a straight token, which
gives 0x07E0; a Keep, Sharp, Slight or plain Turn route gets 0xFD20 unless the
text has a straight token (0x07E0) or, without one, a roundabout token
(0xFFE0). -/
theorem line_colour_by_route (fm : FloatOps) (d : List Char) (color : Nat) (s : NavState)
    (hs : lines_exist s) (hd : d ≠ []) :
    (route (dir_norm d) = Glyph.straight →
      arrow_lines_colored COLOR_ARROW_STRAIGHT (update_arrow_image fm (some d) color s))
    ∧ (route (dir_norm d) = Glyph.destination →
      flag_colored 0xF800 (update_arrow_image fm (some d) color s))
    ∧ (route (dir_norm d) = Glyph.uturn →
      arrow_lines_colored
        (if is_straight (dir_norm d) then COLOR_ARROW_STRAIGHT else 0xF81F)
        (update_arrow_image fm (some d) color s))
    ∧ (∀ e, route (dir_norm d) = Glyph.roundabout e →
      arrow_lines_colored
        (if is_straight (dir_norm d) then COLOR_ARROW_STRAIGHT else COLOR_ACCENT_YELLOW)
        (update_arrow_image fm (some d) color s))
    ∧ (∀ b, (route (dir_norm d) = Glyph.keep b ∨ route (dir_norm d) = Glyph.sharp b
          ∨ route (dir_norm d) = Glyph.slight b ∨ route (dir_norm d) = Glyph.turn b) →
      arrow_lines_colored
        (if is_straight (dir_norm d) then COLOR_ARROW_STRAIGHT
          else if is_round (dir_norm d) then COLOR_ACCENT_YELLOW else 0xFD20)
        (update_arrow_image fm (some d) color s)) := by
  have e : update_arrow_image fm (some d) color s = draw fm (route (dir_norm d)) d color s := by
    rw [update_arrow_image_eq_draw fm (some d) color s hs, route_of_cons d hd]
    rfl
  obtain ⟨a1, a2, a3, a4⟩ := arrow_color_by_route (dir_norm d) color
  have col : ∀ g, route (dir_norm d) = g → g ≠ Glyph.destination → g ≠ Glyph.none →
      arrow_lines_colored (arrow_color (dir_norm d) color)
        (update_arrow_image fm (some d) color s) := by
    intro g hg h1 h2
    rw [e, hg]
    exact draw_arrow_lines_colored fm g d color s hs h1 h2
  refine ⟨fun h => ?_, fun h => ?_, fun h => ?_, fun x h => ?_, fun b h => ?_⟩
  · rw [← a1 h]
    exact col _ h (fun c => Glyph.noConfusion c) (fun c => Glyph.noConfusion c)
  · rw [e, h]
    exact flag_colored_destination color s
  · rw [← a2 h]
    exact col _ h (fun c => Glyph.noConfusion c) (fun c => Glyph.noConfusion c)
  · rw [← a3 x h]
    exact col _ h (fun c => Glyph.noConfusion c) (fun c => Glyph.noConfusion c)
  · rw [← a4 b h]
    rcases h with h | h | h | h <;>
      exact col _ h (fun c => Glyph.noConfusion c) (fun c => Glyph.noConfusion c)

/-- C16, witness: on the created screen "turn_left" (plain Turn, 0xFD20),
"uturn" (0xF81F), "roundabout" (0xFFE0), "straight" (0x07E0) and "destination"
(flag in 0xF800). -/
theorem line_colour_by_route_witness :
    lines_exist (created fixedPoint)
    ∧ ("turn_left".toList ≠ [] ∧ route (dir_norm "turn_left".toList) = Glyph.turn false
      ∧ arrow_lines_colored 0xFD20 (update_arrow_image fixedPoint (some "turn_left".toList)
          COLOR_ARROW_STRAIGHT (created fixedPoint)))
    ∧ ("uturn".toList ≠ [] ∧ route (dir_norm "uturn".toList) = Glyph.uturn
      ∧ arrow_lines_colored 0xF81F (update_arrow_image fixedPoint (some "uturn".toList)
          COLOR_ARROW_STRAIGHT (created fixedPoint)))
    ∧ ("roundabout".toList ≠ [] ∧ route (dir_norm "roundabout".toList) = Glyph.roundabout 0
      ∧ arrow_lines_colored COLOR_ACCENT_YELLOW (update_arrow_image fixedPoint
          (some "roundabout".toList) COLOR_ARROW_STRAIGHT (created fixedPoint)))
    ∧ ("straight".toList ≠ [] ∧ route (dir_norm "straight".toList) = Glyph.straight
      ∧ arrow_lines_colored COLOR_ARROW_STRAIGHT (update_arrow_image fixedPoint
          (some "straight".toList) COLOR_ARROW_STRAIGHT (created fixedPoint)))
    ∧ ("destination".toList ≠ [] ∧ route (dir_norm "destination".toList) = Glyph.destination
      ∧ flag_colored 0xF800 (update_arrow_image fixedPoint (some "destination".toList)
          COLOR_ARROW_STRAIGHT (created fixedPoint))) :=
  ⟨by decide,
    ⟨by decide, by decide,
      (line_colour_by_route fixedPoint "turn_left".toList COLOR_ARROW_STRAIGHT
        (created fixedPoint) (by decide) (by decide)).2.2.2.2 false
        (Or.inr (Or.inr (Or.inr (by decide))))⟩,
    ⟨by decide, by decide,
      (line_colour_by_route fixedPoint "uturn".toList COLOR_ARROW_STRAIGHT
        (created fixedPoint) (by decide) (by decide)).2.2.1 (by decide)⟩,
    ⟨by decide, by decide,
      (line_colour_by_route fixedPoint "roundabout".toList COLOR_ARROW_STRAIGHT
        (created fixedPoint) (by decide) (by decide)).2.2.2.1 0 (by decide)⟩,
    ⟨by decide, by decide,
      (line_colour_by_route fixedPoint "straight".toList COLOR_ARROW_STRAIGHT
        (created fixedPoint) (by decide) (by decide)).1 (by decide)⟩,
    ⟨by decide, by decide,
      (line_colour_by_route fixedPoint "destination".toList COLOR_ARROW_STRAIGHT
        (created fixedPoint) (by decide) (by decide)).2.1 (by decide)⟩⟩

/-- C16 as first stated fails: on the created screen "continue_left" takes the
plain Turn route like "turn_left", but its lines are coloured 0x07E0, not
0xFD20; "keep_left_at_roundabout" takes the Keep route with 0xFFE0, not 0xFD20;
"uturn_then_continue" takes the UTurn route with 0x07E0, not 0xF81F; and
"continue_at_roundabout" takes the Roundabout route with 0x07E0, not 0xFFE0. -/
theorem line_colour_not_by_category :
    (route (dir_norm "continue_left".toList) = Glyph.turn false
      ∧ route (dir_norm "turn_left".toList) = Glyph.turn false
      ∧ arrow_lines_colored 0xFD20 (update_arrow_image fixedPoint (some "turn_left".toList)
          COLOR_ARROW_STRAIGHT (created fixedPoint))
      ∧ arrow_lines_colored 0x07E0 (update_arrow_image fixedPoint
          (some "continue_left".toList) COLOR_ARROW_STRAIGHT (created fixedPoint))
      ∧ ¬ arrow_lines_colored 0xFD20 (update_arrow_image fixedPoint
          (some "continue_left".toList) COLOR_ARROW_STRAIGHT (created fixedPoint)))
    ∧ (route (dir_norm "keep_left_at_roundabout".toList) = Glyph.keep false
      ∧ arrow_lines_colored 0xFFE0 (update_arrow_image fixedPoint
          (some "keep_left_at_roundabout".toList) COLOR_ARROW_STRAIGHT (created fixedPoint))
      ∧ ¬ arrow_lines_colored 0xFD20 (update_arrow_image fixedPoint
          (some "keep_left_at_roundabout".toList) COLOR_ARROW_STRAIGHT (created fixedPoint)))
    ∧ (route (dir_norm "uturn_then_continue".toList) = Glyph.uturn
      ∧ arrow_lines_colored 0x07E0 (update_arrow_image fixedPoint
          (some "uturn_then_continue".toList) COLOR_ARROW_STRAIGHT (created fixedPoint))
      ∧ ¬ arrow_lines_colored 0xF81F (update_arrow_image fixedPoint
          (some "uturn_then_continue".toList) COLOR_ARROW_STRAIGHT (created fixedPoint)))
    ∧ (route (dir_norm "continue_at_roundabout".toList) = Glyph.roundabout 0
      ∧ arrow_lines_colored 0x07E0 (update_arrow_image fixedPoint
          (some "continue_at_roundabout".toList) COLOR_ARROW_STRAIGHT (created fixedPoint))
      ∧ ¬ arrow_lines_colored 0xFFE0 (update_arrow_image fixedPoint
          (some "continue_at_roundabout".toList) COLOR_ARROW_STRAIGHT
          (created fixedPoint))) := by
  refine ⟨⟨?_, ?_, ?_, ?_, ?_⟩, ⟨?_, ?_, ?_⟩, ⟨?_, ?_, ?_⟩, ⟨?_, ?_, ?_⟩⟩ <;> decide

theorem hide_all_objects_hidden (s : NavState) :
    all_parts_hidden (ui_navigation_hide_all_objects s) := by
  cases h1 : s.line_shaft <;> cases h2 : s.line_head1 <;> cases h3 : s.line_head2 <;>
    cases h4 : s.line_poly <;> cases h5 : s.flag_pole <;> cases h6 : s.flag_triangle <;>
    simp [all_parts_hidden, ui_navigation_hide_all_objects, add_hidden, part_hidden,
      h1, h2, h3, h4, h5, h6]

/-- C17.  After `ui_navigation_screen_clear()`, from any state: each of the
three labels (distance, maneuver, ETA) that exists holds the empty string (and
a label that does not exist still does not); the cached instruction is empty;
`critical_alert_active` is false; every glyph part (shaft, heads, polyline,
flag pole, flag triangle) is hidden. -/
theorem clear_resets (s : NavState) :
    (ui_navigation_screen_clear s).label_distance = s.label_distance.map (fun _ => [])
    ∧ (ui_navigation_screen_clear s).label_maneuver = s.label_maneuver.map (fun _ => [])
    ∧ (ui_navigation_screen_clear s).label_eta_banner = s.label_eta_banner.map (fun _ => [])
    ∧ (ui_navigation_screen_clear s).current_direction = []
    ∧ (ui_navigation_screen_clear s).critical_alert_active = false
    ∧ all_parts_hidden (ui_navigation_screen_clear s) := by
  refine ⟨rfl, rfl, rfl, rfl, rfl, ?_⟩
  unfold ui_navigation_screen_clear
  exact hide_all_objects_hidden _

/-! ## Theorems on context switches -/

/-- C18.  Transitions are immediate: whatever the animation times t1 and t2,
`ui_show_screen(screen, t1)` and `ui_show_screen(screen, t2)` leave the same
state, in particular the same sequence of presentation-surface calls; and
`ui_transition_fade(from, to, time)` leaves the state that
`ui_show_screen(to, 0)` leaves. -/
theorem show_screen_immediate (screen from_screen to_screen : Int) (t1 t2 time : Nat)
    (s : ScreenState) :
    ui_show_screen screen t1 s = ui_show_screen screen t2 s
    ∧ (ui_show_screen screen t1 s).calls = (ui_show_screen screen t2 s).calls
    ∧ ui_transition_fade from_screen to_screen time s = ui_show_screen to_screen 0 s
    ∧ (ui_transition_fade from_screen to_screen time s).calls
        = (ui_show_screen to_screen 0 s).calls := by
  have e : ui_show_screen screen t1 s = ui_show_screen screen t2 s := by
    unfold ui_show_screen
    rfl
  have f : ui_transition_fade from_screen to_screen time s = ui_show_screen to_screen 0 s := by
    unfold ui_transition_fade ui_show_screen
    rfl
  exact ⟨e, congrArg ScreenState.calls e, f, congrArg ScreenState.calls f⟩

/-- C19.  Context switches do not touch the navigation controller: in the
whole program, `ui_show_screen(ctx, t)` (accepted or rejected) and
`ui_show_navigation()` leave every variable of the navigation controller as it
was, in particular `current_direction`, `current_distance`,
`critical_alert_active`, the distance, maneuver and ETA label texts and the
hidden flags of all glyph parts; so after Navigation, IncomingCall, Navigation
the navigation text and alert state are those from before. -/
theorem context_switch_frame (w : Display) (ctx : Int) (t t1 t2 t3 : Nat) :
    (Display.show_screen ctx t w).nav = w.nav
    ∧ nav_view (Display.show_screen ctx t w).nav = nav_view w.nav
    ∧ (Display.show_navigation w).nav = w.nav
    ∧ nav_view (Display.show_navigation w).nav = nav_view w.nav
    ∧ (Display.show_screen UI_SCREEN_NAVIGATION t3
        (Display.show_screen UI_SCREEN_INCOMING_CALL t2
          (Display.show_screen UI_SCREEN_NAVIGATION t1 w))).nav = w.nav
    ∧ nav_view (Display.show_screen UI_SCREEN_NAVIGATION t3
        (Display.show_screen UI_SCREEN_INCOMING_CALL t2
          (Display.show_screen UI_SCREEN_NAVIGATION t1 w))).nav = nav_view w.nav
    ∧ (Display.show_screen UI_SCREEN_NAVIGATION t3
        (Display.show_screen UI_SCREEN_INCOMING_CALL t2
          (Display.show_navigation w))).nav = w.nav := by
  have e1 : (Display.show_screen ctx t w).nav = w.nav := rfl
  have e2 : (Display.show_navigation w).nav = w.nav := rfl
  have e3 : (Display.show_screen UI_SCREEN_NAVIGATION t3
      (Display.show_screen UI_SCREEN_INCOMING_CALL t2
        (Display.show_screen UI_SCREEN_NAVIGATION t1 w))).nav = w.nav := rfl
  exact ⟨e1, congrArg nav_view e1, e2, congrArg nav_view e2, e3, congrArg nav_view e3, rfl⟩

/-- Outside the states the program reaches the two can differ.  In the state
after boot with the navigation root (object 3) taken off the live list, which
no call of `ui_screens.cpp` produces, the two-phase activation rejects the
request and leaves `current_screen` at `UI_SCREEN_NONE` with no root loaded,
while `ui_show_navigation()` loads the root and sets `current_screen` to
Navigation. -/
theorem show_navigation_dead_root :
    ({ booted with live := [6, 5, 4, 2, 1] } : ScreenState).screen_navigation = some 3
    ∧ lv_obj_is_valid 3 { booted with live := [6, 5, 4, 2, 1] } = false
    ∧ (show_navigation_two_phase 0 { booted with live := [6, 5, 4, 2, 1] }).current_screen
        = UI_SCREEN_NONE
    ∧ (show_navigation_two_phase 0 { booted with live := [6, 5, 4, 2, 1] }).active = none
    ∧ (ui_show_navigation { booted with live := [6, 5, 4, 2, 1] }).current_screen
        = UI_SCREEN_NAVIGATION
    ∧ (ui_show_navigation { booted with live := [6, 5, 4, 2, 1] }).active = some 3 := by
  refine ⟨?_, ?_, ?_, ?_, ?_, ?_⟩ <;> decide

/-! ## Letter case -/

theorem lower_char_lower_char (c : Char) : lower_char (lower_char c) = lower_char c := by
  by_cases h : 'A' ≤ c ∧ c ≤ 'Z'
  · have h1 : 65 ≤ c.toNat := by
      have := Char.le_def.1 h.1; exact this
    have h2 : c.toNat ≤ 90 := by
      have := Char.le_def.1 h.2; exact this
    have hc : c = Char.ofNat c.toNat := (Char.ofNat_toNat c).symm
    generalize c.toNat = n at h1 h2 hc
    subst hc
    interval_cases n <;> decide
  · have hc : lower_char c = c := by unfold lower_char; rw [if_neg h]
    rw [hc, hc]

theorem lower_char_upper_char (c : Char) : lower_char (upper_char c) = lower_char c := by
  by_cases h : 'a' ≤ c ∧ c ≤ 'z'
  · have h1 : 97 ≤ c.toNat := by
      have := Char.le_def.1 h.1; exact this
    have h2 : c.toNat ≤ 122 := by
      have := Char.le_def.1 h.2; exact this
    have hc : c = Char.ofNat c.toNat := (Char.ofNat_toNat c).symm
    generalize c.toNat = n at h1 h2 hc
    subst hc
    interval_cases n <;> decide
  · have hc : upper_char c = c := by unfold upper_char; rw [if_neg h]
    rw [hc]

theorem dir_norm_map_lower (d : List Char) : dir_norm (d.map lower_char) = dir_norm d := by
  unfold dir_norm
  rw [← List.map_take, List.map_map]
  exact List.map_congr_left (fun c _ => lower_char_lower_char c)

theorem dir_norm_map_upper (d : List Char) : dir_norm (d.map upper_char) = dir_norm d := by
  unfold dir_norm
  rw [← List.map_take, List.map_map]
  exact List.map_congr_left (fun c _ => lower_char_upper_char c)

/-- The classifier reads a non-empty instruction through `dir_norm` only. -/
theorem update_arrow_image_congr (fm : FloatOps) (d e : List Char) (color : Nat) (s : NavState)
    (hd : d ≠ []) (he : e ≠ []) (h : dir_norm d = dir_norm e) :
    update_arrow_image fm (some d) color s = update_arrow_image fm (some e) color s := by
  obtain ⟨c, cs, rfl⟩ := List.exists_cons_of_ne_nil hd
  obtain ⟨c', cs', rfl⟩ := List.exists_cons_of_ne_nil he
  unfold update_arrow_image
  simp only []
  rw [h]

theorem update_arrow_image_map (fm : FloatOps) (f : Char → Char) (d : List Char) (color : Nat)
    (s : NavState) (h : dir_norm (d.map f) = dir_norm d) :
    update_arrow_image fm (some d) color s = update_arrow_image fm (some (d.map f)) color s := by
  cases d with
  | nil => rfl
  | cons c cs =>
    exact update_arrow_image_congr fm _ _ color s (List.cons_ne_nil _ _)
      (by simp) h.symm

/-- C21: classification is case-insensitive.  For every instruction `d`
(present, of any length, possibly empty), colour and state,
`update_arrow_image` ends in the same state, hence selects the same glyph with
the same visibility and colour, as for `d` with every ASCII capital lowered
and as for `d` with every ASCII small letter made a capital.  In particular
`TURN_LEFT`, `Turn_Left` and `turn_left` give the same result. -/
theorem classification_case_insensitive (fm : FloatOps) (d : List Char) (color : Nat)
    (s : NavState) :
    update_arrow_image fm (some d) color s
        = update_arrow_image fm (some (d.map lower_char)) color s
      ∧ update_arrow_image fm (some d) color s
        = update_arrow_image fm (some (d.map upper_char)) color s
      ∧ update_arrow_image fm (some "TURN_LEFT".toList) color s
        = update_arrow_image fm (some "turn_left".toList) color s
      ∧ update_arrow_image fm (some "Turn_Left".toList) color s
        = update_arrow_image fm (some "turn_left".toList) color s :=
  ⟨update_arrow_image_map fm lower_char d color s (dir_norm_map_lower d),
   update_arrow_image_map fm upper_char d color s (dir_norm_map_upper d),
   update_arrow_image_congr fm _ _ color s (by decide) (by decide) (by decide),
   update_arrow_image_congr fm _ _ color s (by decide) (by decide) (by decide)⟩

/-! ## U-turn spellings -/

/-- C22 as first stated fails: "u turn" written with a space has none of the
four U-turn tokens of `is_uturn`; on the created screen it takes no route, the
UTurn glyph is not drawn and every glyph part stays hidden. -/
theorem uturn_space_variant_fails :
    lines_exist (created fixedPoint)
      ∧ is_uturn (dir_norm "u turn".toList) = false
      ∧ route_of (some "u turn".toList) = Glyph.none
      ∧ update_arrow_image fixedPoint (some "u turn".toList) COLOR_ARROW_STRAIGHT
          (created fixedPoint)
        ≠ uturn_glyph fixedPoint "u turn".toList COLOR_ARROW_STRAIGHT (created fixedPoint)
      ∧ ¬ poly_heads_shown (update_arrow_image fixedPoint (some "u turn".toList)
          COLOR_ARROW_STRAIGHT (created fixedPoint))
      ∧ all_parts_hidden (update_arrow_image fixedPoint (some "u turn".toList)
          COLOR_ARROW_STRAIGHT (created fixedPoint)) := by
  refine ⟨?_, ?_, ?_, ?_, ?_, ?_⟩ <;> decide

/-- C22, amended.  With the four line objects present: each of the instructions
"uturn", "u_turn" and "u-turn" makes `update_arrow_image` select the UTurn
glyph (polyline, shaft and both heads shown); the spelling with a space,
"u turn", is not a U-turn token: it selects no glyph and leaves every glyph
part hidden. -/
theorem uturn_spelling_variants (fm : FloatOps) (color : Nat) (s : NavState)
    (hs : lines_exist s) :
    (∀ d ∈ ["uturn", "u_turn", "u-turn"],
        update_arrow_image fm (some d.toList) color s = uturn_glyph fm d.toList color s
          ∧ poly_heads_shown (update_arrow_image fm (some d.toList) color s))
      ∧ update_arrow_image fm (some "u turn".toList) color s = reset_arrows color s
      ∧ all_parts_hidden (update_arrow_image fm (some "u turn".toList) color s) := by
  have key : ∀ d : List Char, route_of (some d) = Glyph.uturn →
      update_arrow_image fm (some d) color s = uturn_glyph fm d color s
        ∧ poly_heads_shown (update_arrow_image fm (some d) color s) := by
    intro d h
    have e : update_arrow_image fm (some d) color s = uturn_glyph fm d color s := by
      rw [update_arrow_image_eq_draw fm _ color s hs, h]; rfl
    exact ⟨e, e ▸ uturn_glyph_shown fm d color s hs⟩
  have blank : update_arrow_image fm (some "u turn".toList) color s = reset_arrows color s := by
    rw [update_arrow_image_eq_draw fm _ color s hs]
    have h : route_of (some "u turn".toList) = Glyph.none := by decide
    rw [h]; rfl
  refine ⟨?_, blank, blank ▸ reset_arrows_hidden color s⟩
  intro d hd
  simp only [List.mem_cons, List.mem_singleton, List.not_mem_nil, or_false] at hd
  rcases hd with rfl | rfl | rfl
  · exact key _ (by decide)
  · exact key _ (by decide)
  · exact key _ (by decide)

/-- C22, witness: the created screen. -/
theorem uturn_spelling_variants_witness :
    lines_exist (created fixedPoint)
      ∧ (∀ d ∈ ["uturn", "u_turn", "u-turn"],
          update_arrow_image fixedPoint (some d.toList) COLOR_ARROW_STRAIGHT (created fixedPoint)
            = uturn_glyph fixedPoint d.toList COLOR_ARROW_STRAIGHT (created fixedPoint)
          ∧ poly_heads_shown (update_arrow_image fixedPoint (some d.toList)
              COLOR_ARROW_STRAIGHT (created fixedPoint)))
      ∧ update_arrow_image fixedPoint (some "u turn".toList) COLOR_ARROW_STRAIGHT
          (created fixedPoint) = reset_arrows COLOR_ARROW_STRAIGHT (created fixedPoint)
      ∧ all_parts_hidden (update_arrow_image fixedPoint (some "u turn".toList)
          COLOR_ARROW_STRAIGHT (created fixedPoint)) :=
  ⟨by decide,
    uturn_spelling_variants fixedPoint COLOR_ARROW_STRAIGHT (created fixedPoint) (by decide)⟩

/-! ## Geometry of the builders -/

/-- C23, the code at the left variant: `set_arrow_points_left_right(false)`
writes the shaft from (141,130) to (21,130), the right variant's shaft
(21,130) to (141,130) with its ends swapped, whereas the mirror image of the
right shaft about `x = 86` runs from (151,130) to (31,130).  Both head
segments of the left variant are the mirror images of the right ones. -/
theorem left_turn_shaft_not_mirrored (s : NavState) :
    (set_arrow_points_left_right true s).pts_shaft = [⟨21, 130⟩, ⟨141, 130⟩]
      ∧ (set_arrow_points_left_right false s).pts_shaft = [⟨141, 130⟩, ⟨21, 130⟩]
      ∧ (set_arrow_points_left_right true s).pts_shaft.map mirror = [⟨151, 130⟩, ⟨31, 130⟩]
      ∧ (set_arrow_points_left_right false s).pts_shaft
          ≠ (set_arrow_points_left_right true s).pts_shaft.map mirror
      ∧ (set_arrow_points_left_right false s).pts_head1
          = (set_arrow_points_left_right true s).pts_head1.map mirror
      ∧ (set_arrow_points_left_right false s).pts_head2
          = (set_arrow_points_left_right true s).pts_head2.map mirror := by
  refine ⟨rfl, rfl, rfl, ?_, rfl, rfl⟩
  show ([⟨141, 130⟩, ⟨21, 130⟩] : List lv_point_t) ≠ [⟨151, 130⟩, ⟨31, 130⟩]
  decide

/-- Apart from the U-turn head wings, the integer points of the builders are
inside the canvas: straight, left/right, keep (with its tick), the U-turn stem,
exit leg and head shaft, the slight and sharp polylines, the roundabout exit
tick for every `exit_dir`, and the destination flag. -/
theorem glyph_points_in_canvas (fm : FloatOps) (s : NavState) :
    (∀ p ∈ (set_arrow_points_straight s).pts_shaft ++ (set_arrow_points_straight s).pts_head1
        ++ (set_arrow_points_straight s).pts_head2, in_canvas p)
      ∧ (∀ r, ∀ p ∈ (set_arrow_points_left_right r s).pts_shaft
        ++ (set_arrow_points_left_right r s).pts_head1
        ++ (set_arrow_points_left_right r s).pts_head2, in_canvas p)
      ∧ (∀ r, ∀ p ∈ (set_arrow_points_keep r s).pts_shaft ++ (set_arrow_points_keep r s).pts_head1
        ++ (set_arrow_points_keep r s).pts_head2 ++ (set_arrow_points_keep r s).pts_poly.take 2,
        in_canvas p)
      ∧ (∀ l, ∀ p ∈ (set_arrow_points_uturn fm l s).pts_poly.take 2
        ++ ((set_arrow_points_uturn fm l s).pts_poly.drop 10).take 1
        ++ (set_arrow_points_uturn fm l s).pts_shaft, in_canvas p)
      ∧ (∀ r, ∀ p ∈ (set_arrow_points_slight fm r s).pts_poly.take 3, in_canvas p)
      ∧ (∀ r, ∀ p ∈ (set_arrow_points_sharp fm r s).pts_poly.take 4, in_canvas p)
      ∧ (∀ e, ∀ p ∈ (set_arrow_points_roundabout fm e s).pts_shaft
        ++ (set_arrow_points_roundabout fm e s).pts_head1
        ++ (set_arrow_points_roundabout fm e s).pts_head2, in_canvas p)
      ∧ (∀ p ∈ (set_flag_symbol s).pts_flag_pole ++ (set_flag_symbol s).pts_flag_head,
        in_canvas p) := by
  refine ⟨?_, ?_, ?_, ?_, ?_, ?_, ?_, ?_⟩
  · show ∀ p ∈ ([⟨86, 180⟩, ⟨86, 85⟩, ⟨71, 85⟩, ⟨86, 70⟩, ⟨101, 85⟩, ⟨86, 70⟩] :
      List lv_point_t), in_canvas p
    decide
  · intro r
    cases r
    · show ∀ p ∈ ([⟨141, 130⟩, ⟨21, 130⟩, ⟨41, 115⟩, ⟨23, 130⟩, ⟨41, 145⟩, ⟨23, 130⟩] :
        List lv_point_t), in_canvas p
      decide
    · show ∀ p ∈ ([⟨21, 130⟩, ⟨141, 130⟩, ⟨131, 115⟩, ⟨149, 130⟩, ⟨131, 145⟩, ⟨149, 130⟩] :
        List lv_point_t), in_canvas p
      decide
  · intro r
    cases r
    · show ∀ p ∈ ([⟨86, 190⟩, ⟨86, 82⟩, ⟨71, 97⟩, ⟨86, 82⟩, ⟨101, 97⟩, ⟨86, 82⟩, ⟨86, 112⟩,
        ⟨62, 96⟩] : List lv_point_t), in_canvas p
      decide
    · show ∀ p ∈ ([⟨86, 190⟩, ⟨86, 82⟩, ⟨71, 97⟩, ⟨86, 82⟩, ⟨101, 97⟩, ⟨86, 82⟩, ⟨86, 112⟩,
        ⟨110, 96⟩] : List lv_point_t), in_canvas p
      decide
  · intro l
    cases l
    · show ∀ p ∈ ([⟨86, 190⟩, ⟨86, 155⟩, ⟨166, 175⟩, ⟨166, 160⟩, ⟨166, 175⟩] :
        List lv_point_t), in_canvas p
      decide
    · show ∀ p ∈ ([⟨86, 190⟩, ⟨86, 155⟩, ⟨6, 175⟩, ⟨6, 160⟩, ⟨6, 175⟩] :
        List lv_point_t), in_canvas p
      decide
  · intro r
    cases r
    · show ∀ p ∈ ([⟨86, 190⟩, ⟨56, 150⟩, ⟨41, 100⟩] : List lv_point_t), in_canvas p
      decide
    · show ∀ p ∈ ([⟨86, 190⟩, ⟨116, 150⟩, ⟨131, 100⟩] : List lv_point_t), in_canvas p
      decide
  · intro r
    cases r
    · show ∀ p ∈ ([⟨86, 190⟩, ⟨86, 140⟩, ⟨46, 140⟩, ⟨46, 100⟩] : List lv_point_t), in_canvas p
      decide
    · show ∀ p ∈ ([⟨86, 190⟩, ⟨86, 140⟩, ⟨126, 140⟩, ⟨126, 100⟩] : List lv_point_t),
        in_canvas p
      decide
  · intro e
    rcases lt_trichotomy e 0 with h | h | h
    · have h0 : e ≠ 0 := ne_of_lt h
      simp only [set_arrow_points_roundabout, if_neg h0, if_pos h]
      show ∀ p ∈ ([⟨46, 130⟩, ⟨31, 130⟩, ⟨41, 122⟩, ⟨31, 130⟩, ⟨41, 138⟩, ⟨31, 130⟩] :
        List lv_point_t), in_canvas p
      decide
    · subst h
      show ∀ p ∈ ([⟨86, 90⟩, ⟨86, 75⟩, ⟨78, 85⟩, ⟨86, 75⟩, ⟨94, 85⟩, ⟨86, 75⟩] :
        List lv_point_t), in_canvas p
      decide
    · have h0 : e ≠ 0 := ne_of_gt h
      have h1 : ¬ e < 0 := not_lt.2 (le_of_lt h)
      simp only [set_arrow_points_roundabout, if_neg h0, if_neg h1]
      show ∀ p ∈ ([⟨126, 130⟩, ⟨141, 130⟩, ⟨131, 122⟩, ⟨141, 130⟩, ⟨131, 138⟩, ⟨141, 130⟩] :
        List lv_point_t), in_canvas p
      decide
  · show ∀ p ∈ ([⟨58, 165⟩, ⟨58, 99⟩, ⟨58, 99⟩, ⟨58, 123⟩, ⟨94, 111⟩] : List lv_point_t),
      in_canvas p
    decide

/-- C24, the code at the U-turn arrowhead: `set_arrow_points_uturn(false)`, the
only call `update_arrow_image` makes, writes the wing point (176,168) to
`pts_head2`, right of the last display column 171; `set_arrow_points_uturn(true)`
writes the wing point (-4,168) to `pts_head1`, left of column 0.  Neither point
is inside the canvas. -/
theorem uturn_head_outside_canvas (fm : FloatOps) (s : NavState) :
    (set_arrow_points_uturn fm false s).pts_head2 = [⟨176, 168⟩, ⟨166, 175⟩]
      ∧ ¬ in_canvas ⟨176, 168⟩
      ∧ (set_arrow_points_uturn fm true s).pts_head1 = [⟨-4, 168⟩, ⟨6, 175⟩]
      ∧ ¬ in_canvas ⟨-4, 168⟩ :=
  ⟨rfl, by decide, rfl, by decide⟩

/-- The Slight builder in terms of its polyline, its head vector and `head_at`. -/
theorem set_arrow_points_slight_parts (fm : FloatOps) (r : Bool) (s : NavState) :
    (set_arrow_points_slight fm r s).pts_poly.take 3 = slight_polyline r
      ∧ [(set_arrow_points_slight fm r s).pts_shaft, (set_arrow_points_slight fm r s).pts_head1,
          (set_arrow_points_slight fm r s).pts_head2]
        = head_at fm 17 (if r then 131 else 41) 100
            (fm.atan2f (fm.ofInt (slight_head_vector r).1) (fm.ofInt (slight_head_vector r).2)) := by
  cases r <;> exact ⟨rfl, rfl⟩

/-- The Sharp builder in terms of its polyline, its head vector and `head_at`. -/
theorem set_arrow_points_sharp_parts (fm : FloatOps) (r : Bool) (s : NavState) :
    (set_arrow_points_sharp fm r s).pts_poly.take 4 = sharp_polyline r
      ∧ [(set_arrow_points_sharp fm r s).pts_shaft, (set_arrow_points_sharp fm r s).pts_head1,
          (set_arrow_points_sharp fm r s).pts_head2]
        = head_at fm 12 (if r then 126 else 46) 100
            (fm.atan2f (fm.ofInt (sharp_head_vector r).1) (fm.ofInt (sharp_head_vector r).2)) := by
  cases r <;> exact ⟨rfl, rfl⟩

/-- C25 as first stated fails for Sharp: the polyline of `set_arrow_points_sharp(true)`
ends with the vertical segment (126,140) to (126,100), of direction
`(dy, dx) = (-40, 0)`, but `atan2f` is given `(-40, 40)`; likewise `(-40, -40)`
for the left variant. -/
theorem sharp_head_not_final_segment :
    (set_arrow_points_sharp fixedPoint true NavState.init).pts_poly.take 4
        = [⟨86, 190⟩, ⟨86, 140⟩, ⟨126, 140⟩, ⟨126, 100⟩]
      ∧ (set_arrow_points_sharp fixedPoint true NavState.init).pts_poly.take 4
        = sharp_polyline true
      ∧ segment_vector ⟨126, 140⟩ ⟨126, 100⟩ = (-40, 0)
      ∧ sharp_head_vector true = (-40, 40)
      ∧ sharp_head_vector true ≠ segment_vector ⟨126, 140⟩ ⟨126, 100⟩
      ∧ sharp_polyline false = [⟨86, 190⟩, ⟨86, 140⟩, ⟨46, 140⟩, ⟨46, 100⟩]
      ∧ sharp_head_vector false = (-40, -40)
      ∧ sharp_head_vector false ≠ segment_vector ⟨46, 140⟩ ⟨46, 100⟩ := by
  refine ⟨?_, ?_, ?_, ?_, ?_, ?_, ?_, ?_⟩ <;> decide

/-- C25, amended.  In both orientations: the Slight builder writes the polyline
`p0, p1, p2` and passes to `atan2f` the vector `p2 - p1` of the final segment;
the Sharp builder writes the polyline `p0, p1, p2, p3` and passes to `atan2f`
the vector `p3 - p1` from the first corner to the tip (a diagonal,
`(-40, 40)` or `(-40, -40)`), not the vector `p3 - p2` of the final segment.
In both builders the three head segments are drawn at the tip for that
angle. -/
theorem head_direction_vectors (fm : FloatOps) (r : Bool) (s : NavState) :
    (∃ p0 p1 p2, (set_arrow_points_slight fm r s).pts_poly.take 3 = [p0, p1, p2]
        ∧ slight_head_vector r = segment_vector p1 p2
        ∧ [(set_arrow_points_slight fm r s).pts_shaft,
            (set_arrow_points_slight fm r s).pts_head1,
            (set_arrow_points_slight fm r s).pts_head2]
          = head_at fm 17 p2.x p2.y (fm.atan2f (fm.ofInt (slight_head_vector r).1)
              (fm.ofInt (slight_head_vector r).2)))
      ∧ (∃ p0 p1 p2 p3, (set_arrow_points_sharp fm r s).pts_poly.take 4 = [p0, p1, p2, p3]
        ∧ sharp_head_vector r = segment_vector p1 p3
        ∧ sharp_head_vector r ≠ segment_vector p2 p3
        ∧ [(set_arrow_points_sharp fm r s).pts_shaft,
            (set_arrow_points_sharp fm r s).pts_head1,
            (set_arrow_points_sharp fm r s).pts_head2]
          = head_at fm 12 p3.x p3.y (fm.atan2f (fm.ofInt (sharp_head_vector r).1)
              (fm.ofInt (sharp_head_vector r).2))) := by
  cases r
  · exact ⟨⟨⟨86, 190⟩, ⟨56, 150⟩, ⟨41, 100⟩, rfl, by decide, rfl⟩,
      ⟨⟨86, 190⟩, ⟨86, 140⟩, ⟨46, 140⟩, ⟨46, 100⟩, rfl, by decide, by decide, rfl⟩⟩
  · exact ⟨⟨⟨86, 190⟩, ⟨116, 150⟩, ⟨131, 100⟩, rfl, by decide, rfl⟩,
      ⟨⟨86, 190⟩, ⟨86, 140⟩, ⟨126, 140⟩, ⟨126, 100⟩, rfl, by decide, by decide, rfl⟩⟩

/-! ## The keep disjunct of the Slight tests -/

/-- Once the two Keep tests have failed, the keep disjunct adds nothing to a
Slight test. -/
theorem slight_test_without_keep (k sl lat r l : Bool) (hr : (k && r) = false)
    (hl : (k && l) = false) (hlat : lat = r ∨ lat = l) :
    ((sl || k) && lat) = (sl && lat) := by
  rcases hlat with rfl | rfl <;> cases k <;> cases sl <;> cases lat <;> simp_all

theorem update_arrow_image_slight_only_eq (fm : FloatOps) (dir : Option (List Char))
    (color : Nat) (s : NavState) :
    update_arrow_image_slight_only fm dir color s = update_arrow_image fm dir color s := by
  cases dir with
  | none => rfl
  | some d =>
    cases d with
    | nil => rfl
    | cons c cs =>
      unfold update_arrow_image update_arrow_image_slight_only
      simp only []
      generalize dir_norm (c :: cs) = n
      by_cases g : (s.line_shaft.isNone || s.line_head1.isNone || s.line_head2.isNone
          || s.line_poly.isNone) = true
      · rw [if_pos g, if_pos g]
      · rw [if_neg g, if_neg g]
        by_cases c1 : is_uturn n = true
        · rw [if_pos c1, if_pos c1]
        rw [if_neg c1, if_neg c1]
        by_cases c2 : (is_keep n && is_right n) = true
        · rw [if_pos c2, if_pos c2]
        rw [if_neg c2, if_neg c2]
        by_cases c3 : (is_keep n && is_left n) = true
        · rw [if_pos c3, if_pos c3]
        rw [if_neg c3, if_neg c3]
        rw [slight_test_without_keep (is_keep n) (is_slight n) (is_right n) (is_right n)
            (is_left n) (Bool.eq_false_iff.2 c2) (Bool.eq_false_iff.2 c3) (Or.inl rfl),
          slight_test_without_keep (is_keep n) (is_slight n) (is_left n) (is_right n)
            (is_left n) (Bool.eq_false_iff.2 c2) (Bool.eq_false_iff.2 c3) (Or.inr rfl)]

/-- An instruction with a keep token never takes a Slight line of the routing
chain. -/
theorem route_keep_ne_slight (n : List Char) (hk : is_keep n = true) (b : Bool) :
    route n ≠ Glyph.slight b := by
  unfold route
  rw [hk]
  cases is_uturn n <;> cases is_right n <;> cases is_left n <;> cases is_sharp n <;>
    cases is_round n <;> cases is_dest n <;> cases is_straight n <;> simp

theorem part_shown_not_hidden (o : Option LineObj) (h1 : part_shown o = true)
    (h2 : part_hidden o = true) : False := by
  cases o with
  | none => simp [part_shown] at h1
  | some l => simp [part_shown, part_hidden] at h1 h2; rw [h2] at h1; exact Bool.noConfusion h1

/-- The polyline (hidden flag and point count) tells the Slight glyph from the
state every other route leaves. -/
theorem draw_ne_slight_glyph (fm : FloatOps) (g : Glyph) (d : List Char) (color : Nat)
    (s : NavState) (b : Bool) (hs : lines_exist s) (hg : ∀ r, g ≠ Glyph.slight r) :
    draw fm g d color s ≠ slight_glyph fm b d color s := by
  obtain ⟨a, b', c, e, h1, h2, h3, h4⟩ := lines_exist_some hs
  intro h0
  have shown : part_shown (slight_glyph fm b d color s).line_poly = true :=
    (slight_glyph_shown fm b d color s hs).2.2.2.1
  have h := congrArg (fun t => t.line_poly.map LineObj.point_num) h0
  cases g with
  | slight r => exact hg r rfl
  | uturn =>
    simp [draw, uturn_glyph, slight_glyph, ARROW_COLOR, show_poly_with_heads,
      set_arrow_points_uturn, set_arrow_points_slight, reset_arrows, hide_all_arrows,
      add_hidden, clear_hidden, set_line_color, set_points, h4] at h
  | keep r => exact keep_glyph_ne_slight fm r b d color s hs h0
  | sharp r =>
    simp [draw, sharp_glyph, slight_glyph, ARROW_COLOR, show_poly_with_heads,
      set_arrow_points_sharp, set_arrow_points_slight, reset_arrows, hide_all_arrows,
      add_hidden, clear_hidden, set_line_color, set_points, h4] at h
  | roundabout x =>
    simp [draw, roundabout_glyph, slight_glyph, ARROW_COLOR, show_poly_with_heads,
      set_arrow_points_roundabout, set_arrow_points_slight, reset_arrows, hide_all_arrows,
      add_hidden, clear_hidden, set_line_color, set_points, h4] at h
  | turn r =>
    rw [← h0] at shown
    exact part_shown_not_hidden _ shown (turn_glyph_shown r d color s hs).2.2.2.1
  | destination =>
    rw [← h0] at shown
    exact part_shown_not_hidden _ shown (destination_glyph_shown color s hs).2.2.2.2.2
  | straight =>
    rw [← h0] at shown
    exact part_shown_not_hidden _ shown (straight_glyph_shown d color s hs).2.2.2.1
  | none =>
    rw [← h0] at shown
    exact part_shown_not_hidden _ shown (reset_arrows_hidden color s).2.2.2.1

/-- C26.  The keep disjunct of the two Slight tests is dead: the classifier
`update_arrow_image_slight_only`, which tests `is_slight` where
`update_arrow_image` tests `(is_slight || is_keep)`, ends in the same state as
`update_arrow_image` for every instruction (null, empty or not), colour and
state.  And no instruction whose normalised text has a keep token ("keep_",
"keep ", "bear_", "bear ") takes a Slight line of the routing chain or, with
the four line objects present, ends in the state of a Slight glyph. -/
theorem slight_keep_disjunct_dead (fm : FloatOps) (dir : Option (List Char)) (color : Nat)
    (s : NavState) :
    update_arrow_image_slight_only fm dir color s = update_arrow_image fm dir color s
      ∧ ∀ d : List Char,
          (has (dir_norm d) "keep_" ∨ has (dir_norm d) "keep " ∨ has (dir_norm d) "bear_"
            ∨ has (dir_norm d) "bear ") →
          ∀ b, route_of (some d) ≠ Glyph.slight b
            ∧ (lines_exist s →
                update_arrow_image fm (some d) color s ≠ slight_glyph fm b d color s) := by
  refine ⟨update_arrow_image_slight_only_eq fm dir color s, ?_⟩
  intro d hk b
  have hK : is_keep (dir_norm d) = true := (is_keep_iff _).2 hk
  have hd : d ≠ [] := by
    rintro rfl
    revert hK
    decide
  have hr : ∀ r, route_of (some d) ≠ Glyph.slight r := fun r => by
    rw [route_of_cons d hd]
    exact route_keep_ne_slight _ hK r
  refine ⟨hr b, fun hs => ?_⟩
  rw [update_arrow_image_eq_draw fm _ color s hs]
  exact draw_ne_slight_glyph fm _ d color s b hs hr

/-- C26, witness: "keep_slight_left" on the created screen takes the KeepLeft
line, not a Slight one. -/
theorem slight_keep_disjunct_dead_witness :
    (has (dir_norm "keep_slight_left".toList) "keep_"
        ∨ has (dir_norm "keep_slight_left".toList) "keep "
        ∨ has (dir_norm "keep_slight_left".toList) "bear_"
        ∨ has (dir_norm "keep_slight_left".toList) "bear ")
      ∧ lines_exist (created fixedPoint)
      ∧ route_of (some "keep_slight_left".toList) ≠ Glyph.slight false
      ∧ update_arrow_image fixedPoint (some "keep_slight_left".toList) COLOR_ARROW_STRAIGHT
          (created fixedPoint)
        ≠ slight_glyph fixedPoint false "keep_slight_left".toList COLOR_ARROW_STRAIGHT
            (created fixedPoint) :=
  ⟨by decide, by decide,
    ((slight_keep_disjunct_dead fixedPoint none COLOR_ARROW_STRAIGHT (created fixedPoint)).2
      "keep_slight_left".toList (by decide) false).1,
    ((slight_keep_disjunct_dead fixedPoint none COLOR_ARROW_STRAIGHT (created fixedPoint)).2
      "keep_slight_left".toList (by decide) false).2 (by decide)⟩

/-! ## Laterality tie-break -/

/-- The token "destination_reached" (19 characters) never occurs in the
15-character copy `dir_lower`. -/
theorem dir_lower_never_destination_reached (d : List Char) :
    strstr (dir_lower d) "destination_reached".toList = false := by
  apply eq_false_of_not (strstr_iff_has _ "destination_reached")
  intro h
  have h1 := List.IsInfix.length_le h
  have h2 : (dir_lower d).length ≤ 15 := by
    simp only [dir_lower, List.length_map, List.length_take]
    exact Nat.min_le_left _ _
  have h3 : "destination_reached".toList.length = 19 := by decide
  omega

/-- When the 15-character lowered copy itself has a slight token and none of
the destination and sharp tokens, the colour is `COLOR_ARROW_SLIGHT`. -/
theorem arrow_color_slight_within_copy (d : List Char)
    (hs : ∃ tok ∈ ["slight_left", "slight_right", "slight-left", "slight-right"],
      has (dir_lower d) tok)
    (hn : ∀ tok ∈ ["destination", "arrived", "sharp_left", "sharp_right", "sharp-left",
      "sharp-right"], ¬ has (dir_lower d) tok) :
    ui_theme_get_arrow_color (some d) = COLOR_ARROW_SLIGHT := by
  have f : ∀ tok ∈ ["destination", "arrived", "sharp_left", "sharp_right", "sharp-left",
      "sharp-right"], strstr (dir_lower d) tok.toList = false := fun tok hm =>
    eq_false_of_not (strstr_iff_has _ tok) (hn tok hm)
  have d1 := f "destination" (by simp)
  have d2 := f "arrived" (by simp)
  have d3 := dir_lower_never_destination_reached d
  have s1 := f "sharp_left" (by simp)
  have s2 := f "sharp_right" (by simp)
  have s3 := f "sharp-left" (by simp)
  have s4 := f "sharp-right" (by simp)
  have g : (strstr (dir_lower d) "slight_left".toList
      || strstr (dir_lower d) "slight_right".toList
      || strstr (dir_lower d) "slight-left".toList
      || strstr (dir_lower d) "slight-right".toList) = true := by
    obtain ⟨tok, hm, h⟩ := hs
    have h := (strstr_iff_has _ tok).2 h
    simp only [List.mem_cons, List.mem_singleton, List.not_mem_nil, or_false] at hm
    rcases hm with rfl | rfl | rfl | rfl <;> (rw [h]; simp)
  unfold ui_theme_get_arrow_color
  simp only []
  rw [d1, d2, d3, s1, s2, s3, s4, g]
  rfl

/-- C27, the code at "turn_slight_right": the text has the token
"slight_right" and none of the destination and sharp tokens, but the copy
`dir_lower[16]` keeps only "turn_slight_rig", in which no token of the chain
occurs, and `ui_theme_get_arrow_color` returns `COLOR_ARROW_STRAIGHT`
(0x07E0), not `COLOR_ARROW_SLIGHT` (0x07FF).  The same text without the
leading "turn_" fits the copy and gets `COLOR_ARROW_SLIGHT`. -/
theorem arrow_color_truncated_copy :
    has ("turn_slight_right".toList.map lower_char) "slight_right"
      ∧ (∀ tok ∈ ["destination", "arrived", "sharp_left", "sharp_right", "sharp-left",
          "sharp-right"], ¬ has ("turn_slight_right".toList.map lower_char) tok)
      ∧ dir_lower "turn_slight_right".toList = "turn_slight_rig".toList
      ∧ ui_theme_get_arrow_color (some "turn_slight_right".toList) = COLOR_ARROW_STRAIGHT
      ∧ ui_theme_get_arrow_color (some "turn_slight_right".toList) = 0x07E0
      ∧ COLOR_ARROW_SLIGHT = 0x07FF
      ∧ ui_theme_get_arrow_color (some "turn_slight_right".toList) ≠ COLOR_ARROW_SLIGHT
      ∧ ui_theme_get_arrow_color (some "slight_right".toList) = COLOR_ARROW_SLIGHT := by
  refine ⟨?_, ?_, ?_, ?_, ?_, ?_, ?_, ?_⟩ <;> decide

/-! ## The instruction cache -/

/-- C28, the code at `a = "after_the_bridge_you_will_turn_left"` (35
characters) and `b = "after_the_bridge_you_will_turn_"` (its first 31
characters, with no token): after `update_direction(a)` on the created screen
the cache `current_direction` holds `b`, so `update_direction(b)` returns at
the `strcmp` test and the TurnLeft glyph of `a` stays on screen, whereas
`update_arrow_image` for `b` shows no glyph part, from the created state and
from the state after `a` alike. -/
theorem direction_cache_false_hit :
    "after_the_bridge_you_will_turn_left".toList ≠ []
      ∧ "after_the_bridge_you_will_turn_".toList ≠ []
      ∧ "after_the_bridge_you_will_turn_left".toList.take 31
          = "after_the_bridge_you_will_turn_".toList
      ∧ (ui_navigation_screen_update_direction fixedPoint
            (some "after_the_bridge_you_will_turn_left".toList) true
            (created fixedPoint)).current_direction
          = "after_the_bridge_you_will_turn_".toList
      ∧ ui_navigation_screen_update_direction fixedPoint
            (some "after_the_bridge_you_will_turn_".toList) true
            (ui_navigation_screen_update_direction fixedPoint
              (some "after_the_bridge_you_will_turn_left".toList) true (created fixedPoint))
          = ui_navigation_screen_update_direction fixedPoint
              (some "after_the_bridge_you_will_turn_left".toList) true (created fixedPoint)
      ∧ drawing (ui_navigation_screen_update_direction fixedPoint
            (some "after_the_bridge_you_will_turn_".toList) true
            (ui_navigation_screen_update_direction fixedPoint
              (some "after_the_bridge_you_will_turn_left".toList) true (created fixedPoint)))
          = { shaft := some [⟨141, 130⟩, ⟨21, 130⟩]
              head1 := some [⟨41, 115⟩, ⟨23, 130⟩]
              head2 := some [⟨41, 145⟩, ⟨23, 130⟩]
              poly := Option.none, flag_pole := Option.none, flag_triangle := Option.none }
      ∧ drawing (update_arrow_image fixedPoint (some "after_the_bridge_you_will_turn_".toList)
            COLOR_ARROW_STRAIGHT (created fixedPoint))
          = { shaft := Option.none, head1 := Option.none, head2 := Option.none
              poly := Option.none, flag_pole := Option.none, flag_triangle := Option.none }
      ∧ drawing (update_arrow_image fixedPoint (some "after_the_bridge_you_will_turn_".toList)
            COLOR_ARROW_STRAIGHT
            (ui_navigation_screen_update_direction fixedPoint
              (some "after_the_bridge_you_will_turn_left".toList) true (created fixedPoint)))
          = { shaft := Option.none, head1 := Option.none, head2 := Option.none
              poly := Option.none, flag_pole := Option.none, flag_triangle := Option.none }
      ∧ drawing (ui_navigation_screen_update_direction fixedPoint
            (some "after_the_bridge_you_will_turn_".toList) true
            (ui_navigation_screen_update_direction fixedPoint
              (some "after_the_bridge_you_will_turn_left".toList) true (created fixedPoint)))
          ≠ drawing (update_arrow_image fixedPoint
              (some "after_the_bridge_you_will_turn_".toList) COLOR_ARROW_STRAIGHT
              (created fixedPoint)) := by
  refine ⟨?_, ?_, ?_, ?_, ?_, ?_, ?_, ?_, ?_⟩ <;> decide

/-! ## Call screens -/

/-- With every widget valid, a non-empty name is shown with its first
character as the avatar initial. -/
theorem incoming_update_named (c : Char) (cs : List Char) (number : Option (List Char))
    (s : IncomingCallState) (hv : incoming_widgets_valid s) :
    shown_name (ui_incoming_call_screen_update (some (c :: cs)) number s).label_name
        = some (c :: cs)
      ∧ shown_initial (ui_incoming_call_screen_update (some (c :: cs)) number s).img_avatar
        = some [c] := by
  obtain ⟨⟨l, h1, v1⟩, ⟨m, h2, v2⟩, av, ch, h3, v3, h4, v4⟩ := hv
  have e : set_avatar_initial c s.img_avatar
      = some { av with child := some { ch with text := [c] } } := by
    simp [set_avatar_initial, h3, v3, h4, v4]
  rcases number with _ | _ | ⟨x, xs⟩
  · simp [ui_incoming_call_screen_update, shown_name, shown_initial, h1, v1, h2, v2, e]
  · simp [ui_incoming_call_screen_update, shown_name, shown_initial, h1, v1, h2, v2, e]
  · simp only [ui_incoming_call_screen_update, h1, v1, h2, v2, e, if_true]
    split_ifs <;> simp [shown_name, shown_initial]

/-- Straight after `create`, a null or empty name is shown as "Unknown" with
the placeholder "?" of `create`. -/
theorem incoming_update_unnamed_after_create :
    (∀ name ∈ [Option.none, some []], ∀ number,
      shown_name (ui_incoming_call_screen_update name number
          (ui_incoming_call_screen_create (some 1) IncomingCallState.init)).label_name
        = some "Unknown".toList
      ∧ shown_initial (ui_incoming_call_screen_update name number
          (ui_incoming_call_screen_create (some 1) IncomingCallState.init)).img_avatar
        = some "?".toList) := by
  intro name hm number
  simp only [List.mem_cons, List.mem_singleton, List.not_mem_nil, or_false] at hm
  rcases hm with rfl | rfl <;> rcases number with _ | _ | ⟨x, xs⟩ <;>
    simp [ui_incoming_call_screen_update, ui_incoming_call_screen_create, shown_name,
      shown_initial] <;> split <;> simp

/-- C30, the code after a named caller: on the created incoming call screen,
`update("Alice", "123")` followed by `update(NULL, NULL)` or by
`update("", "")` shows the name "Unknown" with the avatar initial "A" of the
previous caller, not "?"; the branch that writes "Unknown" does not touch the
avatar.  The outgoing call screen does the same. -/
theorem stale_avatar_initial :
    incoming_widgets_valid (ui_incoming_call_screen_update (some "Alice".toList)
        (some "123".toList) (ui_incoming_call_screen_create (some 1) IncomingCallState.init))
      ∧ shown_name (ui_incoming_call_screen_update Option.none Option.none
          (ui_incoming_call_screen_update (some "Alice".toList) (some "123".toList)
            (ui_incoming_call_screen_create (some 1) IncomingCallState.init))).label_name
        = some "Unknown".toList
      ∧ shown_initial (ui_incoming_call_screen_update Option.none Option.none
          (ui_incoming_call_screen_update (some "Alice".toList) (some "123".toList)
            (ui_incoming_call_screen_create (some 1) IncomingCallState.init))).img_avatar
        = some "A".toList
      ∧ shown_initial (ui_incoming_call_screen_update (some []) (some [])
          (ui_incoming_call_screen_update (some "Alice".toList) (some "123".toList)
            (ui_incoming_call_screen_create (some 1) IncomingCallState.init))).img_avatar
        = some "A".toList
      ∧ shown_name (ui_outgoing_call_screen_update Option.none
          (ui_outgoing_call_screen_update (some "Alice".toList)
            (ui_outgoing_call_screen_create (some 1) OutgoingCallState.init))).label_name
        = some "Unknown".toList
      ∧ shown_initial (ui_outgoing_call_screen_update Option.none
          (ui_outgoing_call_screen_update (some "Alice".toList)
            (ui_outgoing_call_screen_create (some 1) OutgoingCallState.init))).img_avatar
        = some "A".toList := by
  refine ⟨?_, ?_, ?_, ?_, ?_, ?_⟩
  · exact ⟨⟨_, rfl, rfl⟩, ⟨_, rfl, rfl⟩, _, _, rfl, rfl, rfl, rfl⟩
  all_goals decide

theorem part_points_add_hidden (o : Option LineObj) (arr : List lv_point_t) :
    part_points (add_hidden o) arr = Option.none := by
  cases o <;> simp [part_points, add_hidden]

theorem part_points_set_line_color (c : Nat) (o : Option LineObj) (arr : List lv_point_t) :
    part_points (set_line_color c o) arr = part_points o arr := by
  cases o <;> simp [part_points, set_line_color]

theorem part_points_clear_hidden (o : Option LineObj) (arr : List lv_point_t) :
    part_points (clear_hidden o) arr = o.map fun l => arr.take l.point_num := by
  cases o <;> simp [part_points, clear_hidden]

/-- What a route draws does not depend on the state it starts from, nor on the
colour. -/
theorem drawing_draw (fm : FloatOps) (g : Glyph) (d d' : List Char) (color color' : Nat)
    (s s' : NavState) (hs : lines_exist s) (hs' : lines_exist s') :
    drawing (draw fm g d color s) = drawing (draw fm g d' color' s') := by
  obtain ⟨a, b, c, e, h1, h2, h3, h4⟩ := lines_exist_some hs
  obtain ⟨a', b', c', e', h1', h2', h3', h4'⟩ := lines_exist_some hs'
  cases g with
  | uturn =>
    simp only [drawing, draw, uturn_glyph, ARROW_COLOR, show_poly_with_heads,
      set_arrow_points_uturn, reset_arrows, hide_all_arrows, part_points_set_line_color,
      part_points_add_hidden, part_points_clear_hidden]
    simp [set_points, add_hidden, set_line_color, h1, h2, h3, h4, h1', h2', h3', h4', store,
      List.take_append_eq_append_take]
  | keep r =>
    simp only [drawing, draw, keep_glyph, ARROW_COLOR, show_poly_with_heads,
      set_arrow_points_keep, reset_arrows, hide_all_arrows, part_points_set_line_color,
      part_points_add_hidden, part_points_clear_hidden]
    cases r <;>
    simp [set_points, add_hidden, set_line_color, h1, h2, h3, h4, h1', h2', h3', h4', store,
      List.take_append_eq_append_take]
  | sharp r =>
    simp only [drawing, draw, sharp_glyph, ARROW_COLOR, show_poly_with_heads,
      set_arrow_points_sharp, reset_arrows, hide_all_arrows, part_points_set_line_color,
      part_points_add_hidden, part_points_clear_hidden]
    simp [set_points, add_hidden, set_line_color, h1, h2, h3, h4, h1', h2', h3', h4', store,
      List.take_append_eq_append_take]
  | slight r =>
    simp only [drawing, draw, slight_glyph, ARROW_COLOR, show_poly_with_heads,
      set_arrow_points_slight, reset_arrows, hide_all_arrows, part_points_set_line_color,
      part_points_add_hidden, part_points_clear_hidden]
    simp [set_points, add_hidden, set_line_color, h1, h2, h3, h4, h1', h2', h3', h4', store,
      List.take_append_eq_append_take]
  | roundabout x =>
    simp only [drawing, draw, roundabout_glyph, ARROW_COLOR, show_poly_with_heads,
      set_arrow_points_roundabout, reset_arrows, hide_all_arrows, part_points_set_line_color,
      part_points_add_hidden, part_points_clear_hidden]
    simp [set_points, add_hidden, set_line_color, h1, h2, h3, h4, h1', h2', h3', h4', store,
      List.take_append_eq_append_take]
  | turn r =>
    simp only [drawing, draw, turn_glyph, ARROW_COLOR, show_shaft_head,
      set_arrow_points_left_right, reset_arrows, hide_all_arrows, part_points_set_line_color,
      part_points_add_hidden, part_points_clear_hidden]
    cases r <;>
    simp [set_points, add_hidden, set_line_color, h1, h2, h3, h4, h1', h2', h3', h4']
  | destination =>
    cases hp : s.flag_pole <;> cases ht : s.flag_triangle <;>
      cases hp' : s'.flag_pole <;> cases ht' : s'.flag_triangle <;>
      simp [drawing, part_points, draw, destination_glyph, show_flag, set_flag_symbol,
        new_flag_line, reset_arrows, hide_all_arrows, add_hidden, clear_hidden, set_line_color,
        set_points, h1, h2, h3, h4, h1', h2', h3', h4', hp, ht, hp', ht']
  | straight =>
    simp only [drawing, draw, straight_glyph, ARROW_COLOR, show_shaft_head,
      set_arrow_points_straight, reset_arrows, hide_all_arrows, part_points_set_line_color,
      part_points_add_hidden, part_points_clear_hidden]
    simp [set_points, add_hidden, set_line_color, h1, h2, h3, h4, h1', h2', h3', h4']
  | none =>
    simp only [drawing, draw, reset_arrows, hide_all_arrows, part_points_set_line_color,
      part_points_add_hidden, part_points_clear_hidden]

/-- What `update_arrow_image` draws does not depend on the state it starts
from, as long as the four line objects exist. -/
theorem drawing_update_arrow_image (fm : FloatOps) (dir : Option (List Char))
    (color color' : Nat) (s s' : NavState) (hs : lines_exist s) (hs' : lines_exist s') :
    drawing (update_arrow_image fm dir color s)
      = drawing (update_arrow_image fm dir color' s') := by
  rw [update_arrow_image_eq_draw fm dir color s hs,
    update_arrow_image_eq_draw fm dir color' s' hs']
  exact drawing_draw fm _ _ _ color color' s s' hs hs'

/-- The cache is sound whenever the second instruction is not the 31-character
prefix of a longer first one: after `update_direction(a)` and
`update_direction(b)` on the created screen, the glyph on screen is the one
`update_arrow_image` draws for `b`. -/
theorem direction_cache_sound (fm : FloatOps) (a b : List Char) (x y : Bool) (ha : a ≠ [])
    (hb : b ≠ []) (h : b = a.take 31 → a.length ≤ 31) :
    drawing (ui_navigation_screen_update_direction fm (some b) y
        (ui_navigation_screen_update_direction fm (some a) x (created fm)))
      = drawing (update_arrow_image fm (some b) COLOR_ARROW_STRAIGHT (created fm)) := by
  have hc : lines_exist (created fm) := ⟨rfl, rfl, rfl, rfl⟩
  have hcur : (created fm).current_direction = [] := rfl
  have hl : lines_exist { created fm with current_direction := a.take 31 } := hc
  have e1 : ui_navigation_screen_update_direction fm (some a) x (created fm)
      = update_arrow_image fm (some a) COLOR_ARROW_STRAIGHT
          { created fm with current_direction := a.take 31 } := by
    unfold ui_navigation_screen_update_direction
    simp only []
    rw [if_neg (by rw [hcur]; exact fun h => ha h.symm), if_neg ha]
  have hl1 : lines_exist (ui_navigation_screen_update_direction fm (some a) x (created fm)) := by
    rw [e1]
    exact (update_arrow_image_lines_exist fm _ _ _).2 hl
  have c1 : (ui_navigation_screen_update_direction fm (some a) x (created fm)).current_direction
      = a.take 31 := by
    rw [e1, update_arrow_image_current_direction]
  by_cases hab : b = a.take 31
  · have hlen := h hab
    have hba : b = a := by rw [hab, List.take_of_length_le hlen]
    subst hba
    have e2 : ui_navigation_screen_update_direction fm (some b) y
        (ui_navigation_screen_update_direction fm (some b) x (created fm))
        = ui_navigation_screen_update_direction fm (some b) x (created fm) := by
      generalize ui_navigation_screen_update_direction fm (some b) x (created fm) = t at c1
      unfold ui_navigation_screen_update_direction
      simp only []
      rw [if_pos (c1.trans hab.symm)]
    rw [e2, e1]
    exact drawing_update_arrow_image fm _ _ _ _ _ hl hc
  · have e2 : ui_navigation_screen_update_direction fm (some b) y
        (ui_navigation_screen_update_direction fm (some a) x (created fm))
        = update_arrow_image fm (some b) COLOR_ARROW_STRAIGHT
            { ui_navigation_screen_update_direction fm (some a) x (created fm) with
              current_direction := b.take 31 } := by
      generalize ui_navigation_screen_update_direction fm (some a) x (created fm) = t at c1
      unfold ui_navigation_screen_update_direction
      simp only []
      rw [if_neg (by rw [c1]; exact fun h => hab h.symm), if_neg hb]
    rw [e2]
    exact drawing_update_arrow_image fm _ _ _ _ _ hl1 hc

/-! ## The navigation root is live in every state the program reaches -/

/-- The rounded quotient is within one half of the quotient. -/
theorem round_half_even_near (p q : Nat) (hq : 0 < q) :
    2 * (Binary32.round_half_even p q * q) ≤ 2 * p + q
      ∧ 2 * p ≤ 2 * (Binary32.round_half_even p q * q) + q := by
  have h := Nat.div_add_mod p q
  have hr := Nat.mod_lt p hq
  have e : (p / q + 1) * q = q * (p / q) + q := by ring
  have e0 : p / q * q = q * (p / q) := by ring
  unfold Binary32.round_half_even
  split_ifs <;> simp only [e, e0] <;> omega

theorem round_half_even_one (p : Nat) : Binary32.round_half_even p 1 = p := by
  simp [Binary32.round_half_even, Nat.mod_one]

theorem ilog2_fuel_bounds (fuel n : Nat) (hn : 1 ≤ n) (hf : n ≤ fuel) :
    2 ^ Binary32.ilog2_fuel fuel n ≤ n ∧ n < 2 ^ (Binary32.ilog2_fuel fuel n + 1) := by
  induction fuel generalizing n with
  | zero => omega
  | succ f ih =>
    unfold Binary32.ilog2_fuel
    by_cases h : n < 2
    · rw [if_pos h]
      simp
      omega
    · rw [if_neg h]
      have := ih (n / 2) (by omega) (by omega)
      rw [pow_succ, pow_succ (2 : Nat) (Binary32.ilog2_fuel f (n / 2) + 1)]
      omega

theorem ilog2_bounds (n : Nat) (hn : 1 ≤ n) :
    2 ^ Binary32.ilog2 n ≤ n ∧ n < 2 ^ (Binary32.ilog2 n + 1) :=
  ilog2_fuel_bounds n n hn (le_refl n)

theorem ilog2_eq (n k : Nat) (h1 : 2 ^ k ≤ n) (h2 : n < 2 ^ (k + 1)) : Binary32.ilog2 n = k := by
  have hn : 1 ≤ n := le_trans Nat.one_le_two_pow h1
  obtain ⟨b1, b2⟩ := ilog2_bounds n hn
  have a1 : Binary32.ilog2 n < k + 1 :=
    (Nat.pow_lt_pow_iff_right (by decide : 1 < 2)).1 (lt_of_le_of_lt b1 h2)
  have a2 : k < Binary32.ilog2 n + 1 :=
    (Nat.pow_lt_pow_iff_right (by decide : 1 < 2)).1 (lt_of_le_of_lt h1 b2)
  omega

/-- A fraction below `2 ^ (N + 1)` has binary exponent at most `N`. -/
theorem floor_log2_le (p q N : Nat) (hp : 1 ≤ p) (hq : 1 ≤ q) (h : p < 2 ^ (N + 1) * q) :
    Binary32.floor_log2 p q ≤ N := by
  obtain ⟨p1, p2⟩ := ilog2_bounds p hp
  obtain ⟨q1, q2⟩ := ilog2_bounds q hq
  unfold Binary32.floor_log2
  split_ifs with c
  · have : 2 ^ Binary32.ilog2 p < 2 ^ (N + 1 + Binary32.ilog2 q) := by
      have a : q * 2 ^ Binary32.ilog2 p < q * 2 ^ (N + 1 + Binary32.ilog2 q) := by
        calc q * 2 ^ Binary32.ilog2 p ≤ p * 2 ^ Binary32.ilog2 q := c
          _ < 2 ^ (N + 1) * q * 2 ^ Binary32.ilog2 q :=
            Nat.mul_lt_mul_of_pos_right h (Nat.two_pow_pos _)
          _ = q * 2 ^ (N + 1 + Binary32.ilog2 q) := by rw [pow_add]; ring
      exact Nat.lt_of_mul_lt_mul_left a
    have := (Nat.pow_lt_pow_iff_right (by decide : 1 < 2)).1 this
    omega
  · have : 2 ^ Binary32.ilog2 p < 2 ^ (N + 1 + (Binary32.ilog2 q + 1)) := by
      calc 2 ^ Binary32.ilog2 p ≤ p := p1
        _ < 2 ^ (N + 1) * q := h
        _ < 2 ^ (N + 1) * 2 ^ (Binary32.ilog2 q + 1) :=
          Nat.mul_lt_mul_of_pos_left q2 (Nat.two_pow_pos _)
        _ = 2 ^ (N + 1 + (Binary32.ilog2 q + 1)) := by rw [← pow_add]
    have := (Nat.pow_lt_pow_iff_right (by decide : 1 < 2)).1 this
    omega

/-- The binary exponent of a whole number is the position of its leading
digit. -/
theorem floor_log2_one (p k : Nat) (h1 : 2 ^ k ≤ p) (h2 : p < 2 ^ (k + 1)) :
    Binary32.floor_log2 p 1 = k := by
  have e1 : Binary32.ilog2 1 = 0 := by decide
  have ep := ilog2_eq p k h1 h2
  unfold Binary32.floor_log2
  rw [e1, ep, if_pos (by simpa using h1)]
  simp

/-- A fraction below `2 ^ 23` is rounded on a grid `2 ^ (-E)` at least as fine
as its size allows. -/
theorem round_small (p q N : Nat) (hp : 1 ≤ p) (hq : 1 ≤ q) (h : p < 2 ^ (N + 1) * q)
    (hN : N ≤ 22) :
    ∃ E : Nat, 23 - N ≤ E
      ∧ Binary32.round false p q
        = ⟨(Binary32.round_half_even (p * 2 ^ E) q : Nat), 2 ^ E⟩ := by
  have hl := floor_log2_le p q N hp hq h
  have hpq : ¬ (p = 0 ∨ q = 0) := by omega
  have he : max (Binary32.floor_log2 p q - 23) (-149) ≤ (N : Int) - 23 :=
    max_le (by omega) (by omega)
  refine ⟨(-(max (Binary32.floor_log2 p q - 23) (-149))).toNat, by omega, ?_⟩
  unfold Binary32.round
  rw [if_neg hpq]
  simp only []
  rw [if_neg (by omega)]
  simp

/-- The conversion of a whole number, by the position `k` of its leading
digit: exact below `2 ^ 24`, rounded to a multiple of `2 ^ (k - 23)` above. -/
theorem round_whole (p k : Nat) (h1 : 2 ^ k ≤ p) (h2 : p < 2 ^ (k + 1)) :
    Binary32.round false p 1
      = if 23 ≤ k then
          ⟨(Binary32.round_half_even p (2 ^ (k - 23)) * 2 ^ (k - 23) : Nat), 1⟩
        else ⟨(p * 2 ^ (23 - k) : Nat), 2 ^ (23 - k)⟩ := by
  have hp : 1 ≤ p := le_trans Nat.one_le_two_pow h1
  have hl := floor_log2_one p k h1 h2
  have hpq : ¬ (p = 0 ∨ 1 = 0) := by omega
  have he : max ((k : Int) - 23) (-149) = (k : Int) - 23 := max_eq_left (by omega)
  unfold Binary32.round
  rw [if_neg hpq, hl]
  simp only []
  rw [he]
  by_cases hk : 23 ≤ k
  · rw [if_pos (by omega), if_pos hk]
    have : ((k : Int) - 23).toNat = k - 23 := by omega
    rw [this]
    simp
  · rw [if_neg (by omega), if_neg hk]
    have : (-((k : Int) - 23)).toNat = 23 - k := by omega
    rw [this, round_half_even_one]
    simp

theorem ofInt_nat (d : Nat) : Binary32.ofInt (d : Int) = Binary32.round false d 1 := by
  unfold Binary32.ofInt Binary32.ofFrac
  have : decide ((d : Int) < 0) = false := by simp
  rw [this, Int.natAbs_ofNat]

theorem ofDec_1000 : Binary32.ofDec 10000 1 = ⟨16384000, 16384⟩ := by decide

/-- The quotient by `1000.0f` of the value `v` (held as `v * c / c`). -/
theorem div_1000 (v c : Nat) :
    Binary32.div ⟨(v * c : Nat), c⟩ (Binary32.ofDec 10000 1)
      = Binary32.round false (v * c * 16384) (c * 16384000) := by
  rw [ofDec_1000]
  unfold Binary32.div Binary32.ofFrac
  have h1 : ¬ ((16384000 : Int) < 0) := by decide
  simp only [if_neg h1]
  have h2 : decide ((((v * c : Nat) : Int) * ((16384 : Nat) : Int)) < 0) = false := by
    rw [decide_eq_false_iff_not, not_lt]
    positivity
  rw [h2]
  congr 1

/-- The arithmetic of the two roundings: `m` is the quotient `d' / 1000` on the
grid `1 / X` and `t` its tenths. -/
theorem tenths_core (d' m t X g : Nat) (hg : 0 < g) (hX : 256 ≤ X)
    (h1 : 2 * (m * (g * 1000)) ≤ 2 * (d' * g * X) + g * 1000)
    (h2 : 2 * (d' * g * X) ≤ 2 * (m * (g * 1000)) + g * 1000)
    (h3 : 2 * (t * X) ≤ 2 * (10 * m) + X) (h4 : 2 * (10 * m) ≤ 2 * (t * X) + X) :
    (100 * t ≤ d' + 51 ∧ d' ≤ 100 * t + 51)
      ∧ (512 ≤ X → 100 * t ≤ d' + 50 ∧ d' ≤ 100 * t + 50) := by
  have a1 : 2000 * m ≤ 2 * (d' * X) + 1000 := by
    by_contra hc
    push_neg at hc
    have := Nat.mul_lt_mul_of_pos_left hc hg
    nlinarith
  have a2 : 2 * (d' * X) ≤ 2000 * m + 1000 := by
    by_contra hc
    push_neg at hc
    have := Nat.mul_lt_mul_of_pos_left hc hg
    nlinarith
  refine ⟨⟨?_, ?_⟩, fun hX2 => ⟨?_, ?_⟩⟩
  · by_contra hc
    push_neg at hc
    have := Nat.mul_le_mul_right X (Nat.succ_le_of_lt hc)
    nlinarith
  · by_contra hc
    push_neg at hc
    have := Nat.mul_le_mul_right X (Nat.succ_le_of_lt hc)
    nlinarith
  · by_contra hc
    push_neg at hc
    have := Nat.mul_le_mul_right X (Nat.succ_le_of_lt hc)
    nlinarith
  · by_contra hc
    push_neg at hc
    have := Nat.mul_le_mul_right X (Nat.succ_le_of_lt hc)
    nlinarith

/-- The tenths printed for the single precision value `v` (held as
`v * c / c`) divided by `1000.0f`: within 51 hundredths of a tenth of
`v / 1000` below 65 536 000, within 50 below 32 768 000. -/
theorem tenths_div_1000 (v c N : Nat) (hv : 1 ≤ v) (hc : 1 ≤ c)
    (h : v < 2 ^ (N + 1) * 1000) (hN : N ≤ 15) :
    (100 * Binary32.tenths (Binary32.div ⟨(v * c : Nat), c⟩ (Binary32.ofDec 10000 1)) ≤ v + 51
      ∧ v ≤ 100 * Binary32.tenths
          (Binary32.div ⟨(v * c : Nat), c⟩ (Binary32.ofDec 10000 1)) + 51)
    ∧ (N ≤ 14 →
      100 * Binary32.tenths (Binary32.div ⟨(v * c : Nat), c⟩ (Binary32.ofDec 10000 1)) ≤ v + 50
      ∧ v ≤ 100 * Binary32.tenths
          (Binary32.div ⟨(v * c : Nat), c⟩ (Binary32.ofDec 10000 1)) + 50) := by
  have hp : 1 ≤ v * c * 16384 := by
    have := Nat.mul_le_mul (Nat.mul_le_mul hv hc) (by decide : 1 ≤ 16384)
    simpa using this
  have hq : 1 ≤ c * 16384000 := by
    have := Nat.mul_le_mul hc (by decide : 1 ≤ 16384000)
    simpa using this
  have hlt : v * c * 16384 < 2 ^ (N + 1) * (c * 16384000) := by
    have := Nat.mul_lt_mul_of_pos_right h (by omega : 0 < c * 16384)
    calc v * c * 16384 = v * (c * 16384) := by ring
      _ < 2 ^ (N + 1) * 1000 * (c * 16384) := this
      _ = 2 ^ (N + 1) * (c * 16384000) := by ring
  obtain ⟨E, hE, e⟩ := round_small _ _ N hp hq hlt (by omega)
  rw [div_1000, e]
  unfold Binary32.tenths
  simp only [Int.natAbs_ofNat]
  obtain ⟨r1, r2⟩ := round_half_even_near (v * c * 16384 * 2 ^ E) (c * 16384000) hq
  obtain ⟨r3, r4⟩ := round_half_even_near
    (10 * Binary32.round_half_even (v * c * 16384 * 2 ^ E) (c * 16384000)) (2 ^ E)
    (Nat.two_pow_pos E)
  have hX : 256 ≤ 2 ^ E := by
    have : 2 ^ 8 ≤ 2 ^ E := Nat.pow_le_pow_right (by decide) (by omega)
    simpa using this
  have core := tenths_core v
    (Binary32.round_half_even (v * c * 16384 * 2 ^ E) (c * 16384000))
    (Binary32.round_half_even
      (10 * Binary32.round_half_even (v * c * 16384 * 2 ^ E) (c * 16384000)) (2 ^ E))
    (2 ^ E) (c * 16384) (by omega) hX
    (by calc _ = 2 * (Binary32.round_half_even (v * c * 16384 * 2 ^ E) (c * 16384000)
            * (c * 16384000)) := by ring
          _ ≤ 2 * (v * c * 16384 * 2 ^ E) + c * 16384000 := r1
          _ = _ := by ring)
    (by calc _ = 2 * (v * c * 16384 * 2 ^ E) := by ring
          _ ≤ 2 * (Binary32.round_half_even (v * c * 16384 * 2 ^ E) (c * 16384000)
            * (c * 16384000)) + c * 16384000 := r2
          _ = _ := by ring)
    r3 r4
  refine ⟨core.1, fun hN2 => core.2 ?_⟩
  have : 2 ^ 9 ≤ 2 ^ E := Nat.pow_le_pow_right (by decide) (by omega)
  simpa using this

theorem round_half_even_two (d : Nat) :
    Binary32.round_half_even d 2 * 2 = d
      ∨ ((Binary32.round_half_even d 2 * 2) % 4 = 0
        ∧ (Binary32.round_half_even d 2 * 2 = d + 1 ∨ Binary32.round_half_even d 2 * 2 + 1 = d)) := by
  unfold Binary32.round_half_even
  split_ifs <;> omega

theorem round_half_even_four (d : Nat) :
    (Binary32.round_half_even d 4 * 4) % 4 = 0
      ∧ Binary32.round_half_even d 4 * 4 ≤ d + 2 ∧ d ≤ Binary32.round_half_even d 4 * 4 + 2 := by
  unfold Binary32.round_half_even
  split_ifs <;> omega

/-- The last distances for which the km text is a nearest tenth, evaluated. -/
theorem km_tenths_top (d : Nat) (h1 : 65535998 ≤ d) (h2 : d ≤ 65536150) :
    100 * km_tenths d ≤ d + 50 ∧ d ≤ 100 * km_tenths d + 50 := by
  interval_cases d <;> decide

/-- Up to 65 536 150 m the tenths of the km text are a tenth nearest to
`d / 1000`. -/
theorem km_tenths_near (d : Nat) (h1 : 1000 ≤ d) (h2 : d ≤ 65536150) :
    100 * km_tenths d ≤ d + 50 ∧ d ≤ 100 * km_tenths d + 50 := by
  by_cases htop : 65535998 ≤ d
  · exact km_tenths_top d htop h2
  have hd : 1 ≤ d := by omega
  obtain ⟨b1, b2⟩ := ilog2_bounds d hd
  have hk : Binary32.ilog2 d < 26 := by
    apply (Nat.pow_lt_pow_iff_right (by decide : 1 < 2)).1
    have : d < 2 ^ 26 := by norm_num; omega
    exact lt_of_le_of_lt b1 this
  have e := round_whole d (Binary32.ilog2 d) b1 b2
  unfold km_tenths
  rw [ofInt_nat, e]
  by_cases k23 : Binary32.ilog2 d < 23
  · rw [if_neg (by omega)]
    have hlt : d < 2 ^ (14 + 1) * 1000 := by
      have : 2 ^ (Binary32.ilog2 d + 1) ≤ 2 ^ 23 := Nat.pow_le_pow_right (by decide) (by omega)
      have := lt_of_lt_of_le b2 this
      norm_num at this ⊢
      omega
    exact (tenths_div_1000 d (2 ^ (23 - Binary32.ilog2 d)) 14 hd Nat.one_le_two_pow hlt
      (by omega)).2 (le_refl _)
  rw [if_pos (by omega)]
  have hcase : Binary32.ilog2 d = 23 ∨ Binary32.ilog2 d = 24 ∨ Binary32.ilog2 d = 25 := by
    omega
  rcases hcase with hk | hk | hk
  · rw [hk]
    have ev : Binary32.round_half_even d (2 ^ (23 - 23)) * 2 ^ (23 - 23) = d * 1 := by
      simp [round_half_even_one]
    rw [ev]
    have hlt : d < 2 ^ (14 + 1) * 1000 := by
      rw [hk] at b2
      norm_num at b2 ⊢
      omega
    exact (tenths_div_1000 d 1 14 hd (le_refl 1) hlt (by omega)).2 (le_refl _)
  · rw [hk]
    rw [hk] at b1 b2
    norm_num at b1 b2
    have ev : Binary32.round_half_even d (2 ^ (24 - 23)) * 2 ^ (24 - 23)
        = Binary32.round_half_even d 2 * 2 * 1 := by norm_num
    rw [ev]
    have par := round_half_even_two d
    have hv : 1 ≤ Binary32.round_half_even d 2 * 2 := by omega
    have hlt : Binary32.round_half_even d 2 * 2 < 2 ^ (15 + 1) * 1000 := by
      norm_num
      omega
    have near := (tenths_div_1000 (Binary32.round_half_even d 2 * 2) 1 15 hv (le_refl 1) hlt
      (le_refl _)).1
    omega
  · rw [hk]
    rw [hk] at b1 b2
    norm_num at b1 b2
    have ev : Binary32.round_half_even d (2 ^ (25 - 23)) * 2 ^ (25 - 23)
        = Binary32.round_half_even d 4 * 4 * 1 := by norm_num
    rw [ev]
    have par := round_half_even_four d
    have hv : 1 ≤ Binary32.round_half_even d 4 * 4 := by omega
    have hlt : Binary32.round_half_even d 4 * 4 < 2 ^ (15 + 1) * 1000 := by
      norm_num
      omega
    have near := (tenths_div_1000 (Binary32.round_half_even d 4 * 4) 1 15 hv (le_refl 1) hlt
      (le_refl _)).1
    omega

theorem round_false_num_nonneg (p q : Nat) : 0 ≤ (Binary32.round false p q).num := by
  unfold Binary32.round
  by_cases hpq : p = 0 ∨ q = 0
  · rw [if_pos hpq]
  · rw [if_neg hpq]
    simp only [Bool.false_eq_true, if_false, one_mul]
    split_ifs
    · exact Int.natCast_nonneg _
    · exact Int.natCast_nonneg _

theorem toDigits_length_le_eight (n : Nat) (h : n < 10 ^ 8) : (Nat.toDigits 10 n).length ≤ 8 :=
  Nat.toDigitsCore_length 10 (by decide) (n + 1) n 8 h (by decide)

theorem toDigits_digit (n : Nat) (h : n < 10) : (Nat.toDigits 10 n).length = 1 := by
  interval_cases n <;> rfl

/-- The km text under binary32 arithmetic, for a distance of at most
65 536 150 m: the tenths `km_tenths d` with one decimal digit. -/
theorem km_text_binary32 (d : Nat) (h1 : 1000 ≤ d) (h2 : d ≤ 65536150) :
    snprintf_32 (Binary32.fmt_1f (Binary32.div (Binary32.ofInt (d : Int))
        (Binary32.ofDec 10000 1)) ++ " km".toList)
      = Nat.toDigits 10 (km_tenths d / 10) ++ ['.'] ++ Nat.toDigits 10 (km_tenths d % 10)
          ++ " km".toList := by
  have hn : ¬ (Binary32.div (Binary32.ofInt (d : Int)) (Binary32.ofDec 10000 1)).num < 0 := by
    rw [not_lt]
    unfold Binary32.div Binary32.ofFrac
    have h1 : ¬ (Binary32.ofDec 10000 1).num < 0 := by rw [ofDec_1000]; decide
    rw [if_neg h1]
    have h2 : decide ((Binary32.ofInt (d : Int)).num * ((Binary32.ofDec 10000 1).den : Int) < 0)
        = false := by
      rw [decide_eq_false_iff_not, not_lt, ofInt_nat]
      exact mul_nonneg (round_false_num_nonneg _ _) (Int.natCast_nonneg _)
    rw [h2]
    exact round_false_num_nonneg _ _
  have near := km_tenths_near d h1 h2
  have e : Binary32.fmt_1f (Binary32.div (Binary32.ofInt (d : Int)) (Binary32.ofDec 10000 1))
      = Nat.toDigits 10 (km_tenths d / 10) ++ ['.'] ++ Nat.toDigits 10 (km_tenths d % 10) := by
    unfold Binary32.fmt_1f
    rw [if_neg hn]
    rfl
  rw [e]
  unfold snprintf_32
  apply List.take_of_length_le
  have l1 := toDigits_length_le_eight (km_tenths d / 10) (by norm_num; omega)
  have l2 := toDigits_digit (km_tenths d % 10) (Nat.mod_lt _ (by decide))
  have l3 : " km".toList.length = 3 := by decide
  simp only [List.length_append, List.length_singleton]
  omega

/-- C15 as first stated fails.  Under binary32 arithmetic, with the label
present, 2 147 483 647 m gives "2147483.8 km", where `d / 1000` is
2147483.647: the printed tenths are more than a whole tenth above it.  The
least distance at which the text is not a tenth nearest to `d / 1000` is
65 536 151 m, which gives "65536.1 km" for 65536.151. -/
theorem update_distance_km_coarse :
    (created fixedPoint).label_distance.isSome = true
      ∧ (ui_navigation_screen_update_distance (binary32 (fun x => x) (fun x => x) (fun y _ => y))
          Binary32.fmt_1f 2147483647 true (created fixedPoint)).label_distance
        = some "2147483.8 km".toList
      ∧ km_tenths 2147483647 = 21474838
      ∧ ¬ (100 * (21474838 : Int) ≤ 2147483647 + 100)
      ∧ (ui_navigation_screen_update_distance (binary32 (fun x => x) (fun x => x) (fun y _ => y))
          Binary32.fmt_1f 65536151 true (created fixedPoint)).label_distance
        = some "65536.1 km".toList
      ∧ km_tenths 65536151 = 655361
      ∧ ¬ ((65536151 : Int) ≤ 100 * 655361 + 50) := by
  refine ⟨?_, ?_, ?_, ?_, ?_, ?_, ?_⟩ <;> decide

/-- C15, amended.  With the distance label present and single precision
arithmetic as IEEE 754 binary32 fixes it (whatever the library functions
`cosf`, `sinf`, `atan2f` are): for every 1000 <= d <= 65 536 150,
`ui_navigation_screen_update_distance(d)` sets the label text to the integer
digits of `t / 10`, a point, exactly one decimal digit `t % 10` and " km",
where `t / 10` is a tenth nearest to `d / 1000`, that is
`|100 t - d| <= 50`; `t` is `km_tenths d`, the `%.1f` rounding of
`(float)d / 1000.0f`. -/
theorem update_distance_km_nearest_tenth (cosf sinf : Binary32 → Binary32)
    (atan2f : Binary32 → Binary32 → Binary32) (d : Int) (animated : Bool) (s : NavState)
    (hl : s.label_distance.isSome = true) (h1 : 1000 ≤ d) (h2 : d ≤ 65536150) :
    ∃ t : Nat, t = km_tenths d
      ∧ (ui_navigation_screen_update_distance (binary32 cosf sinf atan2f) Binary32.fmt_1f d
          animated s).label_distance
        = some (Nat.toDigits 10 (t / 10) ++ ['.'] ++ Nat.toDigits 10 (t % 10) ++ " km".toList)
      ∧ (Nat.toDigits 10 (t % 10)).length = 1
      ∧ 100 * (t : Int) ≤ d + 50 ∧ d ≤ 100 * (t : Int) + 50 := by
  obtain ⟨n, rfl⟩ : ∃ n : Nat, d = (n : Int) := ⟨d.toNat, by omega⟩
  have n1 : 1000 ≤ n := by omega
  have n2 : n ≤ 65536150 := by omega
  have near := km_tenths_near n n1 n2
  refine ⟨km_tenths (n : Int), rfl, ?_, toDigits_digit _ (Nat.mod_lt _ (by decide)), ?_, ?_⟩
  · rw [update_distance_km_text (binary32 cosf sinf atan2f) Binary32.fmt_1f (n : Int) animated s
      hl h1]
    exact congrArg some (km_text_binary32 n n1 n2)
  · omega
  · omega

/-- C15, witness: 1500 gives "1.5 km" and 1000 gives "1.0 km" on the created
screen. -/
theorem update_distance_km_nearest_tenth_witness :
    (created fixedPoint).label_distance.isSome = true
      ∧ (1000 : Int) ≤ 1500 ∧ (1500 : Int) ≤ 65536150
      ∧ (∃ t : Nat, t = km_tenths 1500
        ∧ (ui_navigation_screen_update_distance
            (binary32 (fun x => x) (fun x => x) (fun y _ => y)) Binary32.fmt_1f 1500 true
            (created fixedPoint)).label_distance
          = some (Nat.toDigits 10 (t / 10) ++ ['.'] ++ Nat.toDigits 10 (t % 10)
              ++ " km".toList)
        ∧ (Nat.toDigits 10 (t % 10)).length = 1
        ∧ 100 * (t : Int) ≤ 1500 + 50 ∧ (1500 : Int) ≤ 100 * (t : Int) + 50)
      ∧ (ui_navigation_screen_update_distance
          (binary32 (fun x => x) (fun x => x) (fun y _ => y)) Binary32.fmt_1f 1500 true
          (created fixedPoint)).label_distance = some "1.5 km".toList
      ∧ (ui_navigation_screen_update_distance
          (binary32 (fun x => x) (fun x => x) (fun y _ => y)) Binary32.fmt_1f 1000 true
          (created fixedPoint)).label_distance = some "1.0 km".toList :=
  ⟨by decide, by decide, by decide,
    update_distance_km_nearest_tenth (fun x => x) (fun x => x) (fun y _ => y) 1500 true
      (created fixedPoint) (by decide) (by decide) (by decide),
    by decide, by decide⟩

end SmartDisplay
